import Mathlib

set_option maxHeartbeats 2000000

/-
Formal model of trapframe-rs, file src/arch/x86_64/fncall.rs.

The source is x86-64 assembly (plus one small Rust wrapper) implementing
same-privilege context switching between a host and a guest:

  - syscall_fn_entry  : guest to host ("Enter"), invoked by the guest through
    a call instruction substituted for a syscall instruction;
  - syscall_fn_return : host to guest ("Resume"), invoked by the host with a
    mutable pointer to a trap frame (struct GeneralRegs) in rdi.

We shallowly embed the routines over a machine state holding the sixteen
general-purpose registers, rip, rflags, the fs base register, and a memory
of 8-byte slots (byte addresses; every memory access in the code is 8 bytes
wide). Values and addresses are natural numbers; 64-bit truncation is
explicit through wrap. Each instruction of the source is one small state
transformer below, and the two routines are their composition in source
order. The Linux variant of the platform macros is transcribed into the
routines; the fs-base macros of both Linux and Darwin are additionally
modelled at the TLS projection level where claims concern them.

The one privileged instruction, syscall (arch_prctl SET_FS on Linux, the
set-gsbase thread call on Darwin), is modelled by its documented successful
effect: the active TLS base register is set to the supplied value and the
result register rax is 0. Its hardware clobbers of rcx and r11 are
immaterial here: in Resume every general-purpose register is overwritten by
the subsequent pops, and in Enter the routine then returns to host Rust
code for which rcx and r11 are caller-saved scratch.
-/

/-- Word size modulus of the 64-bit machine. -/
def W : Nat := 18446744073709551616

/-- Truncation of a natural number to 64 bits. -/
def wrap (n : Nat) : Nat := n % W

/-- Write of one 8-byte slot of memory at address a. -/
def store (m : Nat → Nat) (a v : Nat) : Nat → Nat :=
  fun x => if x = a then v else m x

/-- Machine state: the sixteen general-purpose registers, the instruction
pointer, the flags register, the fs segment base (the active TLS base
register on Linux), and memory. -/
structure Machine where
  rax : Nat
  rbx : Nat
  rcx : Nat
  rdx : Nat
  rsi : Nat
  rdi : Nat
  rbp : Nat
  rsp : Nat
  r8 : Nat
  r9 : Nat
  r10 : Nat
  r11 : Nat
  r12 : Nat
  r13 : Nat
  r14 : Nat
  r15 : Nat
  rip : Nat
  rflags : Nat
  fsbase : Nat
  mem : Nat → Nat

/-- Effect of a push instruction with value v: rsp decreases by 8 and the
value is stored at the new rsp. -/
def pushv (s : Machine) (v : Nat) : Machine :=
  { s with rsp := wrap (s.rsp + W - 8), mem := store s.mem (wrap (s.rsp + W - 8)) v }

/-- push rax -/
def pushRax (s : Machine) : Machine := pushv s s.rax

/-- push rbx -/
def pushRbx (s : Machine) : Machine := pushv s s.rbx

/-- push rcx -/
def pushRcx (s : Machine) : Machine := pushv s s.rcx

/-- push rdx -/
def pushRdx (s : Machine) : Machine := pushv s s.rdx

/-- push rsi -/
def pushRsi (s : Machine) : Machine := pushv s s.rsi

/-- push rdi -/
def pushRdi (s : Machine) : Machine := pushv s s.rdi

/-- push rbp -/
def pushRbp (s : Machine) : Machine := pushv s s.rbp

/-- push r8 -/
def pushR8 (s : Machine) : Machine := pushv s s.r8

/-- push r9 -/
def pushR9 (s : Machine) : Machine := pushv s s.r9

/-- push r10 -/
def pushR10 (s : Machine) : Machine := pushv s s.r10

/-- push r11 -/
def pushR11 (s : Machine) : Machine := pushv s s.r11

/-- push r12 -/
def pushR12 (s : Machine) : Machine := pushv s s.r12

/-- push r13 -/
def pushR13 (s : Machine) : Machine := pushv s s.r13

/-- push r14 -/
def pushR14 (s : Machine) : Machine := pushv s s.r14

/-- push r15 -/
def pushR15 (s : Machine) : Machine := pushv s s.r15

/-- push 0 -/
def pushZero (s : Machine) : Machine := pushv s 0

/-- pushfq: push the flags register. -/
def pushFlagsReg (s : Machine) : Machine := pushv s s.rflags

/-- push the quadword at address r11 - 8. -/
def pushMemR11minus8 (s : Machine) : Machine :=
  pushv s (s.mem (wrap (s.r11 + W - 8)))

/-- pop rax -/
def popRax (s : Machine) : Machine :=
  { s with rax := s.mem s.rsp, rsp := wrap (s.rsp + 8) }

/-- pop rbx -/
def popRbx (s : Machine) : Machine :=
  { s with rbx := s.mem s.rsp, rsp := wrap (s.rsp + 8) }

/-- pop rcx -/
def popRcx (s : Machine) : Machine :=
  { s with rcx := s.mem s.rsp, rsp := wrap (s.rsp + 8) }

/-- pop rdx -/
def popRdx (s : Machine) : Machine :=
  { s with rdx := s.mem s.rsp, rsp := wrap (s.rsp + 8) }

/-- pop rsi -/
def popRsi (s : Machine) : Machine :=
  { s with rsi := s.mem s.rsp, rsp := wrap (s.rsp + 8) }

/-- pop rdi -/
def popRdi (s : Machine) : Machine :=
  { s with rdi := s.mem s.rsp, rsp := wrap (s.rsp + 8) }

/-- pop rbp -/
def popRbp (s : Machine) : Machine :=
  { s with rbp := s.mem s.rsp, rsp := wrap (s.rsp + 8) }

/-- pop r8 -/
def popR8 (s : Machine) : Machine :=
  { s with r8 := s.mem s.rsp, rsp := wrap (s.rsp + 8) }

/-- pop r9 -/
def popR9 (s : Machine) : Machine :=
  { s with r9 := s.mem s.rsp, rsp := wrap (s.rsp + 8) }

/-- pop r10 -/
def popR10 (s : Machine) : Machine :=
  { s with r10 := s.mem s.rsp, rsp := wrap (s.rsp + 8) }

/-- pop r11 -/
def popR11 (s : Machine) : Machine :=
  { s with r11 := s.mem s.rsp, rsp := wrap (s.rsp + 8) }

/-- pop r12 -/
def popR12 (s : Machine) : Machine :=
  { s with r12 := s.mem s.rsp, rsp := wrap (s.rsp + 8) }

/-- pop r13 -/
def popR13 (s : Machine) : Machine :=
  { s with r13 := s.mem s.rsp, rsp := wrap (s.rsp + 8) }

/-- pop r14 -/
def popR14 (s : Machine) : Machine :=
  { s with r14 := s.mem s.rsp, rsp := wrap (s.rsp + 8) }

/-- pop r15 -/
def popR15 (s : Machine) : Machine :=
  { s with r15 := s.mem s.rsp, rsp := wrap (s.rsp + 8) }

/-- popfq: pop into the flags register. -/
def popFlagsReg (s : Machine) : Machine :=
  { s with rflags := s.mem s.rsp, rsp := wrap (s.rsp + 8) }

/-- pop rsp: load rsp from the top of the stack. -/
def popRsp (s : Machine) : Machine :=
  { s with rsp := s.mem s.rsp }

/-- lea r11, [rsp + 8] -/
def leaR11rsp8 (s : Machine) : Machine :=
  { s with r11 := wrap (s.rsp + 8) }

/-- lea rsp, [rsp + 20*8] -/
def leaRsp160 (s : Machine) : Machine :=
  { s with rsp := wrap (s.rsp + 160) }

/-- mov rsp, rdi -/
def movRspRdi (s : Machine) : Machine :=
  { s with rsp := s.rdi }

/-- mov rsp, [rsp - 8*11]: restore the guest rsp from the frame rsp field. -/
def movRspFrameRsp (s : Machine) : Machine :=
  { s with rsp := s.mem (wrap (s.rsp + W - 88)) }

/-- jmp r11: the final control transfer of syscall_fn_return. -/
def jmpR11 (s : Machine) : Machine :=
  { s with rip := s.r11 }

/-- ret: pop the return address into rip. -/
def retInstr (s : Machine) : Machine :=
  { s with rip := s.mem s.rsp, rsp := wrap (s.rsp + 8) }

/-- Linux macro SWITCH_TO_KERNEL_STACK:
mov rsp, fs:48 ; mov rsp, [rsp + 64]. -/
def SWITCH_TO_KERNEL_STACK (s : Machine) : Machine :=
  { s with rsp := s.mem (wrap (s.mem (wrap (s.fsbase + 48)) + 64)) }

/-- Linux macro SAVE_KERNEL_STACK: mov fs:64, rsp. -/
def SAVE_KERNEL_STACK (s : Machine) : Machine :=
  { s with mem := store s.mem (wrap (s.fsbase + 64)) s.rsp }

/-- Linux macro PUSH_USER_FSBASE: push fs:0. -/
def PUSH_USER_FSBASE (s : Machine) : Machine :=
  pushv s (s.mem s.fsbase)

/-- Linux macro SWITCH_TO_KERNEL_FSBASE:
mov eax, 158 ; mov edi, 0x1002 ; mov rsi, fs:48 ; syscall.
The syscall is arch_prctl SET_FS with the value in rsi: the fs base becomes
the value stashed at offset 48 of the current (guest) TLS block, and rax
holds the result 0. -/
def SWITCH_TO_KERNEL_FSBASE (s : Machine) : Machine :=
  { s with rax := 0, rdi := 4098, rsi := s.mem (wrap (s.fsbase + 48)),
           fsbase := s.mem (wrap (s.fsbase + 48)) }

/-- Linux macro POP_USER_FSBASE:
mov rsi, [rsp + 18*8] ; mov rdx, fs:0 ; test rsi, rsi ; jnz 1f ;
0: lea rsi, [rdx + 72] ; mov [rsi], rsi ;
1: mov eax, 158 ; mov edi, 0x1002 ; syscall ; mov fs:48, rdx.
Reads the guest fs base from the frame fsbase field (rsp points at the
frame); if it is zero, falls back to kernel fs base + 72 as the initial
guest fs base and writes that address into offset 0 of the new guest TLS
block (self pointer). The syscall installs the chosen base; then the
kernel fs base is stashed at offset 48 of the now active guest TLS block. -/
def POP_USER_FSBASE (s : Machine) : Machine :=
  let rsi0 := s.mem (wrap (s.rsp + 144))
  let rdx0 := s.mem s.fsbase
  if rsi0 ≠ 0 then
    { s with rsi := rsi0, rdx := rdx0, rax := 0, rdi := 4098, fsbase := rsi0,
             mem := store s.mem (wrap (rsi0 + 48)) rdx0 }
  else
    let b := wrap (rdx0 + 72)
    { s with rsi := b, rdx := rdx0, rax := 0, rdi := 4098, fsbase := b,
             mem := store (store s.mem b b) (wrap (b + 48)) rdx0 }

/-- syscall_fn_return (Resume), Linux variant, fncall.rs lines 191 to 227,
with the Linux macros of lines 54 to 81 expanded in place (macros expand
textually in the assembler). The routine is entered by a call, so
s.mem s.rsp holds the host return address; rdi holds the pointer to the
trap frame (struct GeneralRegs, twenty 8-byte fields rax rbx rcx rdx rsi
rdi rbp rsp r8 r9 r10 r11 r12 r13 r14 r15 rip rflags fsbase gsbase at
offsets 0, 8, ..., 152). The instruction sequence, innermost application
first: push r15 r14 r13 r12 rbp rbx, push rdi, SAVE_KERNEL_STACK,
mov rsp rdi, POP_USER_FSBASE, pop rax rbx rcx rdx rsi rdi rbp, pop r8
(skipping the rsp field) r8 r9 r10 r11 r12 r13 r14 r15, pop r11 (the rip
field; the source comment here reads FIXME do not overwrite r11), popfq,
mov rsp [rsp - 8*11], jmp r11. -/
def syscall_fn_return (s : Machine) : Machine :=
  s |> pushR15 |> pushR14 |> pushR13 |> pushR12 |> pushRbp |> pushRbx
    |> pushRdi
    |> SAVE_KERNEL_STACK
    |> movRspRdi
    |> POP_USER_FSBASE
    |> popRax |> popRbx |> popRcx |> popRdx |> popRsi |> popRdi |> popRbp
    |> popR8 |> popR8 |> popR9 |> popR10 |> popR11
    |> popR12 |> popR13 |> popR14 |> popR15
    |> popR11
    |> popFlagsReg
    |> movRspFrameRsp
    |> jmpR11

/-- syscall_fn_entry (Enter), Linux variant, fncall.rs lines 145 to 188,
with the Linux macros expanded in place. The routine is entered by a call
from guest code, so s.mem s.rsp holds the return address into the guest and
rsp + 8 is the guest stack pointer as it was before the call. The
instruction sequence, innermost application first: lea r11 [rsp+8],
SWITCH_TO_KERNEL_STACK, pop rsp, lea rsp [rsp + 20*8], push 0 (the ignored
gs_base slot), PUSH_USER_FSBASE, pushfq, push [r11 - 8] (the recorded rip),
push r15 r14 r13 r12 r11 r10 r9 r8, push r11 (the recorded rsp), push rbp
rdi rsi rdx rcx rbx rax, SWITCH_TO_KERNEL_STACK, pop rbx (discarding the
rdi slot) rbx rbp r12 r13 r14 r15, SWITCH_TO_KERNEL_FSBASE, ret. -/
def syscall_fn_entry (s : Machine) : Machine :=
  s |> leaR11rsp8
    |> SWITCH_TO_KERNEL_STACK
    |> popRsp
    |> leaRsp160
    |> pushZero
    |> PUSH_USER_FSBASE
    |> pushFlagsReg
    |> pushMemR11minus8
    |> pushR15 |> pushR14 |> pushR13 |> pushR12 |> pushR11
    |> pushR10 |> pushR9 |> pushR8
    |> pushR11
    |> pushRbp |> pushRdi |> pushRsi |> pushRdx |> pushRcx |> pushRbx |> pushRax
    |> SWITCH_TO_KERNEL_STACK
    |> popRbx |> popRbx |> popRbp |> popR12 |> popR13 |> popR14 |> popR15
    |> SWITCH_TO_KERNEL_FSBASE
    |> retInstr

/-- General-purpose register file of a trap frame. Modelled from the spec:
the struct GeneralRegs of the trap frame is declared outside the given
source file; its field order is fixed by the push sequence of
syscall_fn_entry (field order is a binding part of the contract). -/
structure GeneralRegs where
  rax : Nat
  rbx : Nat
  rcx : Nat
  rdx : Nat
  rsi : Nat
  rdi : Nat
  rbp : Nat
  rsp : Nat
  r8 : Nat
  r9 : Nat
  r10 : Nat
  r11 : Nat
  r12 : Nat
  r13 : Nat
  r14 : Nat
  r15 : Nat
  rip : Nat
  rflags : Nat
  fsbase : Nat
  gsbase : Nat

/-- User context holding the trap frame. Modelled from the spec: the
UserContext struct is declared outside the given source file; it holds the
register file plus the trap reason and auxiliary error code. -/
structure UserContext where
  general : GeneralRegs
  trap_num : Nat
  error_code : Nat

/-- UserContext.run_fncall from fncall.rs lines 33 to 39: it invokes
syscall_fn_return on the frame; control returns to it when the guest calls
syscall_fn_entry, at which point the frame memory holds the newly captured
guest register state (abstracted here as the argument captured); then
trap_num is set to 0x100 and error_code to 0. -/
def UserContext.run_fncall (ctx : UserContext) (captured : GeneralRegs) : UserContext :=
  { ctx with general := captured, trap_num := 256, error_code := 0 }

/-- Write of one slot, memory argument last, for building scenario
memories by pipeline. -/
def setSlot (a v : Nat) (m : Nat → Nat) : Nat → Nat := store m a v

/-- Kernel (host) fs base address in the concrete scenario layout. -/
def KFS : Nat := 65536

/-- Host stack pointer at entry to syscall_fn_return in the concrete
scenario layout (the slot it addresses holds the host return address). -/
def HOSTRSP : Nat := 131072

/-- Address of the trap frame in the concrete scenario layout. -/
def FRAME : Nat := 196608

/-- Guest fs base address in the concrete scenario layout (the established
guest TLS block). -/
def UFS : Nat := 262144

/-- Guest stack pointer right before the guest calls syscall_fn_entry in
the concrete scenario layout. -/
def GUESTRSP : Nat := 327680

/-- Concrete scenario memory: a base memory m overlaid with the host TLS
self pointer at KFS (glibc keeps the block base at offset 0), the guest TLS
self pointer at UFS (musl likewise), the twenty trap frame fields at FRAME,
and the host return address at HOSTRSP. -/
def scenarioMem (m : Nat → Nat)
    (vrax vrbx vrcx vrdx vrsi vrdi vrbp vrsp vr8 vr9 vr10 vr11 vr12 vr13
     vr14 vr15 vrip vrfl vfs vgs raHost : Nat) : Nat → Nat :=
  m |> setSlot KFS KFS |> setSlot UFS UFS
    |> setSlot FRAME vrax |> setSlot (FRAME + 8) vrbx
    |> setSlot (FRAME + 16) vrcx |> setSlot (FRAME + 24) vrdx
    |> setSlot (FRAME + 32) vrsi |> setSlot (FRAME + 40) vrdi
    |> setSlot (FRAME + 48) vrbp |> setSlot (FRAME + 56) vrsp
    |> setSlot (FRAME + 64) vr8 |> setSlot (FRAME + 72) vr9
    |> setSlot (FRAME + 80) vr10 |> setSlot (FRAME + 88) vr11
    |> setSlot (FRAME + 96) vr12 |> setSlot (FRAME + 104) vr13
    |> setSlot (FRAME + 112) vr14 |> setSlot (FRAME + 120) vr15
    |> setSlot (FRAME + 128) vrip |> setSlot (FRAME + 136) vrfl
    |> setSlot (FRAME + 144) vfs |> setSlot (FRAME + 152) vgs
    |> setSlot HOSTRSP raHost

/-- Host machine state at entry to syscall_fn_return in the concrete
scenario: rdi carries the frame pointer, rsp points at the host return
address, the fs base is the kernel one, memory is scenarioMem. The other
registers are those of c (arbitrary host register contents). -/
def hostStart (c : Machine)
    (vrax vrbx vrcx vrdx vrsi vrdi vrbp vrsp vr8 vr9 vr10 vr11 vr12 vr13
     vr14 vr15 vrip vrfl vfs vgs raHost : Nat) : Machine :=
  { c with rdi := FRAME, rsp := HOSTRSP, fsbase := KFS,
           mem := scenarioMem c.mem vrax vrbx vrcx vrdx vrsi vrdi vrbp vrsp
                    vr8 vr9 vr10 vr11 vr12 vr13 vr14 vr15 vrip vrfl vfs vgs
                    raHost }

/-- Guest-visible state just before the guest executes the call instruction
into syscall_fn_entry: starting from the state t in which Resume left the
guest, the guest has run arbitrary code and set its registers to arbitrary
new values, with its stack pointer at GUESTRSP; memory and the fs base are
as Resume left them. -/
def guestMutate (t : Machine)
    (grax grbx grcx grdx grsi grdi grbp gr8 gr9 gr10 gr11 gr12 gr13 gr14
     gr15 gfl : Nat) : Machine :=
  { t with rax := grax, rbx := grbx, rcx := grcx, rdx := grdx, rsi := grsi,
           rdi := grdi, rbp := grbp, rsp := GUESTRSP, r8 := gr8, r9 := gr9,
           r10 := gr10, r11 := gr11, r12 := gr12, r13 := gr13, r14 := gr14,
           r15 := gr15, rflags := gfl }

/-- Effect of the call instruction by which the guest invokes
syscall_fn_entry: the return address ra is pushed. -/
def callEnter (s : Machine) (ra : Nat) : Machine := pushv s ra

/-- Full round trip of the concrete scenario: the host, in state c, invokes
syscall_fn_return on the frame at FRAME holding the given field values
(with an established guest TLS base in the fsbase field); the guest then
runs arbitrary code leaving its registers at the given new values; finally
the guest invokes syscall_fn_entry through a call instruction pushing the
return address ra. -/
def roundTrip (c : Machine)
    (vrax vrbx vrcx vrdx vrsi vrdi vrbp vrsp vr8 vr9 vr10 vr11 vr12 vr13
     vr14 vr15 vrip vrfl vgs raHost : Nat)
    (grax grbx grcx grdx grsi grdi grbp gr8 gr9 gr10 gr11 gr12 gr13 gr14
     gr15 gfl ra : Nat) : Machine :=
  syscall_fn_entry (callEnter (guestMutate (syscall_fn_return (hostStart c
    vrax vrbx vrcx vrdx vrsi vrdi vrbp vrsp vr8 vr9 vr10 vr11 vr12 vr13
    vr14 vr15 vrip vrfl 262144 vgs raHost)) grax grbx grcx grdx grsi grdi
    grbp gr8 gr9 gr10 gr11 gr12 gr13 gr14 gr15 gfl) ra)

/-- All-zero machine, used to build closed concrete instances. -/
def zeroMachine : Machine :=
  ⟨0, 0, 0, 0, 0, 0, 0, 0, 0, 0, 0, 0, 0, 0, 0, 0, 0, 0, 0, fun _ => 0⟩

/-- Projection of the machine state to the parts the TLS base macros act
on: the active TLS base register and memory. Used to state the claims
about TLS base preservation across many Enter/Resume cycles, for which
both the Linux (fs) and Darwin (gs) macro variants are modelled. -/
structure TlsState where
  base : Nat
  mem : Nat → Nat

namespace FsLinux

/-- TLS projection of the Linux macro SWITCH_TO_KERNEL_FSBASE (fncall.rs
lines 64 to 69): the active fs base becomes the kernel fs base stashed at
offset 48 of the current guest TLS block. -/
def switchToKernelFsbase (s : TlsState) : TlsState :=
  { s with base := s.mem (wrap (s.base + 48)) }

/-- TLS projection of the Linux macro POP_USER_FSBASE (fncall.rs lines 70
to 81); frameFs is the value of the frame fsbase field read by the
instruction mov rsi, [rsp + 18*8]. If frameFs is zero the fallback address
kernel fs base + 72 is installed and written into offset 0 of that block
(self pointer); then the chosen base becomes active and the kernel fs base
is stashed at offset 48 of the now active guest TLS block. -/
def popUserFsbase (frameFs : Nat) (s : TlsState) : TlsState :=
  if frameFs ≠ 0 then
    { base := frameFs,
      mem := store s.mem (wrap (frameFs + 48)) (s.mem s.base) }
  else
    { base := wrap (s.mem s.base + 72),
      mem := store
               (store s.mem (wrap (s.mem s.base + 72)) (wrap (s.mem s.base + 72)))
               (wrap (wrap (s.mem s.base + 72) + 48)) (s.mem s.base) }

/-- One Resume-then-Enter cycle at TLS level, tracking the frame fsbase
field alongside the state: Resume runs POP_USER_FSBASE with the current
field value; at the next Enter, PUSH_USER_FSBASE captures offset 0 of the
active guest TLS block as the new frame fsbase field (that push builds the
fsbase slot of the next frame), and SWITCH_TO_KERNEL_FSBASE reinstalls the
kernel base. -/
def fsCycle (p : TlsState × Nat) : TlsState × Nat :=
  (switchToKernelFsbase (popUserFsbase p.2 p.1),
   (popUserFsbase p.2 p.1).mem (popUserFsbase p.2 p.1).base)

end FsLinux

namespace FsDarwin

/-- TLS projection of the Darwin macro SWITCH_TO_KERNEL_FSBASE (fncall.rs
lines 116 to 120): mov rdi, gs:48 ; syscall sets the gs base to the kernel
gs base stashed at offset 48 of the current guest TLS block. -/
def switchToKernelFsbase (s : TlsState) : TlsState :=
  { s with base := s.mem (wrap (s.base + 48)) }

/-- TLS projection of the Darwin macro POP_USER_FSBASE (fncall.rs lines
121 to 133); frameFs is the frame gsbase field read by mov rdi,
[rsp + 18*8]. The kernel gs base is recovered as gs:0 + 224 (the Darwin
pthread self slot holds kernel gs base - 224); if frameFs is zero the
fallback address kernel gs base + 240 (pthread.tsd slot 30) is installed
and written into offset 0 of that block; then the chosen base becomes
active and the kernel gs base is stashed at offset 48. -/
def popUserFsbase (frameFs : Nat) (s : TlsState) : TlsState :=
  if frameFs ≠ 0 then
    { base := frameFs,
      mem := store s.mem (wrap (frameFs + 48)) (wrap (s.mem s.base + 224)) }
  else
    { base := wrap (wrap (s.mem s.base + 224) + 240),
      mem := store
               (store s.mem (wrap (wrap (s.mem s.base + 224) + 240))
                 (wrap (wrap (s.mem s.base + 224) + 240)))
               (wrap (wrap (wrap (s.mem s.base + 224) + 240) + 48))
               (wrap (s.mem s.base + 224)) }

end FsDarwin


@[simp] theorem store_get (m : Nat → Nat) (a v b : Nat) :
    store m a v b = if b = a then v else m b := rfl

@[simp] theorem pushv_rax (s : Machine) (v : Nat) : (pushv s v).rax = s.rax := by
  unfold pushv; rfl

@[simp] theorem pushv_rbx (s : Machine) (v : Nat) : (pushv s v).rbx = s.rbx := by
  unfold pushv; rfl

@[simp] theorem pushv_rcx (s : Machine) (v : Nat) : (pushv s v).rcx = s.rcx := by
  unfold pushv; rfl

@[simp] theorem pushv_rdx (s : Machine) (v : Nat) : (pushv s v).rdx = s.rdx := by
  unfold pushv; rfl

@[simp] theorem pushv_rsi (s : Machine) (v : Nat) : (pushv s v).rsi = s.rsi := by
  unfold pushv; rfl

@[simp] theorem pushv_rdi (s : Machine) (v : Nat) : (pushv s v).rdi = s.rdi := by
  unfold pushv; rfl

@[simp] theorem pushv_rbp (s : Machine) (v : Nat) : (pushv s v).rbp = s.rbp := by
  unfold pushv; rfl

@[simp] theorem pushv_rsp (s : Machine) (v : Nat) : (pushv s v).rsp = wrap (s.rsp + W - 8) := by
  unfold pushv; rfl

@[simp] theorem pushv_r8 (s : Machine) (v : Nat) : (pushv s v).r8 = s.r8 := by
  unfold pushv; rfl

@[simp] theorem pushv_r9 (s : Machine) (v : Nat) : (pushv s v).r9 = s.r9 := by
  unfold pushv; rfl

@[simp] theorem pushv_r10 (s : Machine) (v : Nat) : (pushv s v).r10 = s.r10 := by
  unfold pushv; rfl

@[simp] theorem pushv_r11 (s : Machine) (v : Nat) : (pushv s v).r11 = s.r11 := by
  unfold pushv; rfl

@[simp] theorem pushv_r12 (s : Machine) (v : Nat) : (pushv s v).r12 = s.r12 := by
  unfold pushv; rfl

@[simp] theorem pushv_r13 (s : Machine) (v : Nat) : (pushv s v).r13 = s.r13 := by
  unfold pushv; rfl

@[simp] theorem pushv_r14 (s : Machine) (v : Nat) : (pushv s v).r14 = s.r14 := by
  unfold pushv; rfl

@[simp] theorem pushv_r15 (s : Machine) (v : Nat) : (pushv s v).r15 = s.r15 := by
  unfold pushv; rfl

@[simp] theorem pushv_rip (s : Machine) (v : Nat) : (pushv s v).rip = s.rip := by
  unfold pushv; rfl

@[simp] theorem pushv_rflags (s : Machine) (v : Nat) : (pushv s v).rflags = s.rflags := by
  unfold pushv; rfl

@[simp] theorem pushv_fsbase (s : Machine) (v : Nat) : (pushv s v).fsbase = s.fsbase := by
  unfold pushv; rfl

@[simp] theorem pushv_mem (s : Machine) (v : Nat) : (pushv s v).mem = store s.mem (wrap (s.rsp + W - 8)) v := by
  unfold pushv; rfl

@[simp] theorem popRax_rax (s : Machine) : (popRax s).rax = s.mem s.rsp := by
  unfold popRax; rfl

@[simp] theorem popRax_rbx (s : Machine) : (popRax s).rbx = s.rbx := by
  unfold popRax; rfl

@[simp] theorem popRax_rcx (s : Machine) : (popRax s).rcx = s.rcx := by
  unfold popRax; rfl

@[simp] theorem popRax_rdx (s : Machine) : (popRax s).rdx = s.rdx := by
  unfold popRax; rfl

@[simp] theorem popRax_rsi (s : Machine) : (popRax s).rsi = s.rsi := by
  unfold popRax; rfl

@[simp] theorem popRax_rdi (s : Machine) : (popRax s).rdi = s.rdi := by
  unfold popRax; rfl

@[simp] theorem popRax_rbp (s : Machine) : (popRax s).rbp = s.rbp := by
  unfold popRax; rfl

@[simp] theorem popRax_rsp (s : Machine) : (popRax s).rsp = wrap (s.rsp + 8) := by
  unfold popRax; rfl

@[simp] theorem popRax_r8 (s : Machine) : (popRax s).r8 = s.r8 := by
  unfold popRax; rfl

@[simp] theorem popRax_r9 (s : Machine) : (popRax s).r9 = s.r9 := by
  unfold popRax; rfl

@[simp] theorem popRax_r10 (s : Machine) : (popRax s).r10 = s.r10 := by
  unfold popRax; rfl

@[simp] theorem popRax_r11 (s : Machine) : (popRax s).r11 = s.r11 := by
  unfold popRax; rfl

@[simp] theorem popRax_r12 (s : Machine) : (popRax s).r12 = s.r12 := by
  unfold popRax; rfl

@[simp] theorem popRax_r13 (s : Machine) : (popRax s).r13 = s.r13 := by
  unfold popRax; rfl

@[simp] theorem popRax_r14 (s : Machine) : (popRax s).r14 = s.r14 := by
  unfold popRax; rfl

@[simp] theorem popRax_r15 (s : Machine) : (popRax s).r15 = s.r15 := by
  unfold popRax; rfl

@[simp] theorem popRax_rip (s : Machine) : (popRax s).rip = s.rip := by
  unfold popRax; rfl

@[simp] theorem popRax_rflags (s : Machine) : (popRax s).rflags = s.rflags := by
  unfold popRax; rfl

@[simp] theorem popRax_fsbase (s : Machine) : (popRax s).fsbase = s.fsbase := by
  unfold popRax; rfl

@[simp] theorem popRax_mem (s : Machine) : (popRax s).mem = s.mem := by
  unfold popRax; rfl

@[simp] theorem popRbx_rax (s : Machine) : (popRbx s).rax = s.rax := by
  unfold popRbx; rfl

@[simp] theorem popRbx_rbx (s : Machine) : (popRbx s).rbx = s.mem s.rsp := by
  unfold popRbx; rfl

@[simp] theorem popRbx_rcx (s : Machine) : (popRbx s).rcx = s.rcx := by
  unfold popRbx; rfl

@[simp] theorem popRbx_rdx (s : Machine) : (popRbx s).rdx = s.rdx := by
  unfold popRbx; rfl

@[simp] theorem popRbx_rsi (s : Machine) : (popRbx s).rsi = s.rsi := by
  unfold popRbx; rfl

@[simp] theorem popRbx_rdi (s : Machine) : (popRbx s).rdi = s.rdi := by
  unfold popRbx; rfl

@[simp] theorem popRbx_rbp (s : Machine) : (popRbx s).rbp = s.rbp := by
  unfold popRbx; rfl

@[simp] theorem popRbx_rsp (s : Machine) : (popRbx s).rsp = wrap (s.rsp + 8) := by
  unfold popRbx; rfl

@[simp] theorem popRbx_r8 (s : Machine) : (popRbx s).r8 = s.r8 := by
  unfold popRbx; rfl

@[simp] theorem popRbx_r9 (s : Machine) : (popRbx s).r9 = s.r9 := by
  unfold popRbx; rfl

@[simp] theorem popRbx_r10 (s : Machine) : (popRbx s).r10 = s.r10 := by
  unfold popRbx; rfl

@[simp] theorem popRbx_r11 (s : Machine) : (popRbx s).r11 = s.r11 := by
  unfold popRbx; rfl

@[simp] theorem popRbx_r12 (s : Machine) : (popRbx s).r12 = s.r12 := by
  unfold popRbx; rfl

@[simp] theorem popRbx_r13 (s : Machine) : (popRbx s).r13 = s.r13 := by
  unfold popRbx; rfl

@[simp] theorem popRbx_r14 (s : Machine) : (popRbx s).r14 = s.r14 := by
  unfold popRbx; rfl

@[simp] theorem popRbx_r15 (s : Machine) : (popRbx s).r15 = s.r15 := by
  unfold popRbx; rfl

@[simp] theorem popRbx_rip (s : Machine) : (popRbx s).rip = s.rip := by
  unfold popRbx; rfl

@[simp] theorem popRbx_rflags (s : Machine) : (popRbx s).rflags = s.rflags := by
  unfold popRbx; rfl

@[simp] theorem popRbx_fsbase (s : Machine) : (popRbx s).fsbase = s.fsbase := by
  unfold popRbx; rfl

@[simp] theorem popRbx_mem (s : Machine) : (popRbx s).mem = s.mem := by
  unfold popRbx; rfl

@[simp] theorem popRcx_rax (s : Machine) : (popRcx s).rax = s.rax := by
  unfold popRcx; rfl

@[simp] theorem popRcx_rbx (s : Machine) : (popRcx s).rbx = s.rbx := by
  unfold popRcx; rfl

@[simp] theorem popRcx_rcx (s : Machine) : (popRcx s).rcx = s.mem s.rsp := by
  unfold popRcx; rfl

@[simp] theorem popRcx_rdx (s : Machine) : (popRcx s).rdx = s.rdx := by
  unfold popRcx; rfl

@[simp] theorem popRcx_rsi (s : Machine) : (popRcx s).rsi = s.rsi := by
  unfold popRcx; rfl

@[simp] theorem popRcx_rdi (s : Machine) : (popRcx s).rdi = s.rdi := by
  unfold popRcx; rfl

@[simp] theorem popRcx_rbp (s : Machine) : (popRcx s).rbp = s.rbp := by
  unfold popRcx; rfl

@[simp] theorem popRcx_rsp (s : Machine) : (popRcx s).rsp = wrap (s.rsp + 8) := by
  unfold popRcx; rfl

@[simp] theorem popRcx_r8 (s : Machine) : (popRcx s).r8 = s.r8 := by
  unfold popRcx; rfl

@[simp] theorem popRcx_r9 (s : Machine) : (popRcx s).r9 = s.r9 := by
  unfold popRcx; rfl

@[simp] theorem popRcx_r10 (s : Machine) : (popRcx s).r10 = s.r10 := by
  unfold popRcx; rfl

@[simp] theorem popRcx_r11 (s : Machine) : (popRcx s).r11 = s.r11 := by
  unfold popRcx; rfl

@[simp] theorem popRcx_r12 (s : Machine) : (popRcx s).r12 = s.r12 := by
  unfold popRcx; rfl

@[simp] theorem popRcx_r13 (s : Machine) : (popRcx s).r13 = s.r13 := by
  unfold popRcx; rfl

@[simp] theorem popRcx_r14 (s : Machine) : (popRcx s).r14 = s.r14 := by
  unfold popRcx; rfl

@[simp] theorem popRcx_r15 (s : Machine) : (popRcx s).r15 = s.r15 := by
  unfold popRcx; rfl

@[simp] theorem popRcx_rip (s : Machine) : (popRcx s).rip = s.rip := by
  unfold popRcx; rfl

@[simp] theorem popRcx_rflags (s : Machine) : (popRcx s).rflags = s.rflags := by
  unfold popRcx; rfl

@[simp] theorem popRcx_fsbase (s : Machine) : (popRcx s).fsbase = s.fsbase := by
  unfold popRcx; rfl

@[simp] theorem popRcx_mem (s : Machine) : (popRcx s).mem = s.mem := by
  unfold popRcx; rfl

@[simp] theorem popRdx_rax (s : Machine) : (popRdx s).rax = s.rax := by
  unfold popRdx; rfl

@[simp] theorem popRdx_rbx (s : Machine) : (popRdx s).rbx = s.rbx := by
  unfold popRdx; rfl

@[simp] theorem popRdx_rcx (s : Machine) : (popRdx s).rcx = s.rcx := by
  unfold popRdx; rfl

@[simp] theorem popRdx_rdx (s : Machine) : (popRdx s).rdx = s.mem s.rsp := by
  unfold popRdx; rfl

@[simp] theorem popRdx_rsi (s : Machine) : (popRdx s).rsi = s.rsi := by
  unfold popRdx; rfl

@[simp] theorem popRdx_rdi (s : Machine) : (popRdx s).rdi = s.rdi := by
  unfold popRdx; rfl

@[simp] theorem popRdx_rbp (s : Machine) : (popRdx s).rbp = s.rbp := by
  unfold popRdx; rfl

@[simp] theorem popRdx_rsp (s : Machine) : (popRdx s).rsp = wrap (s.rsp + 8) := by
  unfold popRdx; rfl

@[simp] theorem popRdx_r8 (s : Machine) : (popRdx s).r8 = s.r8 := by
  unfold popRdx; rfl

@[simp] theorem popRdx_r9 (s : Machine) : (popRdx s).r9 = s.r9 := by
  unfold popRdx; rfl

@[simp] theorem popRdx_r10 (s : Machine) : (popRdx s).r10 = s.r10 := by
  unfold popRdx; rfl

@[simp] theorem popRdx_r11 (s : Machine) : (popRdx s).r11 = s.r11 := by
  unfold popRdx; rfl

@[simp] theorem popRdx_r12 (s : Machine) : (popRdx s).r12 = s.r12 := by
  unfold popRdx; rfl

@[simp] theorem popRdx_r13 (s : Machine) : (popRdx s).r13 = s.r13 := by
  unfold popRdx; rfl

@[simp] theorem popRdx_r14 (s : Machine) : (popRdx s).r14 = s.r14 := by
  unfold popRdx; rfl

@[simp] theorem popRdx_r15 (s : Machine) : (popRdx s).r15 = s.r15 := by
  unfold popRdx; rfl

@[simp] theorem popRdx_rip (s : Machine) : (popRdx s).rip = s.rip := by
  unfold popRdx; rfl

@[simp] theorem popRdx_rflags (s : Machine) : (popRdx s).rflags = s.rflags := by
  unfold popRdx; rfl

@[simp] theorem popRdx_fsbase (s : Machine) : (popRdx s).fsbase = s.fsbase := by
  unfold popRdx; rfl

@[simp] theorem popRdx_mem (s : Machine) : (popRdx s).mem = s.mem := by
  unfold popRdx; rfl

@[simp] theorem popRsi_rax (s : Machine) : (popRsi s).rax = s.rax := by
  unfold popRsi; rfl

@[simp] theorem popRsi_rbx (s : Machine) : (popRsi s).rbx = s.rbx := by
  unfold popRsi; rfl

@[simp] theorem popRsi_rcx (s : Machine) : (popRsi s).rcx = s.rcx := by
  unfold popRsi; rfl

@[simp] theorem popRsi_rdx (s : Machine) : (popRsi s).rdx = s.rdx := by
  unfold popRsi; rfl

@[simp] theorem popRsi_rsi (s : Machine) : (popRsi s).rsi = s.mem s.rsp := by
  unfold popRsi; rfl

@[simp] theorem popRsi_rdi (s : Machine) : (popRsi s).rdi = s.rdi := by
  unfold popRsi; rfl

@[simp] theorem popRsi_rbp (s : Machine) : (popRsi s).rbp = s.rbp := by
  unfold popRsi; rfl

@[simp] theorem popRsi_rsp (s : Machine) : (popRsi s).rsp = wrap (s.rsp + 8) := by
  unfold popRsi; rfl

@[simp] theorem popRsi_r8 (s : Machine) : (popRsi s).r8 = s.r8 := by
  unfold popRsi; rfl

@[simp] theorem popRsi_r9 (s : Machine) : (popRsi s).r9 = s.r9 := by
  unfold popRsi; rfl

@[simp] theorem popRsi_r10 (s : Machine) : (popRsi s).r10 = s.r10 := by
  unfold popRsi; rfl

@[simp] theorem popRsi_r11 (s : Machine) : (popRsi s).r11 = s.r11 := by
  unfold popRsi; rfl

@[simp] theorem popRsi_r12 (s : Machine) : (popRsi s).r12 = s.r12 := by
  unfold popRsi; rfl

@[simp] theorem popRsi_r13 (s : Machine) : (popRsi s).r13 = s.r13 := by
  unfold popRsi; rfl

@[simp] theorem popRsi_r14 (s : Machine) : (popRsi s).r14 = s.r14 := by
  unfold popRsi; rfl

@[simp] theorem popRsi_r15 (s : Machine) : (popRsi s).r15 = s.r15 := by
  unfold popRsi; rfl

@[simp] theorem popRsi_rip (s : Machine) : (popRsi s).rip = s.rip := by
  unfold popRsi; rfl

@[simp] theorem popRsi_rflags (s : Machine) : (popRsi s).rflags = s.rflags := by
  unfold popRsi; rfl

@[simp] theorem popRsi_fsbase (s : Machine) : (popRsi s).fsbase = s.fsbase := by
  unfold popRsi; rfl

@[simp] theorem popRsi_mem (s : Machine) : (popRsi s).mem = s.mem := by
  unfold popRsi; rfl

@[simp] theorem popRdi_rax (s : Machine) : (popRdi s).rax = s.rax := by
  unfold popRdi; rfl

@[simp] theorem popRdi_rbx (s : Machine) : (popRdi s).rbx = s.rbx := by
  unfold popRdi; rfl

@[simp] theorem popRdi_rcx (s : Machine) : (popRdi s).rcx = s.rcx := by
  unfold popRdi; rfl

@[simp] theorem popRdi_rdx (s : Machine) : (popRdi s).rdx = s.rdx := by
  unfold popRdi; rfl

@[simp] theorem popRdi_rsi (s : Machine) : (popRdi s).rsi = s.rsi := by
  unfold popRdi; rfl

@[simp] theorem popRdi_rdi (s : Machine) : (popRdi s).rdi = s.mem s.rsp := by
  unfold popRdi; rfl

@[simp] theorem popRdi_rbp (s : Machine) : (popRdi s).rbp = s.rbp := by
  unfold popRdi; rfl

@[simp] theorem popRdi_rsp (s : Machine) : (popRdi s).rsp = wrap (s.rsp + 8) := by
  unfold popRdi; rfl

@[simp] theorem popRdi_r8 (s : Machine) : (popRdi s).r8 = s.r8 := by
  unfold popRdi; rfl

@[simp] theorem popRdi_r9 (s : Machine) : (popRdi s).r9 = s.r9 := by
  unfold popRdi; rfl

@[simp] theorem popRdi_r10 (s : Machine) : (popRdi s).r10 = s.r10 := by
  unfold popRdi; rfl

@[simp] theorem popRdi_r11 (s : Machine) : (popRdi s).r11 = s.r11 := by
  unfold popRdi; rfl

@[simp] theorem popRdi_r12 (s : Machine) : (popRdi s).r12 = s.r12 := by
  unfold popRdi; rfl

@[simp] theorem popRdi_r13 (s : Machine) : (popRdi s).r13 = s.r13 := by
  unfold popRdi; rfl

@[simp] theorem popRdi_r14 (s : Machine) : (popRdi s).r14 = s.r14 := by
  unfold popRdi; rfl

@[simp] theorem popRdi_r15 (s : Machine) : (popRdi s).r15 = s.r15 := by
  unfold popRdi; rfl

@[simp] theorem popRdi_rip (s : Machine) : (popRdi s).rip = s.rip := by
  unfold popRdi; rfl

@[simp] theorem popRdi_rflags (s : Machine) : (popRdi s).rflags = s.rflags := by
  unfold popRdi; rfl

@[simp] theorem popRdi_fsbase (s : Machine) : (popRdi s).fsbase = s.fsbase := by
  unfold popRdi; rfl

@[simp] theorem popRdi_mem (s : Machine) : (popRdi s).mem = s.mem := by
  unfold popRdi; rfl

@[simp] theorem popRbp_rax (s : Machine) : (popRbp s).rax = s.rax := by
  unfold popRbp; rfl

@[simp] theorem popRbp_rbx (s : Machine) : (popRbp s).rbx = s.rbx := by
  unfold popRbp; rfl

@[simp] theorem popRbp_rcx (s : Machine) : (popRbp s).rcx = s.rcx := by
  unfold popRbp; rfl

@[simp] theorem popRbp_rdx (s : Machine) : (popRbp s).rdx = s.rdx := by
  unfold popRbp; rfl

@[simp] theorem popRbp_rsi (s : Machine) : (popRbp s).rsi = s.rsi := by
  unfold popRbp; rfl

@[simp] theorem popRbp_rdi (s : Machine) : (popRbp s).rdi = s.rdi := by
  unfold popRbp; rfl

@[simp] theorem popRbp_rbp (s : Machine) : (popRbp s).rbp = s.mem s.rsp := by
  unfold popRbp; rfl

@[simp] theorem popRbp_rsp (s : Machine) : (popRbp s).rsp = wrap (s.rsp + 8) := by
  unfold popRbp; rfl

@[simp] theorem popRbp_r8 (s : Machine) : (popRbp s).r8 = s.r8 := by
  unfold popRbp; rfl

@[simp] theorem popRbp_r9 (s : Machine) : (popRbp s).r9 = s.r9 := by
  unfold popRbp; rfl

@[simp] theorem popRbp_r10 (s : Machine) : (popRbp s).r10 = s.r10 := by
  unfold popRbp; rfl

@[simp] theorem popRbp_r11 (s : Machine) : (popRbp s).r11 = s.r11 := by
  unfold popRbp; rfl

@[simp] theorem popRbp_r12 (s : Machine) : (popRbp s).r12 = s.r12 := by
  unfold popRbp; rfl

@[simp] theorem popRbp_r13 (s : Machine) : (popRbp s).r13 = s.r13 := by
  unfold popRbp; rfl

@[simp] theorem popRbp_r14 (s : Machine) : (popRbp s).r14 = s.r14 := by
  unfold popRbp; rfl

@[simp] theorem popRbp_r15 (s : Machine) : (popRbp s).r15 = s.r15 := by
  unfold popRbp; rfl

@[simp] theorem popRbp_rip (s : Machine) : (popRbp s).rip = s.rip := by
  unfold popRbp; rfl

@[simp] theorem popRbp_rflags (s : Machine) : (popRbp s).rflags = s.rflags := by
  unfold popRbp; rfl

@[simp] theorem popRbp_fsbase (s : Machine) : (popRbp s).fsbase = s.fsbase := by
  unfold popRbp; rfl

@[simp] theorem popRbp_mem (s : Machine) : (popRbp s).mem = s.mem := by
  unfold popRbp; rfl

@[simp] theorem popR8_rax (s : Machine) : (popR8 s).rax = s.rax := by
  unfold popR8; rfl

@[simp] theorem popR8_rbx (s : Machine) : (popR8 s).rbx = s.rbx := by
  unfold popR8; rfl

@[simp] theorem popR8_rcx (s : Machine) : (popR8 s).rcx = s.rcx := by
  unfold popR8; rfl

@[simp] theorem popR8_rdx (s : Machine) : (popR8 s).rdx = s.rdx := by
  unfold popR8; rfl

@[simp] theorem popR8_rsi (s : Machine) : (popR8 s).rsi = s.rsi := by
  unfold popR8; rfl

@[simp] theorem popR8_rdi (s : Machine) : (popR8 s).rdi = s.rdi := by
  unfold popR8; rfl

@[simp] theorem popR8_rbp (s : Machine) : (popR8 s).rbp = s.rbp := by
  unfold popR8; rfl

@[simp] theorem popR8_rsp (s : Machine) : (popR8 s).rsp = wrap (s.rsp + 8) := by
  unfold popR8; rfl

@[simp] theorem popR8_r8 (s : Machine) : (popR8 s).r8 = s.mem s.rsp := by
  unfold popR8; rfl

@[simp] theorem popR8_r9 (s : Machine) : (popR8 s).r9 = s.r9 := by
  unfold popR8; rfl

@[simp] theorem popR8_r10 (s : Machine) : (popR8 s).r10 = s.r10 := by
  unfold popR8; rfl

@[simp] theorem popR8_r11 (s : Machine) : (popR8 s).r11 = s.r11 := by
  unfold popR8; rfl

@[simp] theorem popR8_r12 (s : Machine) : (popR8 s).r12 = s.r12 := by
  unfold popR8; rfl

@[simp] theorem popR8_r13 (s : Machine) : (popR8 s).r13 = s.r13 := by
  unfold popR8; rfl

@[simp] theorem popR8_r14 (s : Machine) : (popR8 s).r14 = s.r14 := by
  unfold popR8; rfl

@[simp] theorem popR8_r15 (s : Machine) : (popR8 s).r15 = s.r15 := by
  unfold popR8; rfl

@[simp] theorem popR8_rip (s : Machine) : (popR8 s).rip = s.rip := by
  unfold popR8; rfl

@[simp] theorem popR8_rflags (s : Machine) : (popR8 s).rflags = s.rflags := by
  unfold popR8; rfl

@[simp] theorem popR8_fsbase (s : Machine) : (popR8 s).fsbase = s.fsbase := by
  unfold popR8; rfl

@[simp] theorem popR8_mem (s : Machine) : (popR8 s).mem = s.mem := by
  unfold popR8; rfl

@[simp] theorem popR9_rax (s : Machine) : (popR9 s).rax = s.rax := by
  unfold popR9; rfl

@[simp] theorem popR9_rbx (s : Machine) : (popR9 s).rbx = s.rbx := by
  unfold popR9; rfl

@[simp] theorem popR9_rcx (s : Machine) : (popR9 s).rcx = s.rcx := by
  unfold popR9; rfl

@[simp] theorem popR9_rdx (s : Machine) : (popR9 s).rdx = s.rdx := by
  unfold popR9; rfl

@[simp] theorem popR9_rsi (s : Machine) : (popR9 s).rsi = s.rsi := by
  unfold popR9; rfl

@[simp] theorem popR9_rdi (s : Machine) : (popR9 s).rdi = s.rdi := by
  unfold popR9; rfl

@[simp] theorem popR9_rbp (s : Machine) : (popR9 s).rbp = s.rbp := by
  unfold popR9; rfl

@[simp] theorem popR9_rsp (s : Machine) : (popR9 s).rsp = wrap (s.rsp + 8) := by
  unfold popR9; rfl

@[simp] theorem popR9_r8 (s : Machine) : (popR9 s).r8 = s.r8 := by
  unfold popR9; rfl

@[simp] theorem popR9_r9 (s : Machine) : (popR9 s).r9 = s.mem s.rsp := by
  unfold popR9; rfl

@[simp] theorem popR9_r10 (s : Machine) : (popR9 s).r10 = s.r10 := by
  unfold popR9; rfl

@[simp] theorem popR9_r11 (s : Machine) : (popR9 s).r11 = s.r11 := by
  unfold popR9; rfl

@[simp] theorem popR9_r12 (s : Machine) : (popR9 s).r12 = s.r12 := by
  unfold popR9; rfl

@[simp] theorem popR9_r13 (s : Machine) : (popR9 s).r13 = s.r13 := by
  unfold popR9; rfl

@[simp] theorem popR9_r14 (s : Machine) : (popR9 s).r14 = s.r14 := by
  unfold popR9; rfl

@[simp] theorem popR9_r15 (s : Machine) : (popR9 s).r15 = s.r15 := by
  unfold popR9; rfl

@[simp] theorem popR9_rip (s : Machine) : (popR9 s).rip = s.rip := by
  unfold popR9; rfl

@[simp] theorem popR9_rflags (s : Machine) : (popR9 s).rflags = s.rflags := by
  unfold popR9; rfl

@[simp] theorem popR9_fsbase (s : Machine) : (popR9 s).fsbase = s.fsbase := by
  unfold popR9; rfl

@[simp] theorem popR9_mem (s : Machine) : (popR9 s).mem = s.mem := by
  unfold popR9; rfl

@[simp] theorem popR10_rax (s : Machine) : (popR10 s).rax = s.rax := by
  unfold popR10; rfl

@[simp] theorem popR10_rbx (s : Machine) : (popR10 s).rbx = s.rbx := by
  unfold popR10; rfl

@[simp] theorem popR10_rcx (s : Machine) : (popR10 s).rcx = s.rcx := by
  unfold popR10; rfl

@[simp] theorem popR10_rdx (s : Machine) : (popR10 s).rdx = s.rdx := by
  unfold popR10; rfl

@[simp] theorem popR10_rsi (s : Machine) : (popR10 s).rsi = s.rsi := by
  unfold popR10; rfl

@[simp] theorem popR10_rdi (s : Machine) : (popR10 s).rdi = s.rdi := by
  unfold popR10; rfl

@[simp] theorem popR10_rbp (s : Machine) : (popR10 s).rbp = s.rbp := by
  unfold popR10; rfl

@[simp] theorem popR10_rsp (s : Machine) : (popR10 s).rsp = wrap (s.rsp + 8) := by
  unfold popR10; rfl

@[simp] theorem popR10_r8 (s : Machine) : (popR10 s).r8 = s.r8 := by
  unfold popR10; rfl

@[simp] theorem popR10_r9 (s : Machine) : (popR10 s).r9 = s.r9 := by
  unfold popR10; rfl

@[simp] theorem popR10_r10 (s : Machine) : (popR10 s).r10 = s.mem s.rsp := by
  unfold popR10; rfl

@[simp] theorem popR10_r11 (s : Machine) : (popR10 s).r11 = s.r11 := by
  unfold popR10; rfl

@[simp] theorem popR10_r12 (s : Machine) : (popR10 s).r12 = s.r12 := by
  unfold popR10; rfl

@[simp] theorem popR10_r13 (s : Machine) : (popR10 s).r13 = s.r13 := by
  unfold popR10; rfl

@[simp] theorem popR10_r14 (s : Machine) : (popR10 s).r14 = s.r14 := by
  unfold popR10; rfl

@[simp] theorem popR10_r15 (s : Machine) : (popR10 s).r15 = s.r15 := by
  unfold popR10; rfl

@[simp] theorem popR10_rip (s : Machine) : (popR10 s).rip = s.rip := by
  unfold popR10; rfl

@[simp] theorem popR10_rflags (s : Machine) : (popR10 s).rflags = s.rflags := by
  unfold popR10; rfl

@[simp] theorem popR10_fsbase (s : Machine) : (popR10 s).fsbase = s.fsbase := by
  unfold popR10; rfl

@[simp] theorem popR10_mem (s : Machine) : (popR10 s).mem = s.mem := by
  unfold popR10; rfl

@[simp] theorem popR11_rax (s : Machine) : (popR11 s).rax = s.rax := by
  unfold popR11; rfl

@[simp] theorem popR11_rbx (s : Machine) : (popR11 s).rbx = s.rbx := by
  unfold popR11; rfl

@[simp] theorem popR11_rcx (s : Machine) : (popR11 s).rcx = s.rcx := by
  unfold popR11; rfl

@[simp] theorem popR11_rdx (s : Machine) : (popR11 s).rdx = s.rdx := by
  unfold popR11; rfl

@[simp] theorem popR11_rsi (s : Machine) : (popR11 s).rsi = s.rsi := by
  unfold popR11; rfl

@[simp] theorem popR11_rdi (s : Machine) : (popR11 s).rdi = s.rdi := by
  unfold popR11; rfl

@[simp] theorem popR11_rbp (s : Machine) : (popR11 s).rbp = s.rbp := by
  unfold popR11; rfl

@[simp] theorem popR11_rsp (s : Machine) : (popR11 s).rsp = wrap (s.rsp + 8) := by
  unfold popR11; rfl

@[simp] theorem popR11_r8 (s : Machine) : (popR11 s).r8 = s.r8 := by
  unfold popR11; rfl

@[simp] theorem popR11_r9 (s : Machine) : (popR11 s).r9 = s.r9 := by
  unfold popR11; rfl

@[simp] theorem popR11_r10 (s : Machine) : (popR11 s).r10 = s.r10 := by
  unfold popR11; rfl

@[simp] theorem popR11_r11 (s : Machine) : (popR11 s).r11 = s.mem s.rsp := by
  unfold popR11; rfl

@[simp] theorem popR11_r12 (s : Machine) : (popR11 s).r12 = s.r12 := by
  unfold popR11; rfl

@[simp] theorem popR11_r13 (s : Machine) : (popR11 s).r13 = s.r13 := by
  unfold popR11; rfl

@[simp] theorem popR11_r14 (s : Machine) : (popR11 s).r14 = s.r14 := by
  unfold popR11; rfl

@[simp] theorem popR11_r15 (s : Machine) : (popR11 s).r15 = s.r15 := by
  unfold popR11; rfl

@[simp] theorem popR11_rip (s : Machine) : (popR11 s).rip = s.rip := by
  unfold popR11; rfl

@[simp] theorem popR11_rflags (s : Machine) : (popR11 s).rflags = s.rflags := by
  unfold popR11; rfl

@[simp] theorem popR11_fsbase (s : Machine) : (popR11 s).fsbase = s.fsbase := by
  unfold popR11; rfl

@[simp] theorem popR11_mem (s : Machine) : (popR11 s).mem = s.mem := by
  unfold popR11; rfl

@[simp] theorem popR12_rax (s : Machine) : (popR12 s).rax = s.rax := by
  unfold popR12; rfl

@[simp] theorem popR12_rbx (s : Machine) : (popR12 s).rbx = s.rbx := by
  unfold popR12; rfl

@[simp] theorem popR12_rcx (s : Machine) : (popR12 s).rcx = s.rcx := by
  unfold popR12; rfl

@[simp] theorem popR12_rdx (s : Machine) : (popR12 s).rdx = s.rdx := by
  unfold popR12; rfl

@[simp] theorem popR12_rsi (s : Machine) : (popR12 s).rsi = s.rsi := by
  unfold popR12; rfl

@[simp] theorem popR12_rdi (s : Machine) : (popR12 s).rdi = s.rdi := by
  unfold popR12; rfl

@[simp] theorem popR12_rbp (s : Machine) : (popR12 s).rbp = s.rbp := by
  unfold popR12; rfl

@[simp] theorem popR12_rsp (s : Machine) : (popR12 s).rsp = wrap (s.rsp + 8) := by
  unfold popR12; rfl

@[simp] theorem popR12_r8 (s : Machine) : (popR12 s).r8 = s.r8 := by
  unfold popR12; rfl

@[simp] theorem popR12_r9 (s : Machine) : (popR12 s).r9 = s.r9 := by
  unfold popR12; rfl

@[simp] theorem popR12_r10 (s : Machine) : (popR12 s).r10 = s.r10 := by
  unfold popR12; rfl

@[simp] theorem popR12_r11 (s : Machine) : (popR12 s).r11 = s.r11 := by
  unfold popR12; rfl

@[simp] theorem popR12_r12 (s : Machine) : (popR12 s).r12 = s.mem s.rsp := by
  unfold popR12; rfl

@[simp] theorem popR12_r13 (s : Machine) : (popR12 s).r13 = s.r13 := by
  unfold popR12; rfl

@[simp] theorem popR12_r14 (s : Machine) : (popR12 s).r14 = s.r14 := by
  unfold popR12; rfl

@[simp] theorem popR12_r15 (s : Machine) : (popR12 s).r15 = s.r15 := by
  unfold popR12; rfl

@[simp] theorem popR12_rip (s : Machine) : (popR12 s).rip = s.rip := by
  unfold popR12; rfl

@[simp] theorem popR12_rflags (s : Machine) : (popR12 s).rflags = s.rflags := by
  unfold popR12; rfl

@[simp] theorem popR12_fsbase (s : Machine) : (popR12 s).fsbase = s.fsbase := by
  unfold popR12; rfl

@[simp] theorem popR12_mem (s : Machine) : (popR12 s).mem = s.mem := by
  unfold popR12; rfl

@[simp] theorem popR13_rax (s : Machine) : (popR13 s).rax = s.rax := by
  unfold popR13; rfl

@[simp] theorem popR13_rbx (s : Machine) : (popR13 s).rbx = s.rbx := by
  unfold popR13; rfl

@[simp] theorem popR13_rcx (s : Machine) : (popR13 s).rcx = s.rcx := by
  unfold popR13; rfl

@[simp] theorem popR13_rdx (s : Machine) : (popR13 s).rdx = s.rdx := by
  unfold popR13; rfl

@[simp] theorem popR13_rsi (s : Machine) : (popR13 s).rsi = s.rsi := by
  unfold popR13; rfl

@[simp] theorem popR13_rdi (s : Machine) : (popR13 s).rdi = s.rdi := by
  unfold popR13; rfl

@[simp] theorem popR13_rbp (s : Machine) : (popR13 s).rbp = s.rbp := by
  unfold popR13; rfl

@[simp] theorem popR13_rsp (s : Machine) : (popR13 s).rsp = wrap (s.rsp + 8) := by
  unfold popR13; rfl

@[simp] theorem popR13_r8 (s : Machine) : (popR13 s).r8 = s.r8 := by
  unfold popR13; rfl

@[simp] theorem popR13_r9 (s : Machine) : (popR13 s).r9 = s.r9 := by
  unfold popR13; rfl

@[simp] theorem popR13_r10 (s : Machine) : (popR13 s).r10 = s.r10 := by
  unfold popR13; rfl

@[simp] theorem popR13_r11 (s : Machine) : (popR13 s).r11 = s.r11 := by
  unfold popR13; rfl

@[simp] theorem popR13_r12 (s : Machine) : (popR13 s).r12 = s.r12 := by
  unfold popR13; rfl

@[simp] theorem popR13_r13 (s : Machine) : (popR13 s).r13 = s.mem s.rsp := by
  unfold popR13; rfl

@[simp] theorem popR13_r14 (s : Machine) : (popR13 s).r14 = s.r14 := by
  unfold popR13; rfl

@[simp] theorem popR13_r15 (s : Machine) : (popR13 s).r15 = s.r15 := by
  unfold popR13; rfl

@[simp] theorem popR13_rip (s : Machine) : (popR13 s).rip = s.rip := by
  unfold popR13; rfl

@[simp] theorem popR13_rflags (s : Machine) : (popR13 s).rflags = s.rflags := by
  unfold popR13; rfl

@[simp] theorem popR13_fsbase (s : Machine) : (popR13 s).fsbase = s.fsbase := by
  unfold popR13; rfl

@[simp] theorem popR13_mem (s : Machine) : (popR13 s).mem = s.mem := by
  unfold popR13; rfl

@[simp] theorem popR14_rax (s : Machine) : (popR14 s).rax = s.rax := by
  unfold popR14; rfl

@[simp] theorem popR14_rbx (s : Machine) : (popR14 s).rbx = s.rbx := by
  unfold popR14; rfl

@[simp] theorem popR14_rcx (s : Machine) : (popR14 s).rcx = s.rcx := by
  unfold popR14; rfl

@[simp] theorem popR14_rdx (s : Machine) : (popR14 s).rdx = s.rdx := by
  unfold popR14; rfl

@[simp] theorem popR14_rsi (s : Machine) : (popR14 s).rsi = s.rsi := by
  unfold popR14; rfl

@[simp] theorem popR14_rdi (s : Machine) : (popR14 s).rdi = s.rdi := by
  unfold popR14; rfl

@[simp] theorem popR14_rbp (s : Machine) : (popR14 s).rbp = s.rbp := by
  unfold popR14; rfl

@[simp] theorem popR14_rsp (s : Machine) : (popR14 s).rsp = wrap (s.rsp + 8) := by
  unfold popR14; rfl

@[simp] theorem popR14_r8 (s : Machine) : (popR14 s).r8 = s.r8 := by
  unfold popR14; rfl

@[simp] theorem popR14_r9 (s : Machine) : (popR14 s).r9 = s.r9 := by
  unfold popR14; rfl

@[simp] theorem popR14_r10 (s : Machine) : (popR14 s).r10 = s.r10 := by
  unfold popR14; rfl

@[simp] theorem popR14_r11 (s : Machine) : (popR14 s).r11 = s.r11 := by
  unfold popR14; rfl

@[simp] theorem popR14_r12 (s : Machine) : (popR14 s).r12 = s.r12 := by
  unfold popR14; rfl

@[simp] theorem popR14_r13 (s : Machine) : (popR14 s).r13 = s.r13 := by
  unfold popR14; rfl

@[simp] theorem popR14_r14 (s : Machine) : (popR14 s).r14 = s.mem s.rsp := by
  unfold popR14; rfl

@[simp] theorem popR14_r15 (s : Machine) : (popR14 s).r15 = s.r15 := by
  unfold popR14; rfl

@[simp] theorem popR14_rip (s : Machine) : (popR14 s).rip = s.rip := by
  unfold popR14; rfl

@[simp] theorem popR14_rflags (s : Machine) : (popR14 s).rflags = s.rflags := by
  unfold popR14; rfl

@[simp] theorem popR14_fsbase (s : Machine) : (popR14 s).fsbase = s.fsbase := by
  unfold popR14; rfl

@[simp] theorem popR14_mem (s : Machine) : (popR14 s).mem = s.mem := by
  unfold popR14; rfl

@[simp] theorem popR15_rax (s : Machine) : (popR15 s).rax = s.rax := by
  unfold popR15; rfl

@[simp] theorem popR15_rbx (s : Machine) : (popR15 s).rbx = s.rbx := by
  unfold popR15; rfl

@[simp] theorem popR15_rcx (s : Machine) : (popR15 s).rcx = s.rcx := by
  unfold popR15; rfl

@[simp] theorem popR15_rdx (s : Machine) : (popR15 s).rdx = s.rdx := by
  unfold popR15; rfl

@[simp] theorem popR15_rsi (s : Machine) : (popR15 s).rsi = s.rsi := by
  unfold popR15; rfl

@[simp] theorem popR15_rdi (s : Machine) : (popR15 s).rdi = s.rdi := by
  unfold popR15; rfl

@[simp] theorem popR15_rbp (s : Machine) : (popR15 s).rbp = s.rbp := by
  unfold popR15; rfl

@[simp] theorem popR15_rsp (s : Machine) : (popR15 s).rsp = wrap (s.rsp + 8) := by
  unfold popR15; rfl

@[simp] theorem popR15_r8 (s : Machine) : (popR15 s).r8 = s.r8 := by
  unfold popR15; rfl

@[simp] theorem popR15_r9 (s : Machine) : (popR15 s).r9 = s.r9 := by
  unfold popR15; rfl

@[simp] theorem popR15_r10 (s : Machine) : (popR15 s).r10 = s.r10 := by
  unfold popR15; rfl

@[simp] theorem popR15_r11 (s : Machine) : (popR15 s).r11 = s.r11 := by
  unfold popR15; rfl

@[simp] theorem popR15_r12 (s : Machine) : (popR15 s).r12 = s.r12 := by
  unfold popR15; rfl

@[simp] theorem popR15_r13 (s : Machine) : (popR15 s).r13 = s.r13 := by
  unfold popR15; rfl

@[simp] theorem popR15_r14 (s : Machine) : (popR15 s).r14 = s.r14 := by
  unfold popR15; rfl

@[simp] theorem popR15_r15 (s : Machine) : (popR15 s).r15 = s.mem s.rsp := by
  unfold popR15; rfl

@[simp] theorem popR15_rip (s : Machine) : (popR15 s).rip = s.rip := by
  unfold popR15; rfl

@[simp] theorem popR15_rflags (s : Machine) : (popR15 s).rflags = s.rflags := by
  unfold popR15; rfl

@[simp] theorem popR15_fsbase (s : Machine) : (popR15 s).fsbase = s.fsbase := by
  unfold popR15; rfl

@[simp] theorem popR15_mem (s : Machine) : (popR15 s).mem = s.mem := by
  unfold popR15; rfl

@[simp] theorem popFlagsReg_rax (s : Machine) : (popFlagsReg s).rax = s.rax := by
  unfold popFlagsReg; rfl

@[simp] theorem popFlagsReg_rbx (s : Machine) : (popFlagsReg s).rbx = s.rbx := by
  unfold popFlagsReg; rfl

@[simp] theorem popFlagsReg_rcx (s : Machine) : (popFlagsReg s).rcx = s.rcx := by
  unfold popFlagsReg; rfl

@[simp] theorem popFlagsReg_rdx (s : Machine) : (popFlagsReg s).rdx = s.rdx := by
  unfold popFlagsReg; rfl

@[simp] theorem popFlagsReg_rsi (s : Machine) : (popFlagsReg s).rsi = s.rsi := by
  unfold popFlagsReg; rfl

@[simp] theorem popFlagsReg_rdi (s : Machine) : (popFlagsReg s).rdi = s.rdi := by
  unfold popFlagsReg; rfl

@[simp] theorem popFlagsReg_rbp (s : Machine) : (popFlagsReg s).rbp = s.rbp := by
  unfold popFlagsReg; rfl

@[simp] theorem popFlagsReg_rsp (s : Machine) : (popFlagsReg s).rsp = wrap (s.rsp + 8) := by
  unfold popFlagsReg; rfl

@[simp] theorem popFlagsReg_r8 (s : Machine) : (popFlagsReg s).r8 = s.r8 := by
  unfold popFlagsReg; rfl

@[simp] theorem popFlagsReg_r9 (s : Machine) : (popFlagsReg s).r9 = s.r9 := by
  unfold popFlagsReg; rfl

@[simp] theorem popFlagsReg_r10 (s : Machine) : (popFlagsReg s).r10 = s.r10 := by
  unfold popFlagsReg; rfl

@[simp] theorem popFlagsReg_r11 (s : Machine) : (popFlagsReg s).r11 = s.r11 := by
  unfold popFlagsReg; rfl

@[simp] theorem popFlagsReg_r12 (s : Machine) : (popFlagsReg s).r12 = s.r12 := by
  unfold popFlagsReg; rfl

@[simp] theorem popFlagsReg_r13 (s : Machine) : (popFlagsReg s).r13 = s.r13 := by
  unfold popFlagsReg; rfl

@[simp] theorem popFlagsReg_r14 (s : Machine) : (popFlagsReg s).r14 = s.r14 := by
  unfold popFlagsReg; rfl

@[simp] theorem popFlagsReg_r15 (s : Machine) : (popFlagsReg s).r15 = s.r15 := by
  unfold popFlagsReg; rfl

@[simp] theorem popFlagsReg_rip (s : Machine) : (popFlagsReg s).rip = s.rip := by
  unfold popFlagsReg; rfl

@[simp] theorem popFlagsReg_rflags (s : Machine) : (popFlagsReg s).rflags = s.mem s.rsp := by
  unfold popFlagsReg; rfl

@[simp] theorem popFlagsReg_fsbase (s : Machine) : (popFlagsReg s).fsbase = s.fsbase := by
  unfold popFlagsReg; rfl

@[simp] theorem popFlagsReg_mem (s : Machine) : (popFlagsReg s).mem = s.mem := by
  unfold popFlagsReg; rfl

@[simp] theorem popRsp_rax (s : Machine) : (popRsp s).rax = s.rax := by
  unfold popRsp; rfl

@[simp] theorem popRsp_rbx (s : Machine) : (popRsp s).rbx = s.rbx := by
  unfold popRsp; rfl

@[simp] theorem popRsp_rcx (s : Machine) : (popRsp s).rcx = s.rcx := by
  unfold popRsp; rfl

@[simp] theorem popRsp_rdx (s : Machine) : (popRsp s).rdx = s.rdx := by
  unfold popRsp; rfl

@[simp] theorem popRsp_rsi (s : Machine) : (popRsp s).rsi = s.rsi := by
  unfold popRsp; rfl

@[simp] theorem popRsp_rdi (s : Machine) : (popRsp s).rdi = s.rdi := by
  unfold popRsp; rfl

@[simp] theorem popRsp_rbp (s : Machine) : (popRsp s).rbp = s.rbp := by
  unfold popRsp; rfl

@[simp] theorem popRsp_rsp (s : Machine) : (popRsp s).rsp = s.mem s.rsp := by
  unfold popRsp; rfl

@[simp] theorem popRsp_r8 (s : Machine) : (popRsp s).r8 = s.r8 := by
  unfold popRsp; rfl

@[simp] theorem popRsp_r9 (s : Machine) : (popRsp s).r9 = s.r9 := by
  unfold popRsp; rfl

@[simp] theorem popRsp_r10 (s : Machine) : (popRsp s).r10 = s.r10 := by
  unfold popRsp; rfl

@[simp] theorem popRsp_r11 (s : Machine) : (popRsp s).r11 = s.r11 := by
  unfold popRsp; rfl

@[simp] theorem popRsp_r12 (s : Machine) : (popRsp s).r12 = s.r12 := by
  unfold popRsp; rfl

@[simp] theorem popRsp_r13 (s : Machine) : (popRsp s).r13 = s.r13 := by
  unfold popRsp; rfl

@[simp] theorem popRsp_r14 (s : Machine) : (popRsp s).r14 = s.r14 := by
  unfold popRsp; rfl

@[simp] theorem popRsp_r15 (s : Machine) : (popRsp s).r15 = s.r15 := by
  unfold popRsp; rfl

@[simp] theorem popRsp_rip (s : Machine) : (popRsp s).rip = s.rip := by
  unfold popRsp; rfl

@[simp] theorem popRsp_rflags (s : Machine) : (popRsp s).rflags = s.rflags := by
  unfold popRsp; rfl

@[simp] theorem popRsp_fsbase (s : Machine) : (popRsp s).fsbase = s.fsbase := by
  unfold popRsp; rfl

@[simp] theorem popRsp_mem (s : Machine) : (popRsp s).mem = s.mem := by
  unfold popRsp; rfl

@[simp] theorem leaR11rsp8_rax (s : Machine) : (leaR11rsp8 s).rax = s.rax := by
  unfold leaR11rsp8; rfl

@[simp] theorem leaR11rsp8_rbx (s : Machine) : (leaR11rsp8 s).rbx = s.rbx := by
  unfold leaR11rsp8; rfl

@[simp] theorem leaR11rsp8_rcx (s : Machine) : (leaR11rsp8 s).rcx = s.rcx := by
  unfold leaR11rsp8; rfl

@[simp] theorem leaR11rsp8_rdx (s : Machine) : (leaR11rsp8 s).rdx = s.rdx := by
  unfold leaR11rsp8; rfl

@[simp] theorem leaR11rsp8_rsi (s : Machine) : (leaR11rsp8 s).rsi = s.rsi := by
  unfold leaR11rsp8; rfl

@[simp] theorem leaR11rsp8_rdi (s : Machine) : (leaR11rsp8 s).rdi = s.rdi := by
  unfold leaR11rsp8; rfl

@[simp] theorem leaR11rsp8_rbp (s : Machine) : (leaR11rsp8 s).rbp = s.rbp := by
  unfold leaR11rsp8; rfl

@[simp] theorem leaR11rsp8_rsp (s : Machine) : (leaR11rsp8 s).rsp = s.rsp := by
  unfold leaR11rsp8; rfl

@[simp] theorem leaR11rsp8_r8 (s : Machine) : (leaR11rsp8 s).r8 = s.r8 := by
  unfold leaR11rsp8; rfl

@[simp] theorem leaR11rsp8_r9 (s : Machine) : (leaR11rsp8 s).r9 = s.r9 := by
  unfold leaR11rsp8; rfl

@[simp] theorem leaR11rsp8_r10 (s : Machine) : (leaR11rsp8 s).r10 = s.r10 := by
  unfold leaR11rsp8; rfl

@[simp] theorem leaR11rsp8_r11 (s : Machine) : (leaR11rsp8 s).r11 = wrap (s.rsp + 8) := by
  unfold leaR11rsp8; rfl

@[simp] theorem leaR11rsp8_r12 (s : Machine) : (leaR11rsp8 s).r12 = s.r12 := by
  unfold leaR11rsp8; rfl

@[simp] theorem leaR11rsp8_r13 (s : Machine) : (leaR11rsp8 s).r13 = s.r13 := by
  unfold leaR11rsp8; rfl

@[simp] theorem leaR11rsp8_r14 (s : Machine) : (leaR11rsp8 s).r14 = s.r14 := by
  unfold leaR11rsp8; rfl

@[simp] theorem leaR11rsp8_r15 (s : Machine) : (leaR11rsp8 s).r15 = s.r15 := by
  unfold leaR11rsp8; rfl

@[simp] theorem leaR11rsp8_rip (s : Machine) : (leaR11rsp8 s).rip = s.rip := by
  unfold leaR11rsp8; rfl

@[simp] theorem leaR11rsp8_rflags (s : Machine) : (leaR11rsp8 s).rflags = s.rflags := by
  unfold leaR11rsp8; rfl

@[simp] theorem leaR11rsp8_fsbase (s : Machine) : (leaR11rsp8 s).fsbase = s.fsbase := by
  unfold leaR11rsp8; rfl

@[simp] theorem leaR11rsp8_mem (s : Machine) : (leaR11rsp8 s).mem = s.mem := by
  unfold leaR11rsp8; rfl

@[simp] theorem leaRsp160_rax (s : Machine) : (leaRsp160 s).rax = s.rax := by
  unfold leaRsp160; rfl

@[simp] theorem leaRsp160_rbx (s : Machine) : (leaRsp160 s).rbx = s.rbx := by
  unfold leaRsp160; rfl

@[simp] theorem leaRsp160_rcx (s : Machine) : (leaRsp160 s).rcx = s.rcx := by
  unfold leaRsp160; rfl

@[simp] theorem leaRsp160_rdx (s : Machine) : (leaRsp160 s).rdx = s.rdx := by
  unfold leaRsp160; rfl

@[simp] theorem leaRsp160_rsi (s : Machine) : (leaRsp160 s).rsi = s.rsi := by
  unfold leaRsp160; rfl

@[simp] theorem leaRsp160_rdi (s : Machine) : (leaRsp160 s).rdi = s.rdi := by
  unfold leaRsp160; rfl

@[simp] theorem leaRsp160_rbp (s : Machine) : (leaRsp160 s).rbp = s.rbp := by
  unfold leaRsp160; rfl

@[simp] theorem leaRsp160_rsp (s : Machine) : (leaRsp160 s).rsp = wrap (s.rsp + 160) := by
  unfold leaRsp160; rfl

@[simp] theorem leaRsp160_r8 (s : Machine) : (leaRsp160 s).r8 = s.r8 := by
  unfold leaRsp160; rfl

@[simp] theorem leaRsp160_r9 (s : Machine) : (leaRsp160 s).r9 = s.r9 := by
  unfold leaRsp160; rfl

@[simp] theorem leaRsp160_r10 (s : Machine) : (leaRsp160 s).r10 = s.r10 := by
  unfold leaRsp160; rfl

@[simp] theorem leaRsp160_r11 (s : Machine) : (leaRsp160 s).r11 = s.r11 := by
  unfold leaRsp160; rfl

@[simp] theorem leaRsp160_r12 (s : Machine) : (leaRsp160 s).r12 = s.r12 := by
  unfold leaRsp160; rfl

@[simp] theorem leaRsp160_r13 (s : Machine) : (leaRsp160 s).r13 = s.r13 := by
  unfold leaRsp160; rfl

@[simp] theorem leaRsp160_r14 (s : Machine) : (leaRsp160 s).r14 = s.r14 := by
  unfold leaRsp160; rfl

@[simp] theorem leaRsp160_r15 (s : Machine) : (leaRsp160 s).r15 = s.r15 := by
  unfold leaRsp160; rfl

@[simp] theorem leaRsp160_rip (s : Machine) : (leaRsp160 s).rip = s.rip := by
  unfold leaRsp160; rfl

@[simp] theorem leaRsp160_rflags (s : Machine) : (leaRsp160 s).rflags = s.rflags := by
  unfold leaRsp160; rfl

@[simp] theorem leaRsp160_fsbase (s : Machine) : (leaRsp160 s).fsbase = s.fsbase := by
  unfold leaRsp160; rfl

@[simp] theorem leaRsp160_mem (s : Machine) : (leaRsp160 s).mem = s.mem := by
  unfold leaRsp160; rfl

@[simp] theorem movRspRdi_rax (s : Machine) : (movRspRdi s).rax = s.rax := by
  unfold movRspRdi; rfl

@[simp] theorem movRspRdi_rbx (s : Machine) : (movRspRdi s).rbx = s.rbx := by
  unfold movRspRdi; rfl

@[simp] theorem movRspRdi_rcx (s : Machine) : (movRspRdi s).rcx = s.rcx := by
  unfold movRspRdi; rfl

@[simp] theorem movRspRdi_rdx (s : Machine) : (movRspRdi s).rdx = s.rdx := by
  unfold movRspRdi; rfl

@[simp] theorem movRspRdi_rsi (s : Machine) : (movRspRdi s).rsi = s.rsi := by
  unfold movRspRdi; rfl

@[simp] theorem movRspRdi_rdi (s : Machine) : (movRspRdi s).rdi = s.rdi := by
  unfold movRspRdi; rfl

@[simp] theorem movRspRdi_rbp (s : Machine) : (movRspRdi s).rbp = s.rbp := by
  unfold movRspRdi; rfl

@[simp] theorem movRspRdi_rsp (s : Machine) : (movRspRdi s).rsp = s.rdi := by
  unfold movRspRdi; rfl

@[simp] theorem movRspRdi_r8 (s : Machine) : (movRspRdi s).r8 = s.r8 := by
  unfold movRspRdi; rfl

@[simp] theorem movRspRdi_r9 (s : Machine) : (movRspRdi s).r9 = s.r9 := by
  unfold movRspRdi; rfl

@[simp] theorem movRspRdi_r10 (s : Machine) : (movRspRdi s).r10 = s.r10 := by
  unfold movRspRdi; rfl

@[simp] theorem movRspRdi_r11 (s : Machine) : (movRspRdi s).r11 = s.r11 := by
  unfold movRspRdi; rfl

@[simp] theorem movRspRdi_r12 (s : Machine) : (movRspRdi s).r12 = s.r12 := by
  unfold movRspRdi; rfl

@[simp] theorem movRspRdi_r13 (s : Machine) : (movRspRdi s).r13 = s.r13 := by
  unfold movRspRdi; rfl

@[simp] theorem movRspRdi_r14 (s : Machine) : (movRspRdi s).r14 = s.r14 := by
  unfold movRspRdi; rfl

@[simp] theorem movRspRdi_r15 (s : Machine) : (movRspRdi s).r15 = s.r15 := by
  unfold movRspRdi; rfl

@[simp] theorem movRspRdi_rip (s : Machine) : (movRspRdi s).rip = s.rip := by
  unfold movRspRdi; rfl

@[simp] theorem movRspRdi_rflags (s : Machine) : (movRspRdi s).rflags = s.rflags := by
  unfold movRspRdi; rfl

@[simp] theorem movRspRdi_fsbase (s : Machine) : (movRspRdi s).fsbase = s.fsbase := by
  unfold movRspRdi; rfl

@[simp] theorem movRspRdi_mem (s : Machine) : (movRspRdi s).mem = s.mem := by
  unfold movRspRdi; rfl

@[simp] theorem movRspFrameRsp_rax (s : Machine) : (movRspFrameRsp s).rax = s.rax := by
  unfold movRspFrameRsp; rfl

@[simp] theorem movRspFrameRsp_rbx (s : Machine) : (movRspFrameRsp s).rbx = s.rbx := by
  unfold movRspFrameRsp; rfl

@[simp] theorem movRspFrameRsp_rcx (s : Machine) : (movRspFrameRsp s).rcx = s.rcx := by
  unfold movRspFrameRsp; rfl

@[simp] theorem movRspFrameRsp_rdx (s : Machine) : (movRspFrameRsp s).rdx = s.rdx := by
  unfold movRspFrameRsp; rfl

@[simp] theorem movRspFrameRsp_rsi (s : Machine) : (movRspFrameRsp s).rsi = s.rsi := by
  unfold movRspFrameRsp; rfl

@[simp] theorem movRspFrameRsp_rdi (s : Machine) : (movRspFrameRsp s).rdi = s.rdi := by
  unfold movRspFrameRsp; rfl

@[simp] theorem movRspFrameRsp_rbp (s : Machine) : (movRspFrameRsp s).rbp = s.rbp := by
  unfold movRspFrameRsp; rfl

@[simp] theorem movRspFrameRsp_rsp (s : Machine) : (movRspFrameRsp s).rsp = s.mem (wrap (s.rsp + W - 88)) := by
  unfold movRspFrameRsp; rfl

@[simp] theorem movRspFrameRsp_r8 (s : Machine) : (movRspFrameRsp s).r8 = s.r8 := by
  unfold movRspFrameRsp; rfl

@[simp] theorem movRspFrameRsp_r9 (s : Machine) : (movRspFrameRsp s).r9 = s.r9 := by
  unfold movRspFrameRsp; rfl

@[simp] theorem movRspFrameRsp_r10 (s : Machine) : (movRspFrameRsp s).r10 = s.r10 := by
  unfold movRspFrameRsp; rfl

@[simp] theorem movRspFrameRsp_r11 (s : Machine) : (movRspFrameRsp s).r11 = s.r11 := by
  unfold movRspFrameRsp; rfl

@[simp] theorem movRspFrameRsp_r12 (s : Machine) : (movRspFrameRsp s).r12 = s.r12 := by
  unfold movRspFrameRsp; rfl

@[simp] theorem movRspFrameRsp_r13 (s : Machine) : (movRspFrameRsp s).r13 = s.r13 := by
  unfold movRspFrameRsp; rfl

@[simp] theorem movRspFrameRsp_r14 (s : Machine) : (movRspFrameRsp s).r14 = s.r14 := by
  unfold movRspFrameRsp; rfl

@[simp] theorem movRspFrameRsp_r15 (s : Machine) : (movRspFrameRsp s).r15 = s.r15 := by
  unfold movRspFrameRsp; rfl

@[simp] theorem movRspFrameRsp_rip (s : Machine) : (movRspFrameRsp s).rip = s.rip := by
  unfold movRspFrameRsp; rfl

@[simp] theorem movRspFrameRsp_rflags (s : Machine) : (movRspFrameRsp s).rflags = s.rflags := by
  unfold movRspFrameRsp; rfl

@[simp] theorem movRspFrameRsp_fsbase (s : Machine) : (movRspFrameRsp s).fsbase = s.fsbase := by
  unfold movRspFrameRsp; rfl

@[simp] theorem movRspFrameRsp_mem (s : Machine) : (movRspFrameRsp s).mem = s.mem := by
  unfold movRspFrameRsp; rfl

@[simp] theorem jmpR11_rax (s : Machine) : (jmpR11 s).rax = s.rax := by
  unfold jmpR11; rfl

@[simp] theorem jmpR11_rbx (s : Machine) : (jmpR11 s).rbx = s.rbx := by
  unfold jmpR11; rfl

@[simp] theorem jmpR11_rcx (s : Machine) : (jmpR11 s).rcx = s.rcx := by
  unfold jmpR11; rfl

@[simp] theorem jmpR11_rdx (s : Machine) : (jmpR11 s).rdx = s.rdx := by
  unfold jmpR11; rfl

@[simp] theorem jmpR11_rsi (s : Machine) : (jmpR11 s).rsi = s.rsi := by
  unfold jmpR11; rfl

@[simp] theorem jmpR11_rdi (s : Machine) : (jmpR11 s).rdi = s.rdi := by
  unfold jmpR11; rfl

@[simp] theorem jmpR11_rbp (s : Machine) : (jmpR11 s).rbp = s.rbp := by
  unfold jmpR11; rfl

@[simp] theorem jmpR11_rsp (s : Machine) : (jmpR11 s).rsp = s.rsp := by
  unfold jmpR11; rfl

@[simp] theorem jmpR11_r8 (s : Machine) : (jmpR11 s).r8 = s.r8 := by
  unfold jmpR11; rfl

@[simp] theorem jmpR11_r9 (s : Machine) : (jmpR11 s).r9 = s.r9 := by
  unfold jmpR11; rfl

@[simp] theorem jmpR11_r10 (s : Machine) : (jmpR11 s).r10 = s.r10 := by
  unfold jmpR11; rfl

@[simp] theorem jmpR11_r11 (s : Machine) : (jmpR11 s).r11 = s.r11 := by
  unfold jmpR11; rfl

@[simp] theorem jmpR11_r12 (s : Machine) : (jmpR11 s).r12 = s.r12 := by
  unfold jmpR11; rfl

@[simp] theorem jmpR11_r13 (s : Machine) : (jmpR11 s).r13 = s.r13 := by
  unfold jmpR11; rfl

@[simp] theorem jmpR11_r14 (s : Machine) : (jmpR11 s).r14 = s.r14 := by
  unfold jmpR11; rfl

@[simp] theorem jmpR11_r15 (s : Machine) : (jmpR11 s).r15 = s.r15 := by
  unfold jmpR11; rfl

@[simp] theorem jmpR11_rip (s : Machine) : (jmpR11 s).rip = s.r11 := by
  unfold jmpR11; rfl

@[simp] theorem jmpR11_rflags (s : Machine) : (jmpR11 s).rflags = s.rflags := by
  unfold jmpR11; rfl

@[simp] theorem jmpR11_fsbase (s : Machine) : (jmpR11 s).fsbase = s.fsbase := by
  unfold jmpR11; rfl

@[simp] theorem jmpR11_mem (s : Machine) : (jmpR11 s).mem = s.mem := by
  unfold jmpR11; rfl

@[simp] theorem retInstr_rax (s : Machine) : (retInstr s).rax = s.rax := by
  unfold retInstr; rfl

@[simp] theorem retInstr_rbx (s : Machine) : (retInstr s).rbx = s.rbx := by
  unfold retInstr; rfl

@[simp] theorem retInstr_rcx (s : Machine) : (retInstr s).rcx = s.rcx := by
  unfold retInstr; rfl

@[simp] theorem retInstr_rdx (s : Machine) : (retInstr s).rdx = s.rdx := by
  unfold retInstr; rfl

@[simp] theorem retInstr_rsi (s : Machine) : (retInstr s).rsi = s.rsi := by
  unfold retInstr; rfl

@[simp] theorem retInstr_rdi (s : Machine) : (retInstr s).rdi = s.rdi := by
  unfold retInstr; rfl

@[simp] theorem retInstr_rbp (s : Machine) : (retInstr s).rbp = s.rbp := by
  unfold retInstr; rfl

@[simp] theorem retInstr_rsp (s : Machine) : (retInstr s).rsp = wrap (s.rsp + 8) := by
  unfold retInstr; rfl

@[simp] theorem retInstr_r8 (s : Machine) : (retInstr s).r8 = s.r8 := by
  unfold retInstr; rfl

@[simp] theorem retInstr_r9 (s : Machine) : (retInstr s).r9 = s.r9 := by
  unfold retInstr; rfl

@[simp] theorem retInstr_r10 (s : Machine) : (retInstr s).r10 = s.r10 := by
  unfold retInstr; rfl

@[simp] theorem retInstr_r11 (s : Machine) : (retInstr s).r11 = s.r11 := by
  unfold retInstr; rfl

@[simp] theorem retInstr_r12 (s : Machine) : (retInstr s).r12 = s.r12 := by
  unfold retInstr; rfl

@[simp] theorem retInstr_r13 (s : Machine) : (retInstr s).r13 = s.r13 := by
  unfold retInstr; rfl

@[simp] theorem retInstr_r14 (s : Machine) : (retInstr s).r14 = s.r14 := by
  unfold retInstr; rfl

@[simp] theorem retInstr_r15 (s : Machine) : (retInstr s).r15 = s.r15 := by
  unfold retInstr; rfl

@[simp] theorem retInstr_rip (s : Machine) : (retInstr s).rip = s.mem s.rsp := by
  unfold retInstr; rfl

@[simp] theorem retInstr_rflags (s : Machine) : (retInstr s).rflags = s.rflags := by
  unfold retInstr; rfl

@[simp] theorem retInstr_fsbase (s : Machine) : (retInstr s).fsbase = s.fsbase := by
  unfold retInstr; rfl

@[simp] theorem retInstr_mem (s : Machine) : (retInstr s).mem = s.mem := by
  unfold retInstr; rfl

@[simp] theorem SWITCH_TO_KERNEL_STACK_rax (s : Machine) : (SWITCH_TO_KERNEL_STACK s).rax = s.rax := by
  unfold SWITCH_TO_KERNEL_STACK; rfl

@[simp] theorem SWITCH_TO_KERNEL_STACK_rbx (s : Machine) : (SWITCH_TO_KERNEL_STACK s).rbx = s.rbx := by
  unfold SWITCH_TO_KERNEL_STACK; rfl

@[simp] theorem SWITCH_TO_KERNEL_STACK_rcx (s : Machine) : (SWITCH_TO_KERNEL_STACK s).rcx = s.rcx := by
  unfold SWITCH_TO_KERNEL_STACK; rfl

@[simp] theorem SWITCH_TO_KERNEL_STACK_rdx (s : Machine) : (SWITCH_TO_KERNEL_STACK s).rdx = s.rdx := by
  unfold SWITCH_TO_KERNEL_STACK; rfl

@[simp] theorem SWITCH_TO_KERNEL_STACK_rsi (s : Machine) : (SWITCH_TO_KERNEL_STACK s).rsi = s.rsi := by
  unfold SWITCH_TO_KERNEL_STACK; rfl

@[simp] theorem SWITCH_TO_KERNEL_STACK_rdi (s : Machine) : (SWITCH_TO_KERNEL_STACK s).rdi = s.rdi := by
  unfold SWITCH_TO_KERNEL_STACK; rfl

@[simp] theorem SWITCH_TO_KERNEL_STACK_rbp (s : Machine) : (SWITCH_TO_KERNEL_STACK s).rbp = s.rbp := by
  unfold SWITCH_TO_KERNEL_STACK; rfl

@[simp] theorem SWITCH_TO_KERNEL_STACK_rsp (s : Machine) : (SWITCH_TO_KERNEL_STACK s).rsp = s.mem (wrap (s.mem (wrap (s.fsbase + 48)) + 64)) := by
  unfold SWITCH_TO_KERNEL_STACK; rfl

@[simp] theorem SWITCH_TO_KERNEL_STACK_r8 (s : Machine) : (SWITCH_TO_KERNEL_STACK s).r8 = s.r8 := by
  unfold SWITCH_TO_KERNEL_STACK; rfl

@[simp] theorem SWITCH_TO_KERNEL_STACK_r9 (s : Machine) : (SWITCH_TO_KERNEL_STACK s).r9 = s.r9 := by
  unfold SWITCH_TO_KERNEL_STACK; rfl

@[simp] theorem SWITCH_TO_KERNEL_STACK_r10 (s : Machine) : (SWITCH_TO_KERNEL_STACK s).r10 = s.r10 := by
  unfold SWITCH_TO_KERNEL_STACK; rfl

@[simp] theorem SWITCH_TO_KERNEL_STACK_r11 (s : Machine) : (SWITCH_TO_KERNEL_STACK s).r11 = s.r11 := by
  unfold SWITCH_TO_KERNEL_STACK; rfl

@[simp] theorem SWITCH_TO_KERNEL_STACK_r12 (s : Machine) : (SWITCH_TO_KERNEL_STACK s).r12 = s.r12 := by
  unfold SWITCH_TO_KERNEL_STACK; rfl

@[simp] theorem SWITCH_TO_KERNEL_STACK_r13 (s : Machine) : (SWITCH_TO_KERNEL_STACK s).r13 = s.r13 := by
  unfold SWITCH_TO_KERNEL_STACK; rfl

@[simp] theorem SWITCH_TO_KERNEL_STACK_r14 (s : Machine) : (SWITCH_TO_KERNEL_STACK s).r14 = s.r14 := by
  unfold SWITCH_TO_KERNEL_STACK; rfl

@[simp] theorem SWITCH_TO_KERNEL_STACK_r15 (s : Machine) : (SWITCH_TO_KERNEL_STACK s).r15 = s.r15 := by
  unfold SWITCH_TO_KERNEL_STACK; rfl

@[simp] theorem SWITCH_TO_KERNEL_STACK_rip (s : Machine) : (SWITCH_TO_KERNEL_STACK s).rip = s.rip := by
  unfold SWITCH_TO_KERNEL_STACK; rfl

@[simp] theorem SWITCH_TO_KERNEL_STACK_rflags (s : Machine) : (SWITCH_TO_KERNEL_STACK s).rflags = s.rflags := by
  unfold SWITCH_TO_KERNEL_STACK; rfl

@[simp] theorem SWITCH_TO_KERNEL_STACK_fsbase (s : Machine) : (SWITCH_TO_KERNEL_STACK s).fsbase = s.fsbase := by
  unfold SWITCH_TO_KERNEL_STACK; rfl

@[simp] theorem SWITCH_TO_KERNEL_STACK_mem (s : Machine) : (SWITCH_TO_KERNEL_STACK s).mem = s.mem := by
  unfold SWITCH_TO_KERNEL_STACK; rfl

@[simp] theorem SAVE_KERNEL_STACK_rax (s : Machine) : (SAVE_KERNEL_STACK s).rax = s.rax := by
  unfold SAVE_KERNEL_STACK; rfl

@[simp] theorem SAVE_KERNEL_STACK_rbx (s : Machine) : (SAVE_KERNEL_STACK s).rbx = s.rbx := by
  unfold SAVE_KERNEL_STACK; rfl

@[simp] theorem SAVE_KERNEL_STACK_rcx (s : Machine) : (SAVE_KERNEL_STACK s).rcx = s.rcx := by
  unfold SAVE_KERNEL_STACK; rfl

@[simp] theorem SAVE_KERNEL_STACK_rdx (s : Machine) : (SAVE_KERNEL_STACK s).rdx = s.rdx := by
  unfold SAVE_KERNEL_STACK; rfl

@[simp] theorem SAVE_KERNEL_STACK_rsi (s : Machine) : (SAVE_KERNEL_STACK s).rsi = s.rsi := by
  unfold SAVE_KERNEL_STACK; rfl

@[simp] theorem SAVE_KERNEL_STACK_rdi (s : Machine) : (SAVE_KERNEL_STACK s).rdi = s.rdi := by
  unfold SAVE_KERNEL_STACK; rfl

@[simp] theorem SAVE_KERNEL_STACK_rbp (s : Machine) : (SAVE_KERNEL_STACK s).rbp = s.rbp := by
  unfold SAVE_KERNEL_STACK; rfl

@[simp] theorem SAVE_KERNEL_STACK_rsp (s : Machine) : (SAVE_KERNEL_STACK s).rsp = s.rsp := by
  unfold SAVE_KERNEL_STACK; rfl

@[simp] theorem SAVE_KERNEL_STACK_r8 (s : Machine) : (SAVE_KERNEL_STACK s).r8 = s.r8 := by
  unfold SAVE_KERNEL_STACK; rfl

@[simp] theorem SAVE_KERNEL_STACK_r9 (s : Machine) : (SAVE_KERNEL_STACK s).r9 = s.r9 := by
  unfold SAVE_KERNEL_STACK; rfl

@[simp] theorem SAVE_KERNEL_STACK_r10 (s : Machine) : (SAVE_KERNEL_STACK s).r10 = s.r10 := by
  unfold SAVE_KERNEL_STACK; rfl

@[simp] theorem SAVE_KERNEL_STACK_r11 (s : Machine) : (SAVE_KERNEL_STACK s).r11 = s.r11 := by
  unfold SAVE_KERNEL_STACK; rfl

@[simp] theorem SAVE_KERNEL_STACK_r12 (s : Machine) : (SAVE_KERNEL_STACK s).r12 = s.r12 := by
  unfold SAVE_KERNEL_STACK; rfl

@[simp] theorem SAVE_KERNEL_STACK_r13 (s : Machine) : (SAVE_KERNEL_STACK s).r13 = s.r13 := by
  unfold SAVE_KERNEL_STACK; rfl

@[simp] theorem SAVE_KERNEL_STACK_r14 (s : Machine) : (SAVE_KERNEL_STACK s).r14 = s.r14 := by
  unfold SAVE_KERNEL_STACK; rfl

@[simp] theorem SAVE_KERNEL_STACK_r15 (s : Machine) : (SAVE_KERNEL_STACK s).r15 = s.r15 := by
  unfold SAVE_KERNEL_STACK; rfl

@[simp] theorem SAVE_KERNEL_STACK_rip (s : Machine) : (SAVE_KERNEL_STACK s).rip = s.rip := by
  unfold SAVE_KERNEL_STACK; rfl

@[simp] theorem SAVE_KERNEL_STACK_rflags (s : Machine) : (SAVE_KERNEL_STACK s).rflags = s.rflags := by
  unfold SAVE_KERNEL_STACK; rfl

@[simp] theorem SAVE_KERNEL_STACK_fsbase (s : Machine) : (SAVE_KERNEL_STACK s).fsbase = s.fsbase := by
  unfold SAVE_KERNEL_STACK; rfl

@[simp] theorem SAVE_KERNEL_STACK_mem (s : Machine) : (SAVE_KERNEL_STACK s).mem = store s.mem (wrap (s.fsbase + 64)) s.rsp := by
  unfold SAVE_KERNEL_STACK; rfl

@[simp] theorem SWITCH_TO_KERNEL_FSBASE_rax (s : Machine) : (SWITCH_TO_KERNEL_FSBASE s).rax = 0 := by
  unfold SWITCH_TO_KERNEL_FSBASE; rfl

@[simp] theorem SWITCH_TO_KERNEL_FSBASE_rbx (s : Machine) : (SWITCH_TO_KERNEL_FSBASE s).rbx = s.rbx := by
  unfold SWITCH_TO_KERNEL_FSBASE; rfl

@[simp] theorem SWITCH_TO_KERNEL_FSBASE_rcx (s : Machine) : (SWITCH_TO_KERNEL_FSBASE s).rcx = s.rcx := by
  unfold SWITCH_TO_KERNEL_FSBASE; rfl

@[simp] theorem SWITCH_TO_KERNEL_FSBASE_rdx (s : Machine) : (SWITCH_TO_KERNEL_FSBASE s).rdx = s.rdx := by
  unfold SWITCH_TO_KERNEL_FSBASE; rfl

@[simp] theorem SWITCH_TO_KERNEL_FSBASE_rsi (s : Machine) : (SWITCH_TO_KERNEL_FSBASE s).rsi = s.mem (wrap (s.fsbase + 48)) := by
  unfold SWITCH_TO_KERNEL_FSBASE; rfl

@[simp] theorem SWITCH_TO_KERNEL_FSBASE_rdi (s : Machine) : (SWITCH_TO_KERNEL_FSBASE s).rdi = 4098 := by
  unfold SWITCH_TO_KERNEL_FSBASE; rfl

@[simp] theorem SWITCH_TO_KERNEL_FSBASE_rbp (s : Machine) : (SWITCH_TO_KERNEL_FSBASE s).rbp = s.rbp := by
  unfold SWITCH_TO_KERNEL_FSBASE; rfl

@[simp] theorem SWITCH_TO_KERNEL_FSBASE_rsp (s : Machine) : (SWITCH_TO_KERNEL_FSBASE s).rsp = s.rsp := by
  unfold SWITCH_TO_KERNEL_FSBASE; rfl

@[simp] theorem SWITCH_TO_KERNEL_FSBASE_r8 (s : Machine) : (SWITCH_TO_KERNEL_FSBASE s).r8 = s.r8 := by
  unfold SWITCH_TO_KERNEL_FSBASE; rfl

@[simp] theorem SWITCH_TO_KERNEL_FSBASE_r9 (s : Machine) : (SWITCH_TO_KERNEL_FSBASE s).r9 = s.r9 := by
  unfold SWITCH_TO_KERNEL_FSBASE; rfl

@[simp] theorem SWITCH_TO_KERNEL_FSBASE_r10 (s : Machine) : (SWITCH_TO_KERNEL_FSBASE s).r10 = s.r10 := by
  unfold SWITCH_TO_KERNEL_FSBASE; rfl

@[simp] theorem SWITCH_TO_KERNEL_FSBASE_r11 (s : Machine) : (SWITCH_TO_KERNEL_FSBASE s).r11 = s.r11 := by
  unfold SWITCH_TO_KERNEL_FSBASE; rfl

@[simp] theorem SWITCH_TO_KERNEL_FSBASE_r12 (s : Machine) : (SWITCH_TO_KERNEL_FSBASE s).r12 = s.r12 := by
  unfold SWITCH_TO_KERNEL_FSBASE; rfl

@[simp] theorem SWITCH_TO_KERNEL_FSBASE_r13 (s : Machine) : (SWITCH_TO_KERNEL_FSBASE s).r13 = s.r13 := by
  unfold SWITCH_TO_KERNEL_FSBASE; rfl

@[simp] theorem SWITCH_TO_KERNEL_FSBASE_r14 (s : Machine) : (SWITCH_TO_KERNEL_FSBASE s).r14 = s.r14 := by
  unfold SWITCH_TO_KERNEL_FSBASE; rfl

@[simp] theorem SWITCH_TO_KERNEL_FSBASE_r15 (s : Machine) : (SWITCH_TO_KERNEL_FSBASE s).r15 = s.r15 := by
  unfold SWITCH_TO_KERNEL_FSBASE; rfl

@[simp] theorem SWITCH_TO_KERNEL_FSBASE_rip (s : Machine) : (SWITCH_TO_KERNEL_FSBASE s).rip = s.rip := by
  unfold SWITCH_TO_KERNEL_FSBASE; rfl

@[simp] theorem SWITCH_TO_KERNEL_FSBASE_rflags (s : Machine) : (SWITCH_TO_KERNEL_FSBASE s).rflags = s.rflags := by
  unfold SWITCH_TO_KERNEL_FSBASE; rfl

@[simp] theorem SWITCH_TO_KERNEL_FSBASE_fsbase (s : Machine) : (SWITCH_TO_KERNEL_FSBASE s).fsbase = s.mem (wrap (s.fsbase + 48)) := by
  unfold SWITCH_TO_KERNEL_FSBASE; rfl

@[simp] theorem SWITCH_TO_KERNEL_FSBASE_mem (s : Machine) : (SWITCH_TO_KERNEL_FSBASE s).mem = s.mem := by
  unfold SWITCH_TO_KERNEL_FSBASE; rfl

@[simp] theorem POP_USER_FSBASE_rax (s : Machine) : (POP_USER_FSBASE s).rax = 0 := by
  by_cases h : s.mem (wrap (s.rsp + 144)) ≠ 0 <;>
    simp only [POP_USER_FSBASE, h, if_true, if_false, ite_not]

@[simp] theorem POP_USER_FSBASE_rbx (s : Machine) : (POP_USER_FSBASE s).rbx = s.rbx := by
  by_cases h : s.mem (wrap (s.rsp + 144)) ≠ 0 <;>
    simp only [POP_USER_FSBASE, h, if_true, if_false, ite_not]

@[simp] theorem POP_USER_FSBASE_rcx (s : Machine) : (POP_USER_FSBASE s).rcx = s.rcx := by
  by_cases h : s.mem (wrap (s.rsp + 144)) ≠ 0 <;>
    simp only [POP_USER_FSBASE, h, if_true, if_false, ite_not]

@[simp] theorem POP_USER_FSBASE_rdx (s : Machine) : (POP_USER_FSBASE s).rdx = s.mem s.fsbase := by
  by_cases h : s.mem (wrap (s.rsp + 144)) ≠ 0 <;>
    simp only [POP_USER_FSBASE, h, if_true, if_false, ite_not]

@[simp] theorem POP_USER_FSBASE_rsi (s : Machine) : (POP_USER_FSBASE s).rsi = if s.mem (wrap (s.rsp + 144)) ≠ 0 then s.mem (wrap (s.rsp + 144)) else wrap (s.mem s.fsbase + 72) := by
  by_cases h : s.mem (wrap (s.rsp + 144)) ≠ 0 <;>
    simp only [POP_USER_FSBASE, h, if_true, if_false, ite_not]

@[simp] theorem POP_USER_FSBASE_rdi (s : Machine) : (POP_USER_FSBASE s).rdi = 4098 := by
  by_cases h : s.mem (wrap (s.rsp + 144)) ≠ 0 <;>
    simp only [POP_USER_FSBASE, h, if_true, if_false, ite_not]

@[simp] theorem POP_USER_FSBASE_rbp (s : Machine) : (POP_USER_FSBASE s).rbp = s.rbp := by
  by_cases h : s.mem (wrap (s.rsp + 144)) ≠ 0 <;>
    simp only [POP_USER_FSBASE, h, if_true, if_false, ite_not]

@[simp] theorem POP_USER_FSBASE_rsp (s : Machine) : (POP_USER_FSBASE s).rsp = s.rsp := by
  by_cases h : s.mem (wrap (s.rsp + 144)) ≠ 0 <;>
    simp only [POP_USER_FSBASE, h, if_true, if_false, ite_not]

@[simp] theorem POP_USER_FSBASE_r8 (s : Machine) : (POP_USER_FSBASE s).r8 = s.r8 := by
  by_cases h : s.mem (wrap (s.rsp + 144)) ≠ 0 <;>
    simp only [POP_USER_FSBASE, h, if_true, if_false, ite_not]

@[simp] theorem POP_USER_FSBASE_r9 (s : Machine) : (POP_USER_FSBASE s).r9 = s.r9 := by
  by_cases h : s.mem (wrap (s.rsp + 144)) ≠ 0 <;>
    simp only [POP_USER_FSBASE, h, if_true, if_false, ite_not]

@[simp] theorem POP_USER_FSBASE_r10 (s : Machine) : (POP_USER_FSBASE s).r10 = s.r10 := by
  by_cases h : s.mem (wrap (s.rsp + 144)) ≠ 0 <;>
    simp only [POP_USER_FSBASE, h, if_true, if_false, ite_not]

@[simp] theorem POP_USER_FSBASE_r11 (s : Machine) : (POP_USER_FSBASE s).r11 = s.r11 := by
  by_cases h : s.mem (wrap (s.rsp + 144)) ≠ 0 <;>
    simp only [POP_USER_FSBASE, h, if_true, if_false, ite_not]

@[simp] theorem POP_USER_FSBASE_r12 (s : Machine) : (POP_USER_FSBASE s).r12 = s.r12 := by
  by_cases h : s.mem (wrap (s.rsp + 144)) ≠ 0 <;>
    simp only [POP_USER_FSBASE, h, if_true, if_false, ite_not]

@[simp] theorem POP_USER_FSBASE_r13 (s : Machine) : (POP_USER_FSBASE s).r13 = s.r13 := by
  by_cases h : s.mem (wrap (s.rsp + 144)) ≠ 0 <;>
    simp only [POP_USER_FSBASE, h, if_true, if_false, ite_not]

@[simp] theorem POP_USER_FSBASE_r14 (s : Machine) : (POP_USER_FSBASE s).r14 = s.r14 := by
  by_cases h : s.mem (wrap (s.rsp + 144)) ≠ 0 <;>
    simp only [POP_USER_FSBASE, h, if_true, if_false, ite_not]

@[simp] theorem POP_USER_FSBASE_r15 (s : Machine) : (POP_USER_FSBASE s).r15 = s.r15 := by
  by_cases h : s.mem (wrap (s.rsp + 144)) ≠ 0 <;>
    simp only [POP_USER_FSBASE, h, if_true, if_false, ite_not]

@[simp] theorem POP_USER_FSBASE_rip (s : Machine) : (POP_USER_FSBASE s).rip = s.rip := by
  by_cases h : s.mem (wrap (s.rsp + 144)) ≠ 0 <;>
    simp only [POP_USER_FSBASE, h, if_true, if_false, ite_not]

@[simp] theorem POP_USER_FSBASE_rflags (s : Machine) : (POP_USER_FSBASE s).rflags = s.rflags := by
  by_cases h : s.mem (wrap (s.rsp + 144)) ≠ 0 <;>
    simp only [POP_USER_FSBASE, h, if_true, if_false, ite_not]

@[simp] theorem POP_USER_FSBASE_fsbase (s : Machine) : (POP_USER_FSBASE s).fsbase = if s.mem (wrap (s.rsp + 144)) ≠ 0 then s.mem (wrap (s.rsp + 144)) else wrap (s.mem s.fsbase + 72) := by
  by_cases h : s.mem (wrap (s.rsp + 144)) ≠ 0 <;>
    simp only [POP_USER_FSBASE, h, if_true, if_false, ite_not]

@[simp] theorem POP_USER_FSBASE_mem (s : Machine) : (POP_USER_FSBASE s).mem = if s.mem (wrap (s.rsp + 144)) ≠ 0 then store s.mem (wrap (s.mem (wrap (s.rsp + 144)) + 48)) (s.mem s.fsbase) else store (store s.mem (wrap (s.mem s.fsbase + 72)) (wrap (s.mem s.fsbase + 72))) (wrap (wrap (s.mem s.fsbase + 72) + 48)) (s.mem s.fsbase) := by
  by_cases h : s.mem (wrap (s.rsp + 144)) ≠ 0 <;>
    simp only [POP_USER_FSBASE, h, if_true, if_false, ite_not]


theorem resume_eval (c : Machine)
    (vrax vrbx vrcx vrdx vrsi vrdi vrbp vrsp vr8 vr9 vr10 vr11 vr12 vr13
     vr14 vr15 vrip vrfl vgs raHost : Nat) :
    syscall_fn_return (hostStart c vrax vrbx vrcx vrdx vrsi vrdi vrbp vrsp vr8 vr9 vr10 vr11 vr12 vr13 vr14 vr15 vrip vrfl 262144 vgs raHost) =
    (⟨(vrax), (vrbx), (vrcx), (vrdx), (vrsi), (vrdi), (vrbp), (vrsp), (vr8), (vr9), (vr10), (vrip), (vr12), (vr13), (vr14), (vr15), (vrip), (vrfl), (262144), (store (store (store (store (store (store (store (store (store (scenarioMem c.mem vrax vrbx vrcx vrdx vrsi vrdi vrbp vrsp vr8 vr9 vr10 vr11 vr12 vr13 vr14 vr15 vrip vrfl 262144 vgs raHost) 131064 (c.r15)) 131056 (c.r14)) 131048 (c.r13)) 131040 (c.r12)) 131032 (c.rbp)) 131024 (c.rbx)) 131016 (196608)) 65600 (131016)) 262192 (65536))⟩ : Machine) := by
  unfold syscall_fn_return
  have h1 : pushR15 (hostStart c vrax vrbx vrcx vrdx vrsi vrdi vrbp vrsp vr8 vr9 vr10 vr11 vr12 vr13 vr14 vr15 vrip vrfl 262144 vgs raHost) = (⟨(c.rax), (c.rbx), (c.rcx), (c.rdx), (c.rsi), (196608), (c.rbp), (131064), (c.r8), (c.r9), (c.r10), (c.r11), (c.r12), (c.r13), (c.r14), (c.r15), (c.rip), (c.rflags), (65536), (store (scenarioMem c.mem vrax vrbx vrcx vrdx vrsi vrdi vrbp vrsp vr8 vr9 vr10 vr11 vr12 vr13 vr14 vr15 vrip vrfl 262144 vgs raHost) 131064 (c.r15))⟩ : Machine) := by
    simp only [pushR15, pushv]
    all_goals norm_num [Machine.mk.injEq, wrap, W, store, setSlot, scenarioMem, hostStart, KFS, HOSTRSP, FRAME, UFS, GUESTRSP]
  rw [h1]
  have h2 : pushR14 ((⟨(c.rax), (c.rbx), (c.rcx), (c.rdx), (c.rsi), (196608), (c.rbp), (131064), (c.r8), (c.r9), (c.r10), (c.r11), (c.r12), (c.r13), (c.r14), (c.r15), (c.rip), (c.rflags), (65536), (store (scenarioMem c.mem vrax vrbx vrcx vrdx vrsi vrdi vrbp vrsp vr8 vr9 vr10 vr11 vr12 vr13 vr14 vr15 vrip vrfl 262144 vgs raHost) 131064 (c.r15))⟩ : Machine)) = (⟨(c.rax), (c.rbx), (c.rcx), (c.rdx), (c.rsi), (196608), (c.rbp), (131056), (c.r8), (c.r9), (c.r10), (c.r11), (c.r12), (c.r13), (c.r14), (c.r15), (c.rip), (c.rflags), (65536), (store (store (scenarioMem c.mem vrax vrbx vrcx vrdx vrsi vrdi vrbp vrsp vr8 vr9 vr10 vr11 vr12 vr13 vr14 vr15 vrip vrfl 262144 vgs raHost) 131064 (c.r15)) 131056 (c.r14))⟩ : Machine) := by
    simp only [pushR14, pushv]
    all_goals norm_num [Machine.mk.injEq, wrap, W, store, setSlot, scenarioMem, hostStart, KFS, HOSTRSP, FRAME, UFS, GUESTRSP]
  rw [h2]
  have h3 : pushR13 ((⟨(c.rax), (c.rbx), (c.rcx), (c.rdx), (c.rsi), (196608), (c.rbp), (131056), (c.r8), (c.r9), (c.r10), (c.r11), (c.r12), (c.r13), (c.r14), (c.r15), (c.rip), (c.rflags), (65536), (store (store (scenarioMem c.mem vrax vrbx vrcx vrdx vrsi vrdi vrbp vrsp vr8 vr9 vr10 vr11 vr12 vr13 vr14 vr15 vrip vrfl 262144 vgs raHost) 131064 (c.r15)) 131056 (c.r14))⟩ : Machine)) = (⟨(c.rax), (c.rbx), (c.rcx), (c.rdx), (c.rsi), (196608), (c.rbp), (131048), (c.r8), (c.r9), (c.r10), (c.r11), (c.r12), (c.r13), (c.r14), (c.r15), (c.rip), (c.rflags), (65536), (store (store (store (scenarioMem c.mem vrax vrbx vrcx vrdx vrsi vrdi vrbp vrsp vr8 vr9 vr10 vr11 vr12 vr13 vr14 vr15 vrip vrfl 262144 vgs raHost) 131064 (c.r15)) 131056 (c.r14)) 131048 (c.r13))⟩ : Machine) := by
    simp only [pushR13, pushv]
    all_goals norm_num [Machine.mk.injEq, wrap, W, store, setSlot, scenarioMem, hostStart, KFS, HOSTRSP, FRAME, UFS, GUESTRSP]
  rw [h3]
  have h4 : pushR12 ((⟨(c.rax), (c.rbx), (c.rcx), (c.rdx), (c.rsi), (196608), (c.rbp), (131048), (c.r8), (c.r9), (c.r10), (c.r11), (c.r12), (c.r13), (c.r14), (c.r15), (c.rip), (c.rflags), (65536), (store (store (store (scenarioMem c.mem vrax vrbx vrcx vrdx vrsi vrdi vrbp vrsp vr8 vr9 vr10 vr11 vr12 vr13 vr14 vr15 vrip vrfl 262144 vgs raHost) 131064 (c.r15)) 131056 (c.r14)) 131048 (c.r13))⟩ : Machine)) = (⟨(c.rax), (c.rbx), (c.rcx), (c.rdx), (c.rsi), (196608), (c.rbp), (131040), (c.r8), (c.r9), (c.r10), (c.r11), (c.r12), (c.r13), (c.r14), (c.r15), (c.rip), (c.rflags), (65536), (store (store (store (store (scenarioMem c.mem vrax vrbx vrcx vrdx vrsi vrdi vrbp vrsp vr8 vr9 vr10 vr11 vr12 vr13 vr14 vr15 vrip vrfl 262144 vgs raHost) 131064 (c.r15)) 131056 (c.r14)) 131048 (c.r13)) 131040 (c.r12))⟩ : Machine) := by
    simp only [pushR12, pushv]
    all_goals norm_num [Machine.mk.injEq, wrap, W, store, setSlot, scenarioMem, hostStart, KFS, HOSTRSP, FRAME, UFS, GUESTRSP]
  rw [h4]
  have h5 : pushRbp ((⟨(c.rax), (c.rbx), (c.rcx), (c.rdx), (c.rsi), (196608), (c.rbp), (131040), (c.r8), (c.r9), (c.r10), (c.r11), (c.r12), (c.r13), (c.r14), (c.r15), (c.rip), (c.rflags), (65536), (store (store (store (store (scenarioMem c.mem vrax vrbx vrcx vrdx vrsi vrdi vrbp vrsp vr8 vr9 vr10 vr11 vr12 vr13 vr14 vr15 vrip vrfl 262144 vgs raHost) 131064 (c.r15)) 131056 (c.r14)) 131048 (c.r13)) 131040 (c.r12))⟩ : Machine)) = (⟨(c.rax), (c.rbx), (c.rcx), (c.rdx), (c.rsi), (196608), (c.rbp), (131032), (c.r8), (c.r9), (c.r10), (c.r11), (c.r12), (c.r13), (c.r14), (c.r15), (c.rip), (c.rflags), (65536), (store (store (store (store (store (scenarioMem c.mem vrax vrbx vrcx vrdx vrsi vrdi vrbp vrsp vr8 vr9 vr10 vr11 vr12 vr13 vr14 vr15 vrip vrfl 262144 vgs raHost) 131064 (c.r15)) 131056 (c.r14)) 131048 (c.r13)) 131040 (c.r12)) 131032 (c.rbp))⟩ : Machine) := by
    simp only [pushRbp, pushv]
    all_goals norm_num [Machine.mk.injEq, wrap, W, store, setSlot, scenarioMem, hostStart, KFS, HOSTRSP, FRAME, UFS, GUESTRSP]
  rw [h5]
  have h6 : pushRbx ((⟨(c.rax), (c.rbx), (c.rcx), (c.rdx), (c.rsi), (196608), (c.rbp), (131032), (c.r8), (c.r9), (c.r10), (c.r11), (c.r12), (c.r13), (c.r14), (c.r15), (c.rip), (c.rflags), (65536), (store (store (store (store (store (scenarioMem c.mem vrax vrbx vrcx vrdx vrsi vrdi vrbp vrsp vr8 vr9 vr10 vr11 vr12 vr13 vr14 vr15 vrip vrfl 262144 vgs raHost) 131064 (c.r15)) 131056 (c.r14)) 131048 (c.r13)) 131040 (c.r12)) 131032 (c.rbp))⟩ : Machine)) = (⟨(c.rax), (c.rbx), (c.rcx), (c.rdx), (c.rsi), (196608), (c.rbp), (131024), (c.r8), (c.r9), (c.r10), (c.r11), (c.r12), (c.r13), (c.r14), (c.r15), (c.rip), (c.rflags), (65536), (store (store (store (store (store (store (scenarioMem c.mem vrax vrbx vrcx vrdx vrsi vrdi vrbp vrsp vr8 vr9 vr10 vr11 vr12 vr13 vr14 vr15 vrip vrfl 262144 vgs raHost) 131064 (c.r15)) 131056 (c.r14)) 131048 (c.r13)) 131040 (c.r12)) 131032 (c.rbp)) 131024 (c.rbx))⟩ : Machine) := by
    simp only [pushRbx, pushv]
    all_goals norm_num [Machine.mk.injEq, wrap, W, store, setSlot, scenarioMem, hostStart, KFS, HOSTRSP, FRAME, UFS, GUESTRSP]
  rw [h6]
  have h7 : pushRdi ((⟨(c.rax), (c.rbx), (c.rcx), (c.rdx), (c.rsi), (196608), (c.rbp), (131024), (c.r8), (c.r9), (c.r10), (c.r11), (c.r12), (c.r13), (c.r14), (c.r15), (c.rip), (c.rflags), (65536), (store (store (store (store (store (store (scenarioMem c.mem vrax vrbx vrcx vrdx vrsi vrdi vrbp vrsp vr8 vr9 vr10 vr11 vr12 vr13 vr14 vr15 vrip vrfl 262144 vgs raHost) 131064 (c.r15)) 131056 (c.r14)) 131048 (c.r13)) 131040 (c.r12)) 131032 (c.rbp)) 131024 (c.rbx))⟩ : Machine)) = (⟨(c.rax), (c.rbx), (c.rcx), (c.rdx), (c.rsi), (196608), (c.rbp), (131016), (c.r8), (c.r9), (c.r10), (c.r11), (c.r12), (c.r13), (c.r14), (c.r15), (c.rip), (c.rflags), (65536), (store (store (store (store (store (store (store (scenarioMem c.mem vrax vrbx vrcx vrdx vrsi vrdi vrbp vrsp vr8 vr9 vr10 vr11 vr12 vr13 vr14 vr15 vrip vrfl 262144 vgs raHost) 131064 (c.r15)) 131056 (c.r14)) 131048 (c.r13)) 131040 (c.r12)) 131032 (c.rbp)) 131024 (c.rbx)) 131016 (196608))⟩ : Machine) := by
    simp only [pushRdi, pushv]
    all_goals norm_num [Machine.mk.injEq, wrap, W, store, setSlot, scenarioMem, hostStart, KFS, HOSTRSP, FRAME, UFS, GUESTRSP]
  rw [h7]
  have h8 : SAVE_KERNEL_STACK ((⟨(c.rax), (c.rbx), (c.rcx), (c.rdx), (c.rsi), (196608), (c.rbp), (131016), (c.r8), (c.r9), (c.r10), (c.r11), (c.r12), (c.r13), (c.r14), (c.r15), (c.rip), (c.rflags), (65536), (store (store (store (store (store (store (store (scenarioMem c.mem vrax vrbx vrcx vrdx vrsi vrdi vrbp vrsp vr8 vr9 vr10 vr11 vr12 vr13 vr14 vr15 vrip vrfl 262144 vgs raHost) 131064 (c.r15)) 131056 (c.r14)) 131048 (c.r13)) 131040 (c.r12)) 131032 (c.rbp)) 131024 (c.rbx)) 131016 (196608))⟩ : Machine)) = (⟨(c.rax), (c.rbx), (c.rcx), (c.rdx), (c.rsi), (196608), (c.rbp), (131016), (c.r8), (c.r9), (c.r10), (c.r11), (c.r12), (c.r13), (c.r14), (c.r15), (c.rip), (c.rflags), (65536), (store (store (store (store (store (store (store (store (scenarioMem c.mem vrax vrbx vrcx vrdx vrsi vrdi vrbp vrsp vr8 vr9 vr10 vr11 vr12 vr13 vr14 vr15 vrip vrfl 262144 vgs raHost) 131064 (c.r15)) 131056 (c.r14)) 131048 (c.r13)) 131040 (c.r12)) 131032 (c.rbp)) 131024 (c.rbx)) 131016 (196608)) 65600 (131016))⟩ : Machine) := by
    simp only [SAVE_KERNEL_STACK, pushv]
    all_goals norm_num [Machine.mk.injEq, wrap, W, store, setSlot, scenarioMem, hostStart, KFS, HOSTRSP, FRAME, UFS, GUESTRSP]
  rw [h8]
  have h9 : movRspRdi ((⟨(c.rax), (c.rbx), (c.rcx), (c.rdx), (c.rsi), (196608), (c.rbp), (131016), (c.r8), (c.r9), (c.r10), (c.r11), (c.r12), (c.r13), (c.r14), (c.r15), (c.rip), (c.rflags), (65536), (store (store (store (store (store (store (store (store (scenarioMem c.mem vrax vrbx vrcx vrdx vrsi vrdi vrbp vrsp vr8 vr9 vr10 vr11 vr12 vr13 vr14 vr15 vrip vrfl 262144 vgs raHost) 131064 (c.r15)) 131056 (c.r14)) 131048 (c.r13)) 131040 (c.r12)) 131032 (c.rbp)) 131024 (c.rbx)) 131016 (196608)) 65600 (131016))⟩ : Machine)) = (⟨(c.rax), (c.rbx), (c.rcx), (c.rdx), (c.rsi), (196608), (c.rbp), (196608), (c.r8), (c.r9), (c.r10), (c.r11), (c.r12), (c.r13), (c.r14), (c.r15), (c.rip), (c.rflags), (65536), (store (store (store (store (store (store (store (store (scenarioMem c.mem vrax vrbx vrcx vrdx vrsi vrdi vrbp vrsp vr8 vr9 vr10 vr11 vr12 vr13 vr14 vr15 vrip vrfl 262144 vgs raHost) 131064 (c.r15)) 131056 (c.r14)) 131048 (c.r13)) 131040 (c.r12)) 131032 (c.rbp)) 131024 (c.rbx)) 131016 (196608)) 65600 (131016))⟩ : Machine) := by
    simp only [movRspRdi, pushv]
    all_goals norm_num [Machine.mk.injEq, wrap, W, store, setSlot, scenarioMem, hostStart, KFS, HOSTRSP, FRAME, UFS, GUESTRSP]
  rw [h9]
  have h10 : POP_USER_FSBASE ((⟨(c.rax), (c.rbx), (c.rcx), (c.rdx), (c.rsi), (196608), (c.rbp), (196608), (c.r8), (c.r9), (c.r10), (c.r11), (c.r12), (c.r13), (c.r14), (c.r15), (c.rip), (c.rflags), (65536), (store (store (store (store (store (store (store (store (scenarioMem c.mem vrax vrbx vrcx vrdx vrsi vrdi vrbp vrsp vr8 vr9 vr10 vr11 vr12 vr13 vr14 vr15 vrip vrfl 262144 vgs raHost) 131064 (c.r15)) 131056 (c.r14)) 131048 (c.r13)) 131040 (c.r12)) 131032 (c.rbp)) 131024 (c.rbx)) 131016 (196608)) 65600 (131016))⟩ : Machine)) = (⟨(0), (c.rbx), (c.rcx), (65536), (262144), (4098), (c.rbp), (196608), (c.r8), (c.r9), (c.r10), (c.r11), (c.r12), (c.r13), (c.r14), (c.r15), (c.rip), (c.rflags), (262144), (store (store (store (store (store (store (store (store (store (scenarioMem c.mem vrax vrbx vrcx vrdx vrsi vrdi vrbp vrsp vr8 vr9 vr10 vr11 vr12 vr13 vr14 vr15 vrip vrfl 262144 vgs raHost) 131064 (c.r15)) 131056 (c.r14)) 131048 (c.r13)) 131040 (c.r12)) 131032 (c.rbp)) 131024 (c.rbx)) 131016 (196608)) 65600 (131016)) 262192 (65536))⟩ : Machine) := by
    simp only [POP_USER_FSBASE, pushv]
    all_goals norm_num [Machine.mk.injEq, wrap, W, store, setSlot, scenarioMem, hostStart, KFS, HOSTRSP, FRAME, UFS, GUESTRSP]
  rw [h10]
  have h11 : popRax ((⟨(0), (c.rbx), (c.rcx), (65536), (262144), (4098), (c.rbp), (196608), (c.r8), (c.r9), (c.r10), (c.r11), (c.r12), (c.r13), (c.r14), (c.r15), (c.rip), (c.rflags), (262144), (store (store (store (store (store (store (store (store (store (scenarioMem c.mem vrax vrbx vrcx vrdx vrsi vrdi vrbp vrsp vr8 vr9 vr10 vr11 vr12 vr13 vr14 vr15 vrip vrfl 262144 vgs raHost) 131064 (c.r15)) 131056 (c.r14)) 131048 (c.r13)) 131040 (c.r12)) 131032 (c.rbp)) 131024 (c.rbx)) 131016 (196608)) 65600 (131016)) 262192 (65536))⟩ : Machine)) = (⟨(vrax), (c.rbx), (c.rcx), (65536), (262144), (4098), (c.rbp), (196616), (c.r8), (c.r9), (c.r10), (c.r11), (c.r12), (c.r13), (c.r14), (c.r15), (c.rip), (c.rflags), (262144), (store (store (store (store (store (store (store (store (store (scenarioMem c.mem vrax vrbx vrcx vrdx vrsi vrdi vrbp vrsp vr8 vr9 vr10 vr11 vr12 vr13 vr14 vr15 vrip vrfl 262144 vgs raHost) 131064 (c.r15)) 131056 (c.r14)) 131048 (c.r13)) 131040 (c.r12)) 131032 (c.rbp)) 131024 (c.rbx)) 131016 (196608)) 65600 (131016)) 262192 (65536))⟩ : Machine) := by
    simp only [popRax, pushv]
    all_goals norm_num [Machine.mk.injEq, wrap, W, store, setSlot, scenarioMem, hostStart, KFS, HOSTRSP, FRAME, UFS, GUESTRSP]
  rw [h11]
  have h12 : popRbx ((⟨(vrax), (c.rbx), (c.rcx), (65536), (262144), (4098), (c.rbp), (196616), (c.r8), (c.r9), (c.r10), (c.r11), (c.r12), (c.r13), (c.r14), (c.r15), (c.rip), (c.rflags), (262144), (store (store (store (store (store (store (store (store (store (scenarioMem c.mem vrax vrbx vrcx vrdx vrsi vrdi vrbp vrsp vr8 vr9 vr10 vr11 vr12 vr13 vr14 vr15 vrip vrfl 262144 vgs raHost) 131064 (c.r15)) 131056 (c.r14)) 131048 (c.r13)) 131040 (c.r12)) 131032 (c.rbp)) 131024 (c.rbx)) 131016 (196608)) 65600 (131016)) 262192 (65536))⟩ : Machine)) = (⟨(vrax), (vrbx), (c.rcx), (65536), (262144), (4098), (c.rbp), (196624), (c.r8), (c.r9), (c.r10), (c.r11), (c.r12), (c.r13), (c.r14), (c.r15), (c.rip), (c.rflags), (262144), (store (store (store (store (store (store (store (store (store (scenarioMem c.mem vrax vrbx vrcx vrdx vrsi vrdi vrbp vrsp vr8 vr9 vr10 vr11 vr12 vr13 vr14 vr15 vrip vrfl 262144 vgs raHost) 131064 (c.r15)) 131056 (c.r14)) 131048 (c.r13)) 131040 (c.r12)) 131032 (c.rbp)) 131024 (c.rbx)) 131016 (196608)) 65600 (131016)) 262192 (65536))⟩ : Machine) := by
    simp only [popRbx, pushv]
    all_goals norm_num [Machine.mk.injEq, wrap, W, store, setSlot, scenarioMem, hostStart, KFS, HOSTRSP, FRAME, UFS, GUESTRSP]
  rw [h12]
  have h13 : popRcx ((⟨(vrax), (vrbx), (c.rcx), (65536), (262144), (4098), (c.rbp), (196624), (c.r8), (c.r9), (c.r10), (c.r11), (c.r12), (c.r13), (c.r14), (c.r15), (c.rip), (c.rflags), (262144), (store (store (store (store (store (store (store (store (store (scenarioMem c.mem vrax vrbx vrcx vrdx vrsi vrdi vrbp vrsp vr8 vr9 vr10 vr11 vr12 vr13 vr14 vr15 vrip vrfl 262144 vgs raHost) 131064 (c.r15)) 131056 (c.r14)) 131048 (c.r13)) 131040 (c.r12)) 131032 (c.rbp)) 131024 (c.rbx)) 131016 (196608)) 65600 (131016)) 262192 (65536))⟩ : Machine)) = (⟨(vrax), (vrbx), (vrcx), (65536), (262144), (4098), (c.rbp), (196632), (c.r8), (c.r9), (c.r10), (c.r11), (c.r12), (c.r13), (c.r14), (c.r15), (c.rip), (c.rflags), (262144), (store (store (store (store (store (store (store (store (store (scenarioMem c.mem vrax vrbx vrcx vrdx vrsi vrdi vrbp vrsp vr8 vr9 vr10 vr11 vr12 vr13 vr14 vr15 vrip vrfl 262144 vgs raHost) 131064 (c.r15)) 131056 (c.r14)) 131048 (c.r13)) 131040 (c.r12)) 131032 (c.rbp)) 131024 (c.rbx)) 131016 (196608)) 65600 (131016)) 262192 (65536))⟩ : Machine) := by
    simp only [popRcx, pushv]
    all_goals norm_num [Machine.mk.injEq, wrap, W, store, setSlot, scenarioMem, hostStart, KFS, HOSTRSP, FRAME, UFS, GUESTRSP]
  rw [h13]
  have h14 : popRdx ((⟨(vrax), (vrbx), (vrcx), (65536), (262144), (4098), (c.rbp), (196632), (c.r8), (c.r9), (c.r10), (c.r11), (c.r12), (c.r13), (c.r14), (c.r15), (c.rip), (c.rflags), (262144), (store (store (store (store (store (store (store (store (store (scenarioMem c.mem vrax vrbx vrcx vrdx vrsi vrdi vrbp vrsp vr8 vr9 vr10 vr11 vr12 vr13 vr14 vr15 vrip vrfl 262144 vgs raHost) 131064 (c.r15)) 131056 (c.r14)) 131048 (c.r13)) 131040 (c.r12)) 131032 (c.rbp)) 131024 (c.rbx)) 131016 (196608)) 65600 (131016)) 262192 (65536))⟩ : Machine)) = (⟨(vrax), (vrbx), (vrcx), (vrdx), (262144), (4098), (c.rbp), (196640), (c.r8), (c.r9), (c.r10), (c.r11), (c.r12), (c.r13), (c.r14), (c.r15), (c.rip), (c.rflags), (262144), (store (store (store (store (store (store (store (store (store (scenarioMem c.mem vrax vrbx vrcx vrdx vrsi vrdi vrbp vrsp vr8 vr9 vr10 vr11 vr12 vr13 vr14 vr15 vrip vrfl 262144 vgs raHost) 131064 (c.r15)) 131056 (c.r14)) 131048 (c.r13)) 131040 (c.r12)) 131032 (c.rbp)) 131024 (c.rbx)) 131016 (196608)) 65600 (131016)) 262192 (65536))⟩ : Machine) := by
    simp only [popRdx, pushv]
    all_goals norm_num [Machine.mk.injEq, wrap, W, store, setSlot, scenarioMem, hostStart, KFS, HOSTRSP, FRAME, UFS, GUESTRSP]
  rw [h14]
  have h15 : popRsi ((⟨(vrax), (vrbx), (vrcx), (vrdx), (262144), (4098), (c.rbp), (196640), (c.r8), (c.r9), (c.r10), (c.r11), (c.r12), (c.r13), (c.r14), (c.r15), (c.rip), (c.rflags), (262144), (store (store (store (store (store (store (store (store (store (scenarioMem c.mem vrax vrbx vrcx vrdx vrsi vrdi vrbp vrsp vr8 vr9 vr10 vr11 vr12 vr13 vr14 vr15 vrip vrfl 262144 vgs raHost) 131064 (c.r15)) 131056 (c.r14)) 131048 (c.r13)) 131040 (c.r12)) 131032 (c.rbp)) 131024 (c.rbx)) 131016 (196608)) 65600 (131016)) 262192 (65536))⟩ : Machine)) = (⟨(vrax), (vrbx), (vrcx), (vrdx), (vrsi), (4098), (c.rbp), (196648), (c.r8), (c.r9), (c.r10), (c.r11), (c.r12), (c.r13), (c.r14), (c.r15), (c.rip), (c.rflags), (262144), (store (store (store (store (store (store (store (store (store (scenarioMem c.mem vrax vrbx vrcx vrdx vrsi vrdi vrbp vrsp vr8 vr9 vr10 vr11 vr12 vr13 vr14 vr15 vrip vrfl 262144 vgs raHost) 131064 (c.r15)) 131056 (c.r14)) 131048 (c.r13)) 131040 (c.r12)) 131032 (c.rbp)) 131024 (c.rbx)) 131016 (196608)) 65600 (131016)) 262192 (65536))⟩ : Machine) := by
    simp only [popRsi, pushv]
    all_goals norm_num [Machine.mk.injEq, wrap, W, store, setSlot, scenarioMem, hostStart, KFS, HOSTRSP, FRAME, UFS, GUESTRSP]
  rw [h15]
  have h16 : popRdi ((⟨(vrax), (vrbx), (vrcx), (vrdx), (vrsi), (4098), (c.rbp), (196648), (c.r8), (c.r9), (c.r10), (c.r11), (c.r12), (c.r13), (c.r14), (c.r15), (c.rip), (c.rflags), (262144), (store (store (store (store (store (store (store (store (store (scenarioMem c.mem vrax vrbx vrcx vrdx vrsi vrdi vrbp vrsp vr8 vr9 vr10 vr11 vr12 vr13 vr14 vr15 vrip vrfl 262144 vgs raHost) 131064 (c.r15)) 131056 (c.r14)) 131048 (c.r13)) 131040 (c.r12)) 131032 (c.rbp)) 131024 (c.rbx)) 131016 (196608)) 65600 (131016)) 262192 (65536))⟩ : Machine)) = (⟨(vrax), (vrbx), (vrcx), (vrdx), (vrsi), (vrdi), (c.rbp), (196656), (c.r8), (c.r9), (c.r10), (c.r11), (c.r12), (c.r13), (c.r14), (c.r15), (c.rip), (c.rflags), (262144), (store (store (store (store (store (store (store (store (store (scenarioMem c.mem vrax vrbx vrcx vrdx vrsi vrdi vrbp vrsp vr8 vr9 vr10 vr11 vr12 vr13 vr14 vr15 vrip vrfl 262144 vgs raHost) 131064 (c.r15)) 131056 (c.r14)) 131048 (c.r13)) 131040 (c.r12)) 131032 (c.rbp)) 131024 (c.rbx)) 131016 (196608)) 65600 (131016)) 262192 (65536))⟩ : Machine) := by
    simp only [popRdi, pushv]
    all_goals norm_num [Machine.mk.injEq, wrap, W, store, setSlot, scenarioMem, hostStart, KFS, HOSTRSP, FRAME, UFS, GUESTRSP]
  rw [h16]
  have h17 : popRbp ((⟨(vrax), (vrbx), (vrcx), (vrdx), (vrsi), (vrdi), (c.rbp), (196656), (c.r8), (c.r9), (c.r10), (c.r11), (c.r12), (c.r13), (c.r14), (c.r15), (c.rip), (c.rflags), (262144), (store (store (store (store (store (store (store (store (store (scenarioMem c.mem vrax vrbx vrcx vrdx vrsi vrdi vrbp vrsp vr8 vr9 vr10 vr11 vr12 vr13 vr14 vr15 vrip vrfl 262144 vgs raHost) 131064 (c.r15)) 131056 (c.r14)) 131048 (c.r13)) 131040 (c.r12)) 131032 (c.rbp)) 131024 (c.rbx)) 131016 (196608)) 65600 (131016)) 262192 (65536))⟩ : Machine)) = (⟨(vrax), (vrbx), (vrcx), (vrdx), (vrsi), (vrdi), (vrbp), (196664), (c.r8), (c.r9), (c.r10), (c.r11), (c.r12), (c.r13), (c.r14), (c.r15), (c.rip), (c.rflags), (262144), (store (store (store (store (store (store (store (store (store (scenarioMem c.mem vrax vrbx vrcx vrdx vrsi vrdi vrbp vrsp vr8 vr9 vr10 vr11 vr12 vr13 vr14 vr15 vrip vrfl 262144 vgs raHost) 131064 (c.r15)) 131056 (c.r14)) 131048 (c.r13)) 131040 (c.r12)) 131032 (c.rbp)) 131024 (c.rbx)) 131016 (196608)) 65600 (131016)) 262192 (65536))⟩ : Machine) := by
    simp only [popRbp, pushv]
    all_goals norm_num [Machine.mk.injEq, wrap, W, store, setSlot, scenarioMem, hostStart, KFS, HOSTRSP, FRAME, UFS, GUESTRSP]
  rw [h17]
  have h18 : popR8 ((⟨(vrax), (vrbx), (vrcx), (vrdx), (vrsi), (vrdi), (vrbp), (196664), (c.r8), (c.r9), (c.r10), (c.r11), (c.r12), (c.r13), (c.r14), (c.r15), (c.rip), (c.rflags), (262144), (store (store (store (store (store (store (store (store (store (scenarioMem c.mem vrax vrbx vrcx vrdx vrsi vrdi vrbp vrsp vr8 vr9 vr10 vr11 vr12 vr13 vr14 vr15 vrip vrfl 262144 vgs raHost) 131064 (c.r15)) 131056 (c.r14)) 131048 (c.r13)) 131040 (c.r12)) 131032 (c.rbp)) 131024 (c.rbx)) 131016 (196608)) 65600 (131016)) 262192 (65536))⟩ : Machine)) = (⟨(vrax), (vrbx), (vrcx), (vrdx), (vrsi), (vrdi), (vrbp), (196672), (vrsp), (c.r9), (c.r10), (c.r11), (c.r12), (c.r13), (c.r14), (c.r15), (c.rip), (c.rflags), (262144), (store (store (store (store (store (store (store (store (store (scenarioMem c.mem vrax vrbx vrcx vrdx vrsi vrdi vrbp vrsp vr8 vr9 vr10 vr11 vr12 vr13 vr14 vr15 vrip vrfl 262144 vgs raHost) 131064 (c.r15)) 131056 (c.r14)) 131048 (c.r13)) 131040 (c.r12)) 131032 (c.rbp)) 131024 (c.rbx)) 131016 (196608)) 65600 (131016)) 262192 (65536))⟩ : Machine) := by
    simp only [popR8, pushv]
    all_goals norm_num [Machine.mk.injEq, wrap, W, store, setSlot, scenarioMem, hostStart, KFS, HOSTRSP, FRAME, UFS, GUESTRSP]
  rw [h18]
  have h19 : popR8 ((⟨(vrax), (vrbx), (vrcx), (vrdx), (vrsi), (vrdi), (vrbp), (196672), (vrsp), (c.r9), (c.r10), (c.r11), (c.r12), (c.r13), (c.r14), (c.r15), (c.rip), (c.rflags), (262144), (store (store (store (store (store (store (store (store (store (scenarioMem c.mem vrax vrbx vrcx vrdx vrsi vrdi vrbp vrsp vr8 vr9 vr10 vr11 vr12 vr13 vr14 vr15 vrip vrfl 262144 vgs raHost) 131064 (c.r15)) 131056 (c.r14)) 131048 (c.r13)) 131040 (c.r12)) 131032 (c.rbp)) 131024 (c.rbx)) 131016 (196608)) 65600 (131016)) 262192 (65536))⟩ : Machine)) = (⟨(vrax), (vrbx), (vrcx), (vrdx), (vrsi), (vrdi), (vrbp), (196680), (vr8), (c.r9), (c.r10), (c.r11), (c.r12), (c.r13), (c.r14), (c.r15), (c.rip), (c.rflags), (262144), (store (store (store (store (store (store (store (store (store (scenarioMem c.mem vrax vrbx vrcx vrdx vrsi vrdi vrbp vrsp vr8 vr9 vr10 vr11 vr12 vr13 vr14 vr15 vrip vrfl 262144 vgs raHost) 131064 (c.r15)) 131056 (c.r14)) 131048 (c.r13)) 131040 (c.r12)) 131032 (c.rbp)) 131024 (c.rbx)) 131016 (196608)) 65600 (131016)) 262192 (65536))⟩ : Machine) := by
    simp only [popR8, pushv]
    all_goals norm_num [Machine.mk.injEq, wrap, W, store, setSlot, scenarioMem, hostStart, KFS, HOSTRSP, FRAME, UFS, GUESTRSP]
  rw [h19]
  have h20 : popR9 ((⟨(vrax), (vrbx), (vrcx), (vrdx), (vrsi), (vrdi), (vrbp), (196680), (vr8), (c.r9), (c.r10), (c.r11), (c.r12), (c.r13), (c.r14), (c.r15), (c.rip), (c.rflags), (262144), (store (store (store (store (store (store (store (store (store (scenarioMem c.mem vrax vrbx vrcx vrdx vrsi vrdi vrbp vrsp vr8 vr9 vr10 vr11 vr12 vr13 vr14 vr15 vrip vrfl 262144 vgs raHost) 131064 (c.r15)) 131056 (c.r14)) 131048 (c.r13)) 131040 (c.r12)) 131032 (c.rbp)) 131024 (c.rbx)) 131016 (196608)) 65600 (131016)) 262192 (65536))⟩ : Machine)) = (⟨(vrax), (vrbx), (vrcx), (vrdx), (vrsi), (vrdi), (vrbp), (196688), (vr8), (vr9), (c.r10), (c.r11), (c.r12), (c.r13), (c.r14), (c.r15), (c.rip), (c.rflags), (262144), (store (store (store (store (store (store (store (store (store (scenarioMem c.mem vrax vrbx vrcx vrdx vrsi vrdi vrbp vrsp vr8 vr9 vr10 vr11 vr12 vr13 vr14 vr15 vrip vrfl 262144 vgs raHost) 131064 (c.r15)) 131056 (c.r14)) 131048 (c.r13)) 131040 (c.r12)) 131032 (c.rbp)) 131024 (c.rbx)) 131016 (196608)) 65600 (131016)) 262192 (65536))⟩ : Machine) := by
    simp only [popR9, pushv]
    all_goals norm_num [Machine.mk.injEq, wrap, W, store, setSlot, scenarioMem, hostStart, KFS, HOSTRSP, FRAME, UFS, GUESTRSP]
  rw [h20]
  have h21 : popR10 ((⟨(vrax), (vrbx), (vrcx), (vrdx), (vrsi), (vrdi), (vrbp), (196688), (vr8), (vr9), (c.r10), (c.r11), (c.r12), (c.r13), (c.r14), (c.r15), (c.rip), (c.rflags), (262144), (store (store (store (store (store (store (store (store (store (scenarioMem c.mem vrax vrbx vrcx vrdx vrsi vrdi vrbp vrsp vr8 vr9 vr10 vr11 vr12 vr13 vr14 vr15 vrip vrfl 262144 vgs raHost) 131064 (c.r15)) 131056 (c.r14)) 131048 (c.r13)) 131040 (c.r12)) 131032 (c.rbp)) 131024 (c.rbx)) 131016 (196608)) 65600 (131016)) 262192 (65536))⟩ : Machine)) = (⟨(vrax), (vrbx), (vrcx), (vrdx), (vrsi), (vrdi), (vrbp), (196696), (vr8), (vr9), (vr10), (c.r11), (c.r12), (c.r13), (c.r14), (c.r15), (c.rip), (c.rflags), (262144), (store (store (store (store (store (store (store (store (store (scenarioMem c.mem vrax vrbx vrcx vrdx vrsi vrdi vrbp vrsp vr8 vr9 vr10 vr11 vr12 vr13 vr14 vr15 vrip vrfl 262144 vgs raHost) 131064 (c.r15)) 131056 (c.r14)) 131048 (c.r13)) 131040 (c.r12)) 131032 (c.rbp)) 131024 (c.rbx)) 131016 (196608)) 65600 (131016)) 262192 (65536))⟩ : Machine) := by
    simp only [popR10, pushv]
    all_goals norm_num [Machine.mk.injEq, wrap, W, store, setSlot, scenarioMem, hostStart, KFS, HOSTRSP, FRAME, UFS, GUESTRSP]
  rw [h21]
  have h22 : popR11 ((⟨(vrax), (vrbx), (vrcx), (vrdx), (vrsi), (vrdi), (vrbp), (196696), (vr8), (vr9), (vr10), (c.r11), (c.r12), (c.r13), (c.r14), (c.r15), (c.rip), (c.rflags), (262144), (store (store (store (store (store (store (store (store (store (scenarioMem c.mem vrax vrbx vrcx vrdx vrsi vrdi vrbp vrsp vr8 vr9 vr10 vr11 vr12 vr13 vr14 vr15 vrip vrfl 262144 vgs raHost) 131064 (c.r15)) 131056 (c.r14)) 131048 (c.r13)) 131040 (c.r12)) 131032 (c.rbp)) 131024 (c.rbx)) 131016 (196608)) 65600 (131016)) 262192 (65536))⟩ : Machine)) = (⟨(vrax), (vrbx), (vrcx), (vrdx), (vrsi), (vrdi), (vrbp), (196704), (vr8), (vr9), (vr10), (vr11), (c.r12), (c.r13), (c.r14), (c.r15), (c.rip), (c.rflags), (262144), (store (store (store (store (store (store (store (store (store (scenarioMem c.mem vrax vrbx vrcx vrdx vrsi vrdi vrbp vrsp vr8 vr9 vr10 vr11 vr12 vr13 vr14 vr15 vrip vrfl 262144 vgs raHost) 131064 (c.r15)) 131056 (c.r14)) 131048 (c.r13)) 131040 (c.r12)) 131032 (c.rbp)) 131024 (c.rbx)) 131016 (196608)) 65600 (131016)) 262192 (65536))⟩ : Machine) := by
    simp only [popR11, pushv]
    all_goals norm_num [Machine.mk.injEq, wrap, W, store, setSlot, scenarioMem, hostStart, KFS, HOSTRSP, FRAME, UFS, GUESTRSP]
  rw [h22]
  have h23 : popR12 ((⟨(vrax), (vrbx), (vrcx), (vrdx), (vrsi), (vrdi), (vrbp), (196704), (vr8), (vr9), (vr10), (vr11), (c.r12), (c.r13), (c.r14), (c.r15), (c.rip), (c.rflags), (262144), (store (store (store (store (store (store (store (store (store (scenarioMem c.mem vrax vrbx vrcx vrdx vrsi vrdi vrbp vrsp vr8 vr9 vr10 vr11 vr12 vr13 vr14 vr15 vrip vrfl 262144 vgs raHost) 131064 (c.r15)) 131056 (c.r14)) 131048 (c.r13)) 131040 (c.r12)) 131032 (c.rbp)) 131024 (c.rbx)) 131016 (196608)) 65600 (131016)) 262192 (65536))⟩ : Machine)) = (⟨(vrax), (vrbx), (vrcx), (vrdx), (vrsi), (vrdi), (vrbp), (196712), (vr8), (vr9), (vr10), (vr11), (vr12), (c.r13), (c.r14), (c.r15), (c.rip), (c.rflags), (262144), (store (store (store (store (store (store (store (store (store (scenarioMem c.mem vrax vrbx vrcx vrdx vrsi vrdi vrbp vrsp vr8 vr9 vr10 vr11 vr12 vr13 vr14 vr15 vrip vrfl 262144 vgs raHost) 131064 (c.r15)) 131056 (c.r14)) 131048 (c.r13)) 131040 (c.r12)) 131032 (c.rbp)) 131024 (c.rbx)) 131016 (196608)) 65600 (131016)) 262192 (65536))⟩ : Machine) := by
    simp only [popR12, pushv]
    all_goals norm_num [Machine.mk.injEq, wrap, W, store, setSlot, scenarioMem, hostStart, KFS, HOSTRSP, FRAME, UFS, GUESTRSP]
  rw [h23]
  have h24 : popR13 ((⟨(vrax), (vrbx), (vrcx), (vrdx), (vrsi), (vrdi), (vrbp), (196712), (vr8), (vr9), (vr10), (vr11), (vr12), (c.r13), (c.r14), (c.r15), (c.rip), (c.rflags), (262144), (store (store (store (store (store (store (store (store (store (scenarioMem c.mem vrax vrbx vrcx vrdx vrsi vrdi vrbp vrsp vr8 vr9 vr10 vr11 vr12 vr13 vr14 vr15 vrip vrfl 262144 vgs raHost) 131064 (c.r15)) 131056 (c.r14)) 131048 (c.r13)) 131040 (c.r12)) 131032 (c.rbp)) 131024 (c.rbx)) 131016 (196608)) 65600 (131016)) 262192 (65536))⟩ : Machine)) = (⟨(vrax), (vrbx), (vrcx), (vrdx), (vrsi), (vrdi), (vrbp), (196720), (vr8), (vr9), (vr10), (vr11), (vr12), (vr13), (c.r14), (c.r15), (c.rip), (c.rflags), (262144), (store (store (store (store (store (store (store (store (store (scenarioMem c.mem vrax vrbx vrcx vrdx vrsi vrdi vrbp vrsp vr8 vr9 vr10 vr11 vr12 vr13 vr14 vr15 vrip vrfl 262144 vgs raHost) 131064 (c.r15)) 131056 (c.r14)) 131048 (c.r13)) 131040 (c.r12)) 131032 (c.rbp)) 131024 (c.rbx)) 131016 (196608)) 65600 (131016)) 262192 (65536))⟩ : Machine) := by
    simp only [popR13, pushv]
    all_goals norm_num [Machine.mk.injEq, wrap, W, store, setSlot, scenarioMem, hostStart, KFS, HOSTRSP, FRAME, UFS, GUESTRSP]
  rw [h24]
  have h25 : popR14 ((⟨(vrax), (vrbx), (vrcx), (vrdx), (vrsi), (vrdi), (vrbp), (196720), (vr8), (vr9), (vr10), (vr11), (vr12), (vr13), (c.r14), (c.r15), (c.rip), (c.rflags), (262144), (store (store (store (store (store (store (store (store (store (scenarioMem c.mem vrax vrbx vrcx vrdx vrsi vrdi vrbp vrsp vr8 vr9 vr10 vr11 vr12 vr13 vr14 vr15 vrip vrfl 262144 vgs raHost) 131064 (c.r15)) 131056 (c.r14)) 131048 (c.r13)) 131040 (c.r12)) 131032 (c.rbp)) 131024 (c.rbx)) 131016 (196608)) 65600 (131016)) 262192 (65536))⟩ : Machine)) = (⟨(vrax), (vrbx), (vrcx), (vrdx), (vrsi), (vrdi), (vrbp), (196728), (vr8), (vr9), (vr10), (vr11), (vr12), (vr13), (vr14), (c.r15), (c.rip), (c.rflags), (262144), (store (store (store (store (store (store (store (store (store (scenarioMem c.mem vrax vrbx vrcx vrdx vrsi vrdi vrbp vrsp vr8 vr9 vr10 vr11 vr12 vr13 vr14 vr15 vrip vrfl 262144 vgs raHost) 131064 (c.r15)) 131056 (c.r14)) 131048 (c.r13)) 131040 (c.r12)) 131032 (c.rbp)) 131024 (c.rbx)) 131016 (196608)) 65600 (131016)) 262192 (65536))⟩ : Machine) := by
    simp only [popR14, pushv]
    all_goals norm_num [Machine.mk.injEq, wrap, W, store, setSlot, scenarioMem, hostStart, KFS, HOSTRSP, FRAME, UFS, GUESTRSP]
  rw [h25]
  have h26 : popR15 ((⟨(vrax), (vrbx), (vrcx), (vrdx), (vrsi), (vrdi), (vrbp), (196728), (vr8), (vr9), (vr10), (vr11), (vr12), (vr13), (vr14), (c.r15), (c.rip), (c.rflags), (262144), (store (store (store (store (store (store (store (store (store (scenarioMem c.mem vrax vrbx vrcx vrdx vrsi vrdi vrbp vrsp vr8 vr9 vr10 vr11 vr12 vr13 vr14 vr15 vrip vrfl 262144 vgs raHost) 131064 (c.r15)) 131056 (c.r14)) 131048 (c.r13)) 131040 (c.r12)) 131032 (c.rbp)) 131024 (c.rbx)) 131016 (196608)) 65600 (131016)) 262192 (65536))⟩ : Machine)) = (⟨(vrax), (vrbx), (vrcx), (vrdx), (vrsi), (vrdi), (vrbp), (196736), (vr8), (vr9), (vr10), (vr11), (vr12), (vr13), (vr14), (vr15), (c.rip), (c.rflags), (262144), (store (store (store (store (store (store (store (store (store (scenarioMem c.mem vrax vrbx vrcx vrdx vrsi vrdi vrbp vrsp vr8 vr9 vr10 vr11 vr12 vr13 vr14 vr15 vrip vrfl 262144 vgs raHost) 131064 (c.r15)) 131056 (c.r14)) 131048 (c.r13)) 131040 (c.r12)) 131032 (c.rbp)) 131024 (c.rbx)) 131016 (196608)) 65600 (131016)) 262192 (65536))⟩ : Machine) := by
    simp only [popR15, pushv]
    all_goals norm_num [Machine.mk.injEq, wrap, W, store, setSlot, scenarioMem, hostStart, KFS, HOSTRSP, FRAME, UFS, GUESTRSP]
  rw [h26]
  have h27 : popR11 ((⟨(vrax), (vrbx), (vrcx), (vrdx), (vrsi), (vrdi), (vrbp), (196736), (vr8), (vr9), (vr10), (vr11), (vr12), (vr13), (vr14), (vr15), (c.rip), (c.rflags), (262144), (store (store (store (store (store (store (store (store (store (scenarioMem c.mem vrax vrbx vrcx vrdx vrsi vrdi vrbp vrsp vr8 vr9 vr10 vr11 vr12 vr13 vr14 vr15 vrip vrfl 262144 vgs raHost) 131064 (c.r15)) 131056 (c.r14)) 131048 (c.r13)) 131040 (c.r12)) 131032 (c.rbp)) 131024 (c.rbx)) 131016 (196608)) 65600 (131016)) 262192 (65536))⟩ : Machine)) = (⟨(vrax), (vrbx), (vrcx), (vrdx), (vrsi), (vrdi), (vrbp), (196744), (vr8), (vr9), (vr10), (vrip), (vr12), (vr13), (vr14), (vr15), (c.rip), (c.rflags), (262144), (store (store (store (store (store (store (store (store (store (scenarioMem c.mem vrax vrbx vrcx vrdx vrsi vrdi vrbp vrsp vr8 vr9 vr10 vr11 vr12 vr13 vr14 vr15 vrip vrfl 262144 vgs raHost) 131064 (c.r15)) 131056 (c.r14)) 131048 (c.r13)) 131040 (c.r12)) 131032 (c.rbp)) 131024 (c.rbx)) 131016 (196608)) 65600 (131016)) 262192 (65536))⟩ : Machine) := by
    simp only [popR11, pushv]
    all_goals norm_num [Machine.mk.injEq, wrap, W, store, setSlot, scenarioMem, hostStart, KFS, HOSTRSP, FRAME, UFS, GUESTRSP]
  rw [h27]
  have h28 : popFlagsReg ((⟨(vrax), (vrbx), (vrcx), (vrdx), (vrsi), (vrdi), (vrbp), (196744), (vr8), (vr9), (vr10), (vrip), (vr12), (vr13), (vr14), (vr15), (c.rip), (c.rflags), (262144), (store (store (store (store (store (store (store (store (store (scenarioMem c.mem vrax vrbx vrcx vrdx vrsi vrdi vrbp vrsp vr8 vr9 vr10 vr11 vr12 vr13 vr14 vr15 vrip vrfl 262144 vgs raHost) 131064 (c.r15)) 131056 (c.r14)) 131048 (c.r13)) 131040 (c.r12)) 131032 (c.rbp)) 131024 (c.rbx)) 131016 (196608)) 65600 (131016)) 262192 (65536))⟩ : Machine)) = (⟨(vrax), (vrbx), (vrcx), (vrdx), (vrsi), (vrdi), (vrbp), (196752), (vr8), (vr9), (vr10), (vrip), (vr12), (vr13), (vr14), (vr15), (c.rip), (vrfl), (262144), (store (store (store (store (store (store (store (store (store (scenarioMem c.mem vrax vrbx vrcx vrdx vrsi vrdi vrbp vrsp vr8 vr9 vr10 vr11 vr12 vr13 vr14 vr15 vrip vrfl 262144 vgs raHost) 131064 (c.r15)) 131056 (c.r14)) 131048 (c.r13)) 131040 (c.r12)) 131032 (c.rbp)) 131024 (c.rbx)) 131016 (196608)) 65600 (131016)) 262192 (65536))⟩ : Machine) := by
    simp only [popFlagsReg, pushv]
    all_goals norm_num [Machine.mk.injEq, wrap, W, store, setSlot, scenarioMem, hostStart, KFS, HOSTRSP, FRAME, UFS, GUESTRSP]
  rw [h28]
  have h29 : movRspFrameRsp ((⟨(vrax), (vrbx), (vrcx), (vrdx), (vrsi), (vrdi), (vrbp), (196752), (vr8), (vr9), (vr10), (vrip), (vr12), (vr13), (vr14), (vr15), (c.rip), (vrfl), (262144), (store (store (store (store (store (store (store (store (store (scenarioMem c.mem vrax vrbx vrcx vrdx vrsi vrdi vrbp vrsp vr8 vr9 vr10 vr11 vr12 vr13 vr14 vr15 vrip vrfl 262144 vgs raHost) 131064 (c.r15)) 131056 (c.r14)) 131048 (c.r13)) 131040 (c.r12)) 131032 (c.rbp)) 131024 (c.rbx)) 131016 (196608)) 65600 (131016)) 262192 (65536))⟩ : Machine)) = (⟨(vrax), (vrbx), (vrcx), (vrdx), (vrsi), (vrdi), (vrbp), (vrsp), (vr8), (vr9), (vr10), (vrip), (vr12), (vr13), (vr14), (vr15), (c.rip), (vrfl), (262144), (store (store (store (store (store (store (store (store (store (scenarioMem c.mem vrax vrbx vrcx vrdx vrsi vrdi vrbp vrsp vr8 vr9 vr10 vr11 vr12 vr13 vr14 vr15 vrip vrfl 262144 vgs raHost) 131064 (c.r15)) 131056 (c.r14)) 131048 (c.r13)) 131040 (c.r12)) 131032 (c.rbp)) 131024 (c.rbx)) 131016 (196608)) 65600 (131016)) 262192 (65536))⟩ : Machine) := by
    simp only [movRspFrameRsp, pushv]
    all_goals norm_num [Machine.mk.injEq, wrap, W, store, setSlot, scenarioMem, hostStart, KFS, HOSTRSP, FRAME, UFS, GUESTRSP]
  rw [h29]
  have h30 : jmpR11 ((⟨(vrax), (vrbx), (vrcx), (vrdx), (vrsi), (vrdi), (vrbp), (vrsp), (vr8), (vr9), (vr10), (vrip), (vr12), (vr13), (vr14), (vr15), (c.rip), (vrfl), (262144), (store (store (store (store (store (store (store (store (store (scenarioMem c.mem vrax vrbx vrcx vrdx vrsi vrdi vrbp vrsp vr8 vr9 vr10 vr11 vr12 vr13 vr14 vr15 vrip vrfl 262144 vgs raHost) 131064 (c.r15)) 131056 (c.r14)) 131048 (c.r13)) 131040 (c.r12)) 131032 (c.rbp)) 131024 (c.rbx)) 131016 (196608)) 65600 (131016)) 262192 (65536))⟩ : Machine)) = (⟨(vrax), (vrbx), (vrcx), (vrdx), (vrsi), (vrdi), (vrbp), (vrsp), (vr8), (vr9), (vr10), (vrip), (vr12), (vr13), (vr14), (vr15), (vrip), (vrfl), (262144), (store (store (store (store (store (store (store (store (store (scenarioMem c.mem vrax vrbx vrcx vrdx vrsi vrdi vrbp vrsp vr8 vr9 vr10 vr11 vr12 vr13 vr14 vr15 vrip vrfl 262144 vgs raHost) 131064 (c.r15)) 131056 (c.r14)) 131048 (c.r13)) 131040 (c.r12)) 131032 (c.rbp)) 131024 (c.rbx)) 131016 (196608)) 65600 (131016)) 262192 (65536))⟩ : Machine) := by
    simp only [jmpR11, pushv]
    all_goals norm_num [Machine.mk.injEq, wrap, W, store, setSlot, scenarioMem, hostStart, KFS, HOSTRSP, FRAME, UFS, GUESTRSP]
  rw [h30]


theorem resume_eval_fb (c : Machine)
    (vrax vrbx vrcx vrdx vrsi vrdi vrbp vrsp vr8 vr9 vr10 vr11 vr12 vr13
     vr14 vr15 vrip vrfl vgs raHost : Nat) :
    syscall_fn_return (hostStart c vrax vrbx vrcx vrdx vrsi vrdi vrbp vrsp vr8 vr9 vr10 vr11 vr12 vr13 vr14 vr15 vrip vrfl 0 vgs raHost) =
    (⟨(vrax), (vrbx), (vrcx), (vrdx), (vrsi), (vrdi), (vrbp), (vrsp), (vr8), (vr9), (vr10), (vrip), (vr12), (vr13), (vr14), (vr15), (vrip), (vrfl), (65608), (store (store (store (store (store (store (store (store (store (store (scenarioMem c.mem vrax vrbx vrcx vrdx vrsi vrdi vrbp vrsp vr8 vr9 vr10 vr11 vr12 vr13 vr14 vr15 vrip vrfl 0 vgs raHost) 131064 (c.r15)) 131056 (c.r14)) 131048 (c.r13)) 131040 (c.r12)) 131032 (c.rbp)) 131024 (c.rbx)) 131016 (196608)) 65600 (131016)) 65608 (65608)) 65656 (65536))⟩ : Machine) := by
  unfold syscall_fn_return
  have h1 : pushR15 (hostStart c vrax vrbx vrcx vrdx vrsi vrdi vrbp vrsp vr8 vr9 vr10 vr11 vr12 vr13 vr14 vr15 vrip vrfl 0 vgs raHost) = (⟨(c.rax), (c.rbx), (c.rcx), (c.rdx), (c.rsi), (196608), (c.rbp), (131064), (c.r8), (c.r9), (c.r10), (c.r11), (c.r12), (c.r13), (c.r14), (c.r15), (c.rip), (c.rflags), (65536), (store (scenarioMem c.mem vrax vrbx vrcx vrdx vrsi vrdi vrbp vrsp vr8 vr9 vr10 vr11 vr12 vr13 vr14 vr15 vrip vrfl 0 vgs raHost) 131064 (c.r15))⟩ : Machine) := by
    simp only [pushR15, pushv]
    all_goals norm_num [Machine.mk.injEq, wrap, W, store, setSlot, scenarioMem, hostStart, KFS, HOSTRSP, FRAME, UFS, GUESTRSP]
  rw [h1]
  have h2 : pushR14 ((⟨(c.rax), (c.rbx), (c.rcx), (c.rdx), (c.rsi), (196608), (c.rbp), (131064), (c.r8), (c.r9), (c.r10), (c.r11), (c.r12), (c.r13), (c.r14), (c.r15), (c.rip), (c.rflags), (65536), (store (scenarioMem c.mem vrax vrbx vrcx vrdx vrsi vrdi vrbp vrsp vr8 vr9 vr10 vr11 vr12 vr13 vr14 vr15 vrip vrfl 0 vgs raHost) 131064 (c.r15))⟩ : Machine)) = (⟨(c.rax), (c.rbx), (c.rcx), (c.rdx), (c.rsi), (196608), (c.rbp), (131056), (c.r8), (c.r9), (c.r10), (c.r11), (c.r12), (c.r13), (c.r14), (c.r15), (c.rip), (c.rflags), (65536), (store (store (scenarioMem c.mem vrax vrbx vrcx vrdx vrsi vrdi vrbp vrsp vr8 vr9 vr10 vr11 vr12 vr13 vr14 vr15 vrip vrfl 0 vgs raHost) 131064 (c.r15)) 131056 (c.r14))⟩ : Machine) := by
    simp only [pushR14, pushv]
    all_goals norm_num [Machine.mk.injEq, wrap, W, store, setSlot, scenarioMem, hostStart, KFS, HOSTRSP, FRAME, UFS, GUESTRSP]
  rw [h2]
  have h3 : pushR13 ((⟨(c.rax), (c.rbx), (c.rcx), (c.rdx), (c.rsi), (196608), (c.rbp), (131056), (c.r8), (c.r9), (c.r10), (c.r11), (c.r12), (c.r13), (c.r14), (c.r15), (c.rip), (c.rflags), (65536), (store (store (scenarioMem c.mem vrax vrbx vrcx vrdx vrsi vrdi vrbp vrsp vr8 vr9 vr10 vr11 vr12 vr13 vr14 vr15 vrip vrfl 0 vgs raHost) 131064 (c.r15)) 131056 (c.r14))⟩ : Machine)) = (⟨(c.rax), (c.rbx), (c.rcx), (c.rdx), (c.rsi), (196608), (c.rbp), (131048), (c.r8), (c.r9), (c.r10), (c.r11), (c.r12), (c.r13), (c.r14), (c.r15), (c.rip), (c.rflags), (65536), (store (store (store (scenarioMem c.mem vrax vrbx vrcx vrdx vrsi vrdi vrbp vrsp vr8 vr9 vr10 vr11 vr12 vr13 vr14 vr15 vrip vrfl 0 vgs raHost) 131064 (c.r15)) 131056 (c.r14)) 131048 (c.r13))⟩ : Machine) := by
    simp only [pushR13, pushv]
    all_goals norm_num [Machine.mk.injEq, wrap, W, store, setSlot, scenarioMem, hostStart, KFS, HOSTRSP, FRAME, UFS, GUESTRSP]
  rw [h3]
  have h4 : pushR12 ((⟨(c.rax), (c.rbx), (c.rcx), (c.rdx), (c.rsi), (196608), (c.rbp), (131048), (c.r8), (c.r9), (c.r10), (c.r11), (c.r12), (c.r13), (c.r14), (c.r15), (c.rip), (c.rflags), (65536), (store (store (store (scenarioMem c.mem vrax vrbx vrcx vrdx vrsi vrdi vrbp vrsp vr8 vr9 vr10 vr11 vr12 vr13 vr14 vr15 vrip vrfl 0 vgs raHost) 131064 (c.r15)) 131056 (c.r14)) 131048 (c.r13))⟩ : Machine)) = (⟨(c.rax), (c.rbx), (c.rcx), (c.rdx), (c.rsi), (196608), (c.rbp), (131040), (c.r8), (c.r9), (c.r10), (c.r11), (c.r12), (c.r13), (c.r14), (c.r15), (c.rip), (c.rflags), (65536), (store (store (store (store (scenarioMem c.mem vrax vrbx vrcx vrdx vrsi vrdi vrbp vrsp vr8 vr9 vr10 vr11 vr12 vr13 vr14 vr15 vrip vrfl 0 vgs raHost) 131064 (c.r15)) 131056 (c.r14)) 131048 (c.r13)) 131040 (c.r12))⟩ : Machine) := by
    simp only [pushR12, pushv]
    all_goals norm_num [Machine.mk.injEq, wrap, W, store, setSlot, scenarioMem, hostStart, KFS, HOSTRSP, FRAME, UFS, GUESTRSP]
  rw [h4]
  have h5 : pushRbp ((⟨(c.rax), (c.rbx), (c.rcx), (c.rdx), (c.rsi), (196608), (c.rbp), (131040), (c.r8), (c.r9), (c.r10), (c.r11), (c.r12), (c.r13), (c.r14), (c.r15), (c.rip), (c.rflags), (65536), (store (store (store (store (scenarioMem c.mem vrax vrbx vrcx vrdx vrsi vrdi vrbp vrsp vr8 vr9 vr10 vr11 vr12 vr13 vr14 vr15 vrip vrfl 0 vgs raHost) 131064 (c.r15)) 131056 (c.r14)) 131048 (c.r13)) 131040 (c.r12))⟩ : Machine)) = (⟨(c.rax), (c.rbx), (c.rcx), (c.rdx), (c.rsi), (196608), (c.rbp), (131032), (c.r8), (c.r9), (c.r10), (c.r11), (c.r12), (c.r13), (c.r14), (c.r15), (c.rip), (c.rflags), (65536), (store (store (store (store (store (scenarioMem c.mem vrax vrbx vrcx vrdx vrsi vrdi vrbp vrsp vr8 vr9 vr10 vr11 vr12 vr13 vr14 vr15 vrip vrfl 0 vgs raHost) 131064 (c.r15)) 131056 (c.r14)) 131048 (c.r13)) 131040 (c.r12)) 131032 (c.rbp))⟩ : Machine) := by
    simp only [pushRbp, pushv]
    all_goals norm_num [Machine.mk.injEq, wrap, W, store, setSlot, scenarioMem, hostStart, KFS, HOSTRSP, FRAME, UFS, GUESTRSP]
  rw [h5]
  have h6 : pushRbx ((⟨(c.rax), (c.rbx), (c.rcx), (c.rdx), (c.rsi), (196608), (c.rbp), (131032), (c.r8), (c.r9), (c.r10), (c.r11), (c.r12), (c.r13), (c.r14), (c.r15), (c.rip), (c.rflags), (65536), (store (store (store (store (store (scenarioMem c.mem vrax vrbx vrcx vrdx vrsi vrdi vrbp vrsp vr8 vr9 vr10 vr11 vr12 vr13 vr14 vr15 vrip vrfl 0 vgs raHost) 131064 (c.r15)) 131056 (c.r14)) 131048 (c.r13)) 131040 (c.r12)) 131032 (c.rbp))⟩ : Machine)) = (⟨(c.rax), (c.rbx), (c.rcx), (c.rdx), (c.rsi), (196608), (c.rbp), (131024), (c.r8), (c.r9), (c.r10), (c.r11), (c.r12), (c.r13), (c.r14), (c.r15), (c.rip), (c.rflags), (65536), (store (store (store (store (store (store (scenarioMem c.mem vrax vrbx vrcx vrdx vrsi vrdi vrbp vrsp vr8 vr9 vr10 vr11 vr12 vr13 vr14 vr15 vrip vrfl 0 vgs raHost) 131064 (c.r15)) 131056 (c.r14)) 131048 (c.r13)) 131040 (c.r12)) 131032 (c.rbp)) 131024 (c.rbx))⟩ : Machine) := by
    simp only [pushRbx, pushv]
    all_goals norm_num [Machine.mk.injEq, wrap, W, store, setSlot, scenarioMem, hostStart, KFS, HOSTRSP, FRAME, UFS, GUESTRSP]
  rw [h6]
  have h7 : pushRdi ((⟨(c.rax), (c.rbx), (c.rcx), (c.rdx), (c.rsi), (196608), (c.rbp), (131024), (c.r8), (c.r9), (c.r10), (c.r11), (c.r12), (c.r13), (c.r14), (c.r15), (c.rip), (c.rflags), (65536), (store (store (store (store (store (store (scenarioMem c.mem vrax vrbx vrcx vrdx vrsi vrdi vrbp vrsp vr8 vr9 vr10 vr11 vr12 vr13 vr14 vr15 vrip vrfl 0 vgs raHost) 131064 (c.r15)) 131056 (c.r14)) 131048 (c.r13)) 131040 (c.r12)) 131032 (c.rbp)) 131024 (c.rbx))⟩ : Machine)) = (⟨(c.rax), (c.rbx), (c.rcx), (c.rdx), (c.rsi), (196608), (c.rbp), (131016), (c.r8), (c.r9), (c.r10), (c.r11), (c.r12), (c.r13), (c.r14), (c.r15), (c.rip), (c.rflags), (65536), (store (store (store (store (store (store (store (scenarioMem c.mem vrax vrbx vrcx vrdx vrsi vrdi vrbp vrsp vr8 vr9 vr10 vr11 vr12 vr13 vr14 vr15 vrip vrfl 0 vgs raHost) 131064 (c.r15)) 131056 (c.r14)) 131048 (c.r13)) 131040 (c.r12)) 131032 (c.rbp)) 131024 (c.rbx)) 131016 (196608))⟩ : Machine) := by
    simp only [pushRdi, pushv]
    all_goals norm_num [Machine.mk.injEq, wrap, W, store, setSlot, scenarioMem, hostStart, KFS, HOSTRSP, FRAME, UFS, GUESTRSP]
  rw [h7]
  have h8 : SAVE_KERNEL_STACK ((⟨(c.rax), (c.rbx), (c.rcx), (c.rdx), (c.rsi), (196608), (c.rbp), (131016), (c.r8), (c.r9), (c.r10), (c.r11), (c.r12), (c.r13), (c.r14), (c.r15), (c.rip), (c.rflags), (65536), (store (store (store (store (store (store (store (scenarioMem c.mem vrax vrbx vrcx vrdx vrsi vrdi vrbp vrsp vr8 vr9 vr10 vr11 vr12 vr13 vr14 vr15 vrip vrfl 0 vgs raHost) 131064 (c.r15)) 131056 (c.r14)) 131048 (c.r13)) 131040 (c.r12)) 131032 (c.rbp)) 131024 (c.rbx)) 131016 (196608))⟩ : Machine)) = (⟨(c.rax), (c.rbx), (c.rcx), (c.rdx), (c.rsi), (196608), (c.rbp), (131016), (c.r8), (c.r9), (c.r10), (c.r11), (c.r12), (c.r13), (c.r14), (c.r15), (c.rip), (c.rflags), (65536), (store (store (store (store (store (store (store (store (scenarioMem c.mem vrax vrbx vrcx vrdx vrsi vrdi vrbp vrsp vr8 vr9 vr10 vr11 vr12 vr13 vr14 vr15 vrip vrfl 0 vgs raHost) 131064 (c.r15)) 131056 (c.r14)) 131048 (c.r13)) 131040 (c.r12)) 131032 (c.rbp)) 131024 (c.rbx)) 131016 (196608)) 65600 (131016))⟩ : Machine) := by
    simp only [SAVE_KERNEL_STACK, pushv]
    all_goals norm_num [Machine.mk.injEq, wrap, W, store, setSlot, scenarioMem, hostStart, KFS, HOSTRSP, FRAME, UFS, GUESTRSP]
  rw [h8]
  have h9 : movRspRdi ((⟨(c.rax), (c.rbx), (c.rcx), (c.rdx), (c.rsi), (196608), (c.rbp), (131016), (c.r8), (c.r9), (c.r10), (c.r11), (c.r12), (c.r13), (c.r14), (c.r15), (c.rip), (c.rflags), (65536), (store (store (store (store (store (store (store (store (scenarioMem c.mem vrax vrbx vrcx vrdx vrsi vrdi vrbp vrsp vr8 vr9 vr10 vr11 vr12 vr13 vr14 vr15 vrip vrfl 0 vgs raHost) 131064 (c.r15)) 131056 (c.r14)) 131048 (c.r13)) 131040 (c.r12)) 131032 (c.rbp)) 131024 (c.rbx)) 131016 (196608)) 65600 (131016))⟩ : Machine)) = (⟨(c.rax), (c.rbx), (c.rcx), (c.rdx), (c.rsi), (196608), (c.rbp), (196608), (c.r8), (c.r9), (c.r10), (c.r11), (c.r12), (c.r13), (c.r14), (c.r15), (c.rip), (c.rflags), (65536), (store (store (store (store (store (store (store (store (scenarioMem c.mem vrax vrbx vrcx vrdx vrsi vrdi vrbp vrsp vr8 vr9 vr10 vr11 vr12 vr13 vr14 vr15 vrip vrfl 0 vgs raHost) 131064 (c.r15)) 131056 (c.r14)) 131048 (c.r13)) 131040 (c.r12)) 131032 (c.rbp)) 131024 (c.rbx)) 131016 (196608)) 65600 (131016))⟩ : Machine) := by
    simp only [movRspRdi, pushv]
    all_goals norm_num [Machine.mk.injEq, wrap, W, store, setSlot, scenarioMem, hostStart, KFS, HOSTRSP, FRAME, UFS, GUESTRSP]
  rw [h9]
  have h10 : POP_USER_FSBASE ((⟨(c.rax), (c.rbx), (c.rcx), (c.rdx), (c.rsi), (196608), (c.rbp), (196608), (c.r8), (c.r9), (c.r10), (c.r11), (c.r12), (c.r13), (c.r14), (c.r15), (c.rip), (c.rflags), (65536), (store (store (store (store (store (store (store (store (scenarioMem c.mem vrax vrbx vrcx vrdx vrsi vrdi vrbp vrsp vr8 vr9 vr10 vr11 vr12 vr13 vr14 vr15 vrip vrfl 0 vgs raHost) 131064 (c.r15)) 131056 (c.r14)) 131048 (c.r13)) 131040 (c.r12)) 131032 (c.rbp)) 131024 (c.rbx)) 131016 (196608)) 65600 (131016))⟩ : Machine)) = (⟨(0), (c.rbx), (c.rcx), (65536), (65608), (4098), (c.rbp), (196608), (c.r8), (c.r9), (c.r10), (c.r11), (c.r12), (c.r13), (c.r14), (c.r15), (c.rip), (c.rflags), (65608), (store (store (store (store (store (store (store (store (store (store (scenarioMem c.mem vrax vrbx vrcx vrdx vrsi vrdi vrbp vrsp vr8 vr9 vr10 vr11 vr12 vr13 vr14 vr15 vrip vrfl 0 vgs raHost) 131064 (c.r15)) 131056 (c.r14)) 131048 (c.r13)) 131040 (c.r12)) 131032 (c.rbp)) 131024 (c.rbx)) 131016 (196608)) 65600 (131016)) 65608 (65608)) 65656 (65536))⟩ : Machine) := by
    simp only [POP_USER_FSBASE, pushv]
    all_goals norm_num [Machine.mk.injEq, wrap, W, store, setSlot, scenarioMem, hostStart, KFS, HOSTRSP, FRAME, UFS, GUESTRSP]
  rw [h10]
  have h11 : popRax ((⟨(0), (c.rbx), (c.rcx), (65536), (65608), (4098), (c.rbp), (196608), (c.r8), (c.r9), (c.r10), (c.r11), (c.r12), (c.r13), (c.r14), (c.r15), (c.rip), (c.rflags), (65608), (store (store (store (store (store (store (store (store (store (store (scenarioMem c.mem vrax vrbx vrcx vrdx vrsi vrdi vrbp vrsp vr8 vr9 vr10 vr11 vr12 vr13 vr14 vr15 vrip vrfl 0 vgs raHost) 131064 (c.r15)) 131056 (c.r14)) 131048 (c.r13)) 131040 (c.r12)) 131032 (c.rbp)) 131024 (c.rbx)) 131016 (196608)) 65600 (131016)) 65608 (65608)) 65656 (65536))⟩ : Machine)) = (⟨(vrax), (c.rbx), (c.rcx), (65536), (65608), (4098), (c.rbp), (196616), (c.r8), (c.r9), (c.r10), (c.r11), (c.r12), (c.r13), (c.r14), (c.r15), (c.rip), (c.rflags), (65608), (store (store (store (store (store (store (store (store (store (store (scenarioMem c.mem vrax vrbx vrcx vrdx vrsi vrdi vrbp vrsp vr8 vr9 vr10 vr11 vr12 vr13 vr14 vr15 vrip vrfl 0 vgs raHost) 131064 (c.r15)) 131056 (c.r14)) 131048 (c.r13)) 131040 (c.r12)) 131032 (c.rbp)) 131024 (c.rbx)) 131016 (196608)) 65600 (131016)) 65608 (65608)) 65656 (65536))⟩ : Machine) := by
    simp only [popRax, pushv]
    all_goals norm_num [Machine.mk.injEq, wrap, W, store, setSlot, scenarioMem, hostStart, KFS, HOSTRSP, FRAME, UFS, GUESTRSP]
  rw [h11]
  have h12 : popRbx ((⟨(vrax), (c.rbx), (c.rcx), (65536), (65608), (4098), (c.rbp), (196616), (c.r8), (c.r9), (c.r10), (c.r11), (c.r12), (c.r13), (c.r14), (c.r15), (c.rip), (c.rflags), (65608), (store (store (store (store (store (store (store (store (store (store (scenarioMem c.mem vrax vrbx vrcx vrdx vrsi vrdi vrbp vrsp vr8 vr9 vr10 vr11 vr12 vr13 vr14 vr15 vrip vrfl 0 vgs raHost) 131064 (c.r15)) 131056 (c.r14)) 131048 (c.r13)) 131040 (c.r12)) 131032 (c.rbp)) 131024 (c.rbx)) 131016 (196608)) 65600 (131016)) 65608 (65608)) 65656 (65536))⟩ : Machine)) = (⟨(vrax), (vrbx), (c.rcx), (65536), (65608), (4098), (c.rbp), (196624), (c.r8), (c.r9), (c.r10), (c.r11), (c.r12), (c.r13), (c.r14), (c.r15), (c.rip), (c.rflags), (65608), (store (store (store (store (store (store (store (store (store (store (scenarioMem c.mem vrax vrbx vrcx vrdx vrsi vrdi vrbp vrsp vr8 vr9 vr10 vr11 vr12 vr13 vr14 vr15 vrip vrfl 0 vgs raHost) 131064 (c.r15)) 131056 (c.r14)) 131048 (c.r13)) 131040 (c.r12)) 131032 (c.rbp)) 131024 (c.rbx)) 131016 (196608)) 65600 (131016)) 65608 (65608)) 65656 (65536))⟩ : Machine) := by
    simp only [popRbx, pushv]
    all_goals norm_num [Machine.mk.injEq, wrap, W, store, setSlot, scenarioMem, hostStart, KFS, HOSTRSP, FRAME, UFS, GUESTRSP]
  rw [h12]
  have h13 : popRcx ((⟨(vrax), (vrbx), (c.rcx), (65536), (65608), (4098), (c.rbp), (196624), (c.r8), (c.r9), (c.r10), (c.r11), (c.r12), (c.r13), (c.r14), (c.r15), (c.rip), (c.rflags), (65608), (store (store (store (store (store (store (store (store (store (store (scenarioMem c.mem vrax vrbx vrcx vrdx vrsi vrdi vrbp vrsp vr8 vr9 vr10 vr11 vr12 vr13 vr14 vr15 vrip vrfl 0 vgs raHost) 131064 (c.r15)) 131056 (c.r14)) 131048 (c.r13)) 131040 (c.r12)) 131032 (c.rbp)) 131024 (c.rbx)) 131016 (196608)) 65600 (131016)) 65608 (65608)) 65656 (65536))⟩ : Machine)) = (⟨(vrax), (vrbx), (vrcx), (65536), (65608), (4098), (c.rbp), (196632), (c.r8), (c.r9), (c.r10), (c.r11), (c.r12), (c.r13), (c.r14), (c.r15), (c.rip), (c.rflags), (65608), (store (store (store (store (store (store (store (store (store (store (scenarioMem c.mem vrax vrbx vrcx vrdx vrsi vrdi vrbp vrsp vr8 vr9 vr10 vr11 vr12 vr13 vr14 vr15 vrip vrfl 0 vgs raHost) 131064 (c.r15)) 131056 (c.r14)) 131048 (c.r13)) 131040 (c.r12)) 131032 (c.rbp)) 131024 (c.rbx)) 131016 (196608)) 65600 (131016)) 65608 (65608)) 65656 (65536))⟩ : Machine) := by
    simp only [popRcx, pushv]
    all_goals norm_num [Machine.mk.injEq, wrap, W, store, setSlot, scenarioMem, hostStart, KFS, HOSTRSP, FRAME, UFS, GUESTRSP]
  rw [h13]
  have h14 : popRdx ((⟨(vrax), (vrbx), (vrcx), (65536), (65608), (4098), (c.rbp), (196632), (c.r8), (c.r9), (c.r10), (c.r11), (c.r12), (c.r13), (c.r14), (c.r15), (c.rip), (c.rflags), (65608), (store (store (store (store (store (store (store (store (store (store (scenarioMem c.mem vrax vrbx vrcx vrdx vrsi vrdi vrbp vrsp vr8 vr9 vr10 vr11 vr12 vr13 vr14 vr15 vrip vrfl 0 vgs raHost) 131064 (c.r15)) 131056 (c.r14)) 131048 (c.r13)) 131040 (c.r12)) 131032 (c.rbp)) 131024 (c.rbx)) 131016 (196608)) 65600 (131016)) 65608 (65608)) 65656 (65536))⟩ : Machine)) = (⟨(vrax), (vrbx), (vrcx), (vrdx), (65608), (4098), (c.rbp), (196640), (c.r8), (c.r9), (c.r10), (c.r11), (c.r12), (c.r13), (c.r14), (c.r15), (c.rip), (c.rflags), (65608), (store (store (store (store (store (store (store (store (store (store (scenarioMem c.mem vrax vrbx vrcx vrdx vrsi vrdi vrbp vrsp vr8 vr9 vr10 vr11 vr12 vr13 vr14 vr15 vrip vrfl 0 vgs raHost) 131064 (c.r15)) 131056 (c.r14)) 131048 (c.r13)) 131040 (c.r12)) 131032 (c.rbp)) 131024 (c.rbx)) 131016 (196608)) 65600 (131016)) 65608 (65608)) 65656 (65536))⟩ : Machine) := by
    simp only [popRdx, pushv]
    all_goals norm_num [Machine.mk.injEq, wrap, W, store, setSlot, scenarioMem, hostStart, KFS, HOSTRSP, FRAME, UFS, GUESTRSP]
  rw [h14]
  have h15 : popRsi ((⟨(vrax), (vrbx), (vrcx), (vrdx), (65608), (4098), (c.rbp), (196640), (c.r8), (c.r9), (c.r10), (c.r11), (c.r12), (c.r13), (c.r14), (c.r15), (c.rip), (c.rflags), (65608), (store (store (store (store (store (store (store (store (store (store (scenarioMem c.mem vrax vrbx vrcx vrdx vrsi vrdi vrbp vrsp vr8 vr9 vr10 vr11 vr12 vr13 vr14 vr15 vrip vrfl 0 vgs raHost) 131064 (c.r15)) 131056 (c.r14)) 131048 (c.r13)) 131040 (c.r12)) 131032 (c.rbp)) 131024 (c.rbx)) 131016 (196608)) 65600 (131016)) 65608 (65608)) 65656 (65536))⟩ : Machine)) = (⟨(vrax), (vrbx), (vrcx), (vrdx), (vrsi), (4098), (c.rbp), (196648), (c.r8), (c.r9), (c.r10), (c.r11), (c.r12), (c.r13), (c.r14), (c.r15), (c.rip), (c.rflags), (65608), (store (store (store (store (store (store (store (store (store (store (scenarioMem c.mem vrax vrbx vrcx vrdx vrsi vrdi vrbp vrsp vr8 vr9 vr10 vr11 vr12 vr13 vr14 vr15 vrip vrfl 0 vgs raHost) 131064 (c.r15)) 131056 (c.r14)) 131048 (c.r13)) 131040 (c.r12)) 131032 (c.rbp)) 131024 (c.rbx)) 131016 (196608)) 65600 (131016)) 65608 (65608)) 65656 (65536))⟩ : Machine) := by
    simp only [popRsi, pushv]
    all_goals norm_num [Machine.mk.injEq, wrap, W, store, setSlot, scenarioMem, hostStart, KFS, HOSTRSP, FRAME, UFS, GUESTRSP]
  rw [h15]
  have h16 : popRdi ((⟨(vrax), (vrbx), (vrcx), (vrdx), (vrsi), (4098), (c.rbp), (196648), (c.r8), (c.r9), (c.r10), (c.r11), (c.r12), (c.r13), (c.r14), (c.r15), (c.rip), (c.rflags), (65608), (store (store (store (store (store (store (store (store (store (store (scenarioMem c.mem vrax vrbx vrcx vrdx vrsi vrdi vrbp vrsp vr8 vr9 vr10 vr11 vr12 vr13 vr14 vr15 vrip vrfl 0 vgs raHost) 131064 (c.r15)) 131056 (c.r14)) 131048 (c.r13)) 131040 (c.r12)) 131032 (c.rbp)) 131024 (c.rbx)) 131016 (196608)) 65600 (131016)) 65608 (65608)) 65656 (65536))⟩ : Machine)) = (⟨(vrax), (vrbx), (vrcx), (vrdx), (vrsi), (vrdi), (c.rbp), (196656), (c.r8), (c.r9), (c.r10), (c.r11), (c.r12), (c.r13), (c.r14), (c.r15), (c.rip), (c.rflags), (65608), (store (store (store (store (store (store (store (store (store (store (scenarioMem c.mem vrax vrbx vrcx vrdx vrsi vrdi vrbp vrsp vr8 vr9 vr10 vr11 vr12 vr13 vr14 vr15 vrip vrfl 0 vgs raHost) 131064 (c.r15)) 131056 (c.r14)) 131048 (c.r13)) 131040 (c.r12)) 131032 (c.rbp)) 131024 (c.rbx)) 131016 (196608)) 65600 (131016)) 65608 (65608)) 65656 (65536))⟩ : Machine) := by
    simp only [popRdi, pushv]
    all_goals norm_num [Machine.mk.injEq, wrap, W, store, setSlot, scenarioMem, hostStart, KFS, HOSTRSP, FRAME, UFS, GUESTRSP]
  rw [h16]
  have h17 : popRbp ((⟨(vrax), (vrbx), (vrcx), (vrdx), (vrsi), (vrdi), (c.rbp), (196656), (c.r8), (c.r9), (c.r10), (c.r11), (c.r12), (c.r13), (c.r14), (c.r15), (c.rip), (c.rflags), (65608), (store (store (store (store (store (store (store (store (store (store (scenarioMem c.mem vrax vrbx vrcx vrdx vrsi vrdi vrbp vrsp vr8 vr9 vr10 vr11 vr12 vr13 vr14 vr15 vrip vrfl 0 vgs raHost) 131064 (c.r15)) 131056 (c.r14)) 131048 (c.r13)) 131040 (c.r12)) 131032 (c.rbp)) 131024 (c.rbx)) 131016 (196608)) 65600 (131016)) 65608 (65608)) 65656 (65536))⟩ : Machine)) = (⟨(vrax), (vrbx), (vrcx), (vrdx), (vrsi), (vrdi), (vrbp), (196664), (c.r8), (c.r9), (c.r10), (c.r11), (c.r12), (c.r13), (c.r14), (c.r15), (c.rip), (c.rflags), (65608), (store (store (store (store (store (store (store (store (store (store (scenarioMem c.mem vrax vrbx vrcx vrdx vrsi vrdi vrbp vrsp vr8 vr9 vr10 vr11 vr12 vr13 vr14 vr15 vrip vrfl 0 vgs raHost) 131064 (c.r15)) 131056 (c.r14)) 131048 (c.r13)) 131040 (c.r12)) 131032 (c.rbp)) 131024 (c.rbx)) 131016 (196608)) 65600 (131016)) 65608 (65608)) 65656 (65536))⟩ : Machine) := by
    simp only [popRbp, pushv]
    all_goals norm_num [Machine.mk.injEq, wrap, W, store, setSlot, scenarioMem, hostStart, KFS, HOSTRSP, FRAME, UFS, GUESTRSP]
  rw [h17]
  have h18 : popR8 ((⟨(vrax), (vrbx), (vrcx), (vrdx), (vrsi), (vrdi), (vrbp), (196664), (c.r8), (c.r9), (c.r10), (c.r11), (c.r12), (c.r13), (c.r14), (c.r15), (c.rip), (c.rflags), (65608), (store (store (store (store (store (store (store (store (store (store (scenarioMem c.mem vrax vrbx vrcx vrdx vrsi vrdi vrbp vrsp vr8 vr9 vr10 vr11 vr12 vr13 vr14 vr15 vrip vrfl 0 vgs raHost) 131064 (c.r15)) 131056 (c.r14)) 131048 (c.r13)) 131040 (c.r12)) 131032 (c.rbp)) 131024 (c.rbx)) 131016 (196608)) 65600 (131016)) 65608 (65608)) 65656 (65536))⟩ : Machine)) = (⟨(vrax), (vrbx), (vrcx), (vrdx), (vrsi), (vrdi), (vrbp), (196672), (vrsp), (c.r9), (c.r10), (c.r11), (c.r12), (c.r13), (c.r14), (c.r15), (c.rip), (c.rflags), (65608), (store (store (store (store (store (store (store (store (store (store (scenarioMem c.mem vrax vrbx vrcx vrdx vrsi vrdi vrbp vrsp vr8 vr9 vr10 vr11 vr12 vr13 vr14 vr15 vrip vrfl 0 vgs raHost) 131064 (c.r15)) 131056 (c.r14)) 131048 (c.r13)) 131040 (c.r12)) 131032 (c.rbp)) 131024 (c.rbx)) 131016 (196608)) 65600 (131016)) 65608 (65608)) 65656 (65536))⟩ : Machine) := by
    simp only [popR8, pushv]
    all_goals norm_num [Machine.mk.injEq, wrap, W, store, setSlot, scenarioMem, hostStart, KFS, HOSTRSP, FRAME, UFS, GUESTRSP]
  rw [h18]
  have h19 : popR8 ((⟨(vrax), (vrbx), (vrcx), (vrdx), (vrsi), (vrdi), (vrbp), (196672), (vrsp), (c.r9), (c.r10), (c.r11), (c.r12), (c.r13), (c.r14), (c.r15), (c.rip), (c.rflags), (65608), (store (store (store (store (store (store (store (store (store (store (scenarioMem c.mem vrax vrbx vrcx vrdx vrsi vrdi vrbp vrsp vr8 vr9 vr10 vr11 vr12 vr13 vr14 vr15 vrip vrfl 0 vgs raHost) 131064 (c.r15)) 131056 (c.r14)) 131048 (c.r13)) 131040 (c.r12)) 131032 (c.rbp)) 131024 (c.rbx)) 131016 (196608)) 65600 (131016)) 65608 (65608)) 65656 (65536))⟩ : Machine)) = (⟨(vrax), (vrbx), (vrcx), (vrdx), (vrsi), (vrdi), (vrbp), (196680), (vr8), (c.r9), (c.r10), (c.r11), (c.r12), (c.r13), (c.r14), (c.r15), (c.rip), (c.rflags), (65608), (store (store (store (store (store (store (store (store (store (store (scenarioMem c.mem vrax vrbx vrcx vrdx vrsi vrdi vrbp vrsp vr8 vr9 vr10 vr11 vr12 vr13 vr14 vr15 vrip vrfl 0 vgs raHost) 131064 (c.r15)) 131056 (c.r14)) 131048 (c.r13)) 131040 (c.r12)) 131032 (c.rbp)) 131024 (c.rbx)) 131016 (196608)) 65600 (131016)) 65608 (65608)) 65656 (65536))⟩ : Machine) := by
    simp only [popR8, pushv]
    all_goals norm_num [Machine.mk.injEq, wrap, W, store, setSlot, scenarioMem, hostStart, KFS, HOSTRSP, FRAME, UFS, GUESTRSP]
  rw [h19]
  have h20 : popR9 ((⟨(vrax), (vrbx), (vrcx), (vrdx), (vrsi), (vrdi), (vrbp), (196680), (vr8), (c.r9), (c.r10), (c.r11), (c.r12), (c.r13), (c.r14), (c.r15), (c.rip), (c.rflags), (65608), (store (store (store (store (store (store (store (store (store (store (scenarioMem c.mem vrax vrbx vrcx vrdx vrsi vrdi vrbp vrsp vr8 vr9 vr10 vr11 vr12 vr13 vr14 vr15 vrip vrfl 0 vgs raHost) 131064 (c.r15)) 131056 (c.r14)) 131048 (c.r13)) 131040 (c.r12)) 131032 (c.rbp)) 131024 (c.rbx)) 131016 (196608)) 65600 (131016)) 65608 (65608)) 65656 (65536))⟩ : Machine)) = (⟨(vrax), (vrbx), (vrcx), (vrdx), (vrsi), (vrdi), (vrbp), (196688), (vr8), (vr9), (c.r10), (c.r11), (c.r12), (c.r13), (c.r14), (c.r15), (c.rip), (c.rflags), (65608), (store (store (store (store (store (store (store (store (store (store (scenarioMem c.mem vrax vrbx vrcx vrdx vrsi vrdi vrbp vrsp vr8 vr9 vr10 vr11 vr12 vr13 vr14 vr15 vrip vrfl 0 vgs raHost) 131064 (c.r15)) 131056 (c.r14)) 131048 (c.r13)) 131040 (c.r12)) 131032 (c.rbp)) 131024 (c.rbx)) 131016 (196608)) 65600 (131016)) 65608 (65608)) 65656 (65536))⟩ : Machine) := by
    simp only [popR9, pushv]
    all_goals norm_num [Machine.mk.injEq, wrap, W, store, setSlot, scenarioMem, hostStart, KFS, HOSTRSP, FRAME, UFS, GUESTRSP]
  rw [h20]
  have h21 : popR10 ((⟨(vrax), (vrbx), (vrcx), (vrdx), (vrsi), (vrdi), (vrbp), (196688), (vr8), (vr9), (c.r10), (c.r11), (c.r12), (c.r13), (c.r14), (c.r15), (c.rip), (c.rflags), (65608), (store (store (store (store (store (store (store (store (store (store (scenarioMem c.mem vrax vrbx vrcx vrdx vrsi vrdi vrbp vrsp vr8 vr9 vr10 vr11 vr12 vr13 vr14 vr15 vrip vrfl 0 vgs raHost) 131064 (c.r15)) 131056 (c.r14)) 131048 (c.r13)) 131040 (c.r12)) 131032 (c.rbp)) 131024 (c.rbx)) 131016 (196608)) 65600 (131016)) 65608 (65608)) 65656 (65536))⟩ : Machine)) = (⟨(vrax), (vrbx), (vrcx), (vrdx), (vrsi), (vrdi), (vrbp), (196696), (vr8), (vr9), (vr10), (c.r11), (c.r12), (c.r13), (c.r14), (c.r15), (c.rip), (c.rflags), (65608), (store (store (store (store (store (store (store (store (store (store (scenarioMem c.mem vrax vrbx vrcx vrdx vrsi vrdi vrbp vrsp vr8 vr9 vr10 vr11 vr12 vr13 vr14 vr15 vrip vrfl 0 vgs raHost) 131064 (c.r15)) 131056 (c.r14)) 131048 (c.r13)) 131040 (c.r12)) 131032 (c.rbp)) 131024 (c.rbx)) 131016 (196608)) 65600 (131016)) 65608 (65608)) 65656 (65536))⟩ : Machine) := by
    simp only [popR10, pushv]
    all_goals norm_num [Machine.mk.injEq, wrap, W, store, setSlot, scenarioMem, hostStart, KFS, HOSTRSP, FRAME, UFS, GUESTRSP]
  rw [h21]
  have h22 : popR11 ((⟨(vrax), (vrbx), (vrcx), (vrdx), (vrsi), (vrdi), (vrbp), (196696), (vr8), (vr9), (vr10), (c.r11), (c.r12), (c.r13), (c.r14), (c.r15), (c.rip), (c.rflags), (65608), (store (store (store (store (store (store (store (store (store (store (scenarioMem c.mem vrax vrbx vrcx vrdx vrsi vrdi vrbp vrsp vr8 vr9 vr10 vr11 vr12 vr13 vr14 vr15 vrip vrfl 0 vgs raHost) 131064 (c.r15)) 131056 (c.r14)) 131048 (c.r13)) 131040 (c.r12)) 131032 (c.rbp)) 131024 (c.rbx)) 131016 (196608)) 65600 (131016)) 65608 (65608)) 65656 (65536))⟩ : Machine)) = (⟨(vrax), (vrbx), (vrcx), (vrdx), (vrsi), (vrdi), (vrbp), (196704), (vr8), (vr9), (vr10), (vr11), (c.r12), (c.r13), (c.r14), (c.r15), (c.rip), (c.rflags), (65608), (store (store (store (store (store (store (store (store (store (store (scenarioMem c.mem vrax vrbx vrcx vrdx vrsi vrdi vrbp vrsp vr8 vr9 vr10 vr11 vr12 vr13 vr14 vr15 vrip vrfl 0 vgs raHost) 131064 (c.r15)) 131056 (c.r14)) 131048 (c.r13)) 131040 (c.r12)) 131032 (c.rbp)) 131024 (c.rbx)) 131016 (196608)) 65600 (131016)) 65608 (65608)) 65656 (65536))⟩ : Machine) := by
    simp only [popR11, pushv]
    all_goals norm_num [Machine.mk.injEq, wrap, W, store, setSlot, scenarioMem, hostStart, KFS, HOSTRSP, FRAME, UFS, GUESTRSP]
  rw [h22]
  have h23 : popR12 ((⟨(vrax), (vrbx), (vrcx), (vrdx), (vrsi), (vrdi), (vrbp), (196704), (vr8), (vr9), (vr10), (vr11), (c.r12), (c.r13), (c.r14), (c.r15), (c.rip), (c.rflags), (65608), (store (store (store (store (store (store (store (store (store (store (scenarioMem c.mem vrax vrbx vrcx vrdx vrsi vrdi vrbp vrsp vr8 vr9 vr10 vr11 vr12 vr13 vr14 vr15 vrip vrfl 0 vgs raHost) 131064 (c.r15)) 131056 (c.r14)) 131048 (c.r13)) 131040 (c.r12)) 131032 (c.rbp)) 131024 (c.rbx)) 131016 (196608)) 65600 (131016)) 65608 (65608)) 65656 (65536))⟩ : Machine)) = (⟨(vrax), (vrbx), (vrcx), (vrdx), (vrsi), (vrdi), (vrbp), (196712), (vr8), (vr9), (vr10), (vr11), (vr12), (c.r13), (c.r14), (c.r15), (c.rip), (c.rflags), (65608), (store (store (store (store (store (store (store (store (store (store (scenarioMem c.mem vrax vrbx vrcx vrdx vrsi vrdi vrbp vrsp vr8 vr9 vr10 vr11 vr12 vr13 vr14 vr15 vrip vrfl 0 vgs raHost) 131064 (c.r15)) 131056 (c.r14)) 131048 (c.r13)) 131040 (c.r12)) 131032 (c.rbp)) 131024 (c.rbx)) 131016 (196608)) 65600 (131016)) 65608 (65608)) 65656 (65536))⟩ : Machine) := by
    simp only [popR12, pushv]
    all_goals norm_num [Machine.mk.injEq, wrap, W, store, setSlot, scenarioMem, hostStart, KFS, HOSTRSP, FRAME, UFS, GUESTRSP]
  rw [h23]
  have h24 : popR13 ((⟨(vrax), (vrbx), (vrcx), (vrdx), (vrsi), (vrdi), (vrbp), (196712), (vr8), (vr9), (vr10), (vr11), (vr12), (c.r13), (c.r14), (c.r15), (c.rip), (c.rflags), (65608), (store (store (store (store (store (store (store (store (store (store (scenarioMem c.mem vrax vrbx vrcx vrdx vrsi vrdi vrbp vrsp vr8 vr9 vr10 vr11 vr12 vr13 vr14 vr15 vrip vrfl 0 vgs raHost) 131064 (c.r15)) 131056 (c.r14)) 131048 (c.r13)) 131040 (c.r12)) 131032 (c.rbp)) 131024 (c.rbx)) 131016 (196608)) 65600 (131016)) 65608 (65608)) 65656 (65536))⟩ : Machine)) = (⟨(vrax), (vrbx), (vrcx), (vrdx), (vrsi), (vrdi), (vrbp), (196720), (vr8), (vr9), (vr10), (vr11), (vr12), (vr13), (c.r14), (c.r15), (c.rip), (c.rflags), (65608), (store (store (store (store (store (store (store (store (store (store (scenarioMem c.mem vrax vrbx vrcx vrdx vrsi vrdi vrbp vrsp vr8 vr9 vr10 vr11 vr12 vr13 vr14 vr15 vrip vrfl 0 vgs raHost) 131064 (c.r15)) 131056 (c.r14)) 131048 (c.r13)) 131040 (c.r12)) 131032 (c.rbp)) 131024 (c.rbx)) 131016 (196608)) 65600 (131016)) 65608 (65608)) 65656 (65536))⟩ : Machine) := by
    simp only [popR13, pushv]
    all_goals norm_num [Machine.mk.injEq, wrap, W, store, setSlot, scenarioMem, hostStart, KFS, HOSTRSP, FRAME, UFS, GUESTRSP]
  rw [h24]
  have h25 : popR14 ((⟨(vrax), (vrbx), (vrcx), (vrdx), (vrsi), (vrdi), (vrbp), (196720), (vr8), (vr9), (vr10), (vr11), (vr12), (vr13), (c.r14), (c.r15), (c.rip), (c.rflags), (65608), (store (store (store (store (store (store (store (store (store (store (scenarioMem c.mem vrax vrbx vrcx vrdx vrsi vrdi vrbp vrsp vr8 vr9 vr10 vr11 vr12 vr13 vr14 vr15 vrip vrfl 0 vgs raHost) 131064 (c.r15)) 131056 (c.r14)) 131048 (c.r13)) 131040 (c.r12)) 131032 (c.rbp)) 131024 (c.rbx)) 131016 (196608)) 65600 (131016)) 65608 (65608)) 65656 (65536))⟩ : Machine)) = (⟨(vrax), (vrbx), (vrcx), (vrdx), (vrsi), (vrdi), (vrbp), (196728), (vr8), (vr9), (vr10), (vr11), (vr12), (vr13), (vr14), (c.r15), (c.rip), (c.rflags), (65608), (store (store (store (store (store (store (store (store (store (store (scenarioMem c.mem vrax vrbx vrcx vrdx vrsi vrdi vrbp vrsp vr8 vr9 vr10 vr11 vr12 vr13 vr14 vr15 vrip vrfl 0 vgs raHost) 131064 (c.r15)) 131056 (c.r14)) 131048 (c.r13)) 131040 (c.r12)) 131032 (c.rbp)) 131024 (c.rbx)) 131016 (196608)) 65600 (131016)) 65608 (65608)) 65656 (65536))⟩ : Machine) := by
    simp only [popR14, pushv]
    all_goals norm_num [Machine.mk.injEq, wrap, W, store, setSlot, scenarioMem, hostStart, KFS, HOSTRSP, FRAME, UFS, GUESTRSP]
  rw [h25]
  have h26 : popR15 ((⟨(vrax), (vrbx), (vrcx), (vrdx), (vrsi), (vrdi), (vrbp), (196728), (vr8), (vr9), (vr10), (vr11), (vr12), (vr13), (vr14), (c.r15), (c.rip), (c.rflags), (65608), (store (store (store (store (store (store (store (store (store (store (scenarioMem c.mem vrax vrbx vrcx vrdx vrsi vrdi vrbp vrsp vr8 vr9 vr10 vr11 vr12 vr13 vr14 vr15 vrip vrfl 0 vgs raHost) 131064 (c.r15)) 131056 (c.r14)) 131048 (c.r13)) 131040 (c.r12)) 131032 (c.rbp)) 131024 (c.rbx)) 131016 (196608)) 65600 (131016)) 65608 (65608)) 65656 (65536))⟩ : Machine)) = (⟨(vrax), (vrbx), (vrcx), (vrdx), (vrsi), (vrdi), (vrbp), (196736), (vr8), (vr9), (vr10), (vr11), (vr12), (vr13), (vr14), (vr15), (c.rip), (c.rflags), (65608), (store (store (store (store (store (store (store (store (store (store (scenarioMem c.mem vrax vrbx vrcx vrdx vrsi vrdi vrbp vrsp vr8 vr9 vr10 vr11 vr12 vr13 vr14 vr15 vrip vrfl 0 vgs raHost) 131064 (c.r15)) 131056 (c.r14)) 131048 (c.r13)) 131040 (c.r12)) 131032 (c.rbp)) 131024 (c.rbx)) 131016 (196608)) 65600 (131016)) 65608 (65608)) 65656 (65536))⟩ : Machine) := by
    simp only [popR15, pushv]
    all_goals norm_num [Machine.mk.injEq, wrap, W, store, setSlot, scenarioMem, hostStart, KFS, HOSTRSP, FRAME, UFS, GUESTRSP]
  rw [h26]
  have h27 : popR11 ((⟨(vrax), (vrbx), (vrcx), (vrdx), (vrsi), (vrdi), (vrbp), (196736), (vr8), (vr9), (vr10), (vr11), (vr12), (vr13), (vr14), (vr15), (c.rip), (c.rflags), (65608), (store (store (store (store (store (store (store (store (store (store (scenarioMem c.mem vrax vrbx vrcx vrdx vrsi vrdi vrbp vrsp vr8 vr9 vr10 vr11 vr12 vr13 vr14 vr15 vrip vrfl 0 vgs raHost) 131064 (c.r15)) 131056 (c.r14)) 131048 (c.r13)) 131040 (c.r12)) 131032 (c.rbp)) 131024 (c.rbx)) 131016 (196608)) 65600 (131016)) 65608 (65608)) 65656 (65536))⟩ : Machine)) = (⟨(vrax), (vrbx), (vrcx), (vrdx), (vrsi), (vrdi), (vrbp), (196744), (vr8), (vr9), (vr10), (vrip), (vr12), (vr13), (vr14), (vr15), (c.rip), (c.rflags), (65608), (store (store (store (store (store (store (store (store (store (store (scenarioMem c.mem vrax vrbx vrcx vrdx vrsi vrdi vrbp vrsp vr8 vr9 vr10 vr11 vr12 vr13 vr14 vr15 vrip vrfl 0 vgs raHost) 131064 (c.r15)) 131056 (c.r14)) 131048 (c.r13)) 131040 (c.r12)) 131032 (c.rbp)) 131024 (c.rbx)) 131016 (196608)) 65600 (131016)) 65608 (65608)) 65656 (65536))⟩ : Machine) := by
    simp only [popR11, pushv]
    all_goals norm_num [Machine.mk.injEq, wrap, W, store, setSlot, scenarioMem, hostStart, KFS, HOSTRSP, FRAME, UFS, GUESTRSP]
  rw [h27]
  have h28 : popFlagsReg ((⟨(vrax), (vrbx), (vrcx), (vrdx), (vrsi), (vrdi), (vrbp), (196744), (vr8), (vr9), (vr10), (vrip), (vr12), (vr13), (vr14), (vr15), (c.rip), (c.rflags), (65608), (store (store (store (store (store (store (store (store (store (store (scenarioMem c.mem vrax vrbx vrcx vrdx vrsi vrdi vrbp vrsp vr8 vr9 vr10 vr11 vr12 vr13 vr14 vr15 vrip vrfl 0 vgs raHost) 131064 (c.r15)) 131056 (c.r14)) 131048 (c.r13)) 131040 (c.r12)) 131032 (c.rbp)) 131024 (c.rbx)) 131016 (196608)) 65600 (131016)) 65608 (65608)) 65656 (65536))⟩ : Machine)) = (⟨(vrax), (vrbx), (vrcx), (vrdx), (vrsi), (vrdi), (vrbp), (196752), (vr8), (vr9), (vr10), (vrip), (vr12), (vr13), (vr14), (vr15), (c.rip), (vrfl), (65608), (store (store (store (store (store (store (store (store (store (store (scenarioMem c.mem vrax vrbx vrcx vrdx vrsi vrdi vrbp vrsp vr8 vr9 vr10 vr11 vr12 vr13 vr14 vr15 vrip vrfl 0 vgs raHost) 131064 (c.r15)) 131056 (c.r14)) 131048 (c.r13)) 131040 (c.r12)) 131032 (c.rbp)) 131024 (c.rbx)) 131016 (196608)) 65600 (131016)) 65608 (65608)) 65656 (65536))⟩ : Machine) := by
    simp only [popFlagsReg, pushv]
    all_goals norm_num [Machine.mk.injEq, wrap, W, store, setSlot, scenarioMem, hostStart, KFS, HOSTRSP, FRAME, UFS, GUESTRSP]
  rw [h28]
  have h29 : movRspFrameRsp ((⟨(vrax), (vrbx), (vrcx), (vrdx), (vrsi), (vrdi), (vrbp), (196752), (vr8), (vr9), (vr10), (vrip), (vr12), (vr13), (vr14), (vr15), (c.rip), (vrfl), (65608), (store (store (store (store (store (store (store (store (store (store (scenarioMem c.mem vrax vrbx vrcx vrdx vrsi vrdi vrbp vrsp vr8 vr9 vr10 vr11 vr12 vr13 vr14 vr15 vrip vrfl 0 vgs raHost) 131064 (c.r15)) 131056 (c.r14)) 131048 (c.r13)) 131040 (c.r12)) 131032 (c.rbp)) 131024 (c.rbx)) 131016 (196608)) 65600 (131016)) 65608 (65608)) 65656 (65536))⟩ : Machine)) = (⟨(vrax), (vrbx), (vrcx), (vrdx), (vrsi), (vrdi), (vrbp), (vrsp), (vr8), (vr9), (vr10), (vrip), (vr12), (vr13), (vr14), (vr15), (c.rip), (vrfl), (65608), (store (store (store (store (store (store (store (store (store (store (scenarioMem c.mem vrax vrbx vrcx vrdx vrsi vrdi vrbp vrsp vr8 vr9 vr10 vr11 vr12 vr13 vr14 vr15 vrip vrfl 0 vgs raHost) 131064 (c.r15)) 131056 (c.r14)) 131048 (c.r13)) 131040 (c.r12)) 131032 (c.rbp)) 131024 (c.rbx)) 131016 (196608)) 65600 (131016)) 65608 (65608)) 65656 (65536))⟩ : Machine) := by
    simp only [movRspFrameRsp, pushv]
    all_goals norm_num [Machine.mk.injEq, wrap, W, store, setSlot, scenarioMem, hostStart, KFS, HOSTRSP, FRAME, UFS, GUESTRSP]
  rw [h29]
  have h30 : jmpR11 ((⟨(vrax), (vrbx), (vrcx), (vrdx), (vrsi), (vrdi), (vrbp), (vrsp), (vr8), (vr9), (vr10), (vrip), (vr12), (vr13), (vr14), (vr15), (c.rip), (vrfl), (65608), (store (store (store (store (store (store (store (store (store (store (scenarioMem c.mem vrax vrbx vrcx vrdx vrsi vrdi vrbp vrsp vr8 vr9 vr10 vr11 vr12 vr13 vr14 vr15 vrip vrfl 0 vgs raHost) 131064 (c.r15)) 131056 (c.r14)) 131048 (c.r13)) 131040 (c.r12)) 131032 (c.rbp)) 131024 (c.rbx)) 131016 (196608)) 65600 (131016)) 65608 (65608)) 65656 (65536))⟩ : Machine)) = (⟨(vrax), (vrbx), (vrcx), (vrdx), (vrsi), (vrdi), (vrbp), (vrsp), (vr8), (vr9), (vr10), (vrip), (vr12), (vr13), (vr14), (vr15), (vrip), (vrfl), (65608), (store (store (store (store (store (store (store (store (store (store (scenarioMem c.mem vrax vrbx vrcx vrdx vrsi vrdi vrbp vrsp vr8 vr9 vr10 vr11 vr12 vr13 vr14 vr15 vrip vrfl 0 vgs raHost) 131064 (c.r15)) 131056 (c.r14)) 131048 (c.r13)) 131040 (c.r12)) 131032 (c.rbp)) 131024 (c.rbx)) 131016 (196608)) 65600 (131016)) 65608 (65608)) 65656 (65536))⟩ : Machine) := by
    simp only [jmpR11, pushv]
    all_goals norm_num [Machine.mk.injEq, wrap, W, store, setSlot, scenarioMem, hostStart, KFS, HOSTRSP, FRAME, UFS, GUESTRSP]
  rw [h30]


theorem entry_eval (c : Machine)
    (vrax vrbx vrcx vrdx vrsi vrdi vrbp vrsp vr8 vr9 vr10 vr11 vr12 vr13
     vr14 vr15 vrip vrfl vgs raHost : Nat)
    (grax grbx grcx grdx grsi grdi grbp gr8 gr9 gr10 gr11 gr12 gr13 gr14
     gr15 gfl ra : Nat) :
    syscall_fn_entry (callEnter (guestMutate (syscall_fn_return (hostStart c vrax vrbx vrcx vrdx vrsi vrdi vrbp vrsp vr8 vr9 vr10 vr11 vr12 vr13 vr14 vr15 vrip vrfl 262144 vgs raHost)) grax grbx grcx grdx grsi grdi grbp gr8 gr9 gr10 gr11 gr12 gr13 gr14 gr15 gfl) ra) =
    (⟨(0), (c.rbx), (grcx), (grdx), (65536), (4098), (c.rbp), (131080), (gr8), (gr9), (gr10), (327680), (c.r12), (c.r13), (c.r14), (c.r15), (raHost), (gfl), (65536), (store (store (store (store (store (store (store (store (store (store (store (store (store (store (store (store (store (store (store (store (store (store (store (store (store (store (store (store (store (store (scenarioMem c.mem vrax vrbx vrcx vrdx vrsi vrdi vrbp vrsp vr8 vr9 vr10 vr11 vr12 vr13 vr14 vr15 vrip vrfl 262144 vgs raHost) 131064 (c.r15)) 131056 (c.r14)) 131048 (c.r13)) 131040 (c.r12)) 131032 (c.rbp)) 131024 (c.rbx)) 131016 (196608)) 65600 (131016)) 262192 (65536)) 327672 (ra)) 196760 (0)) 196752 (262144)) 196744 (gfl)) 196736 (ra)) 196728 (gr15)) 196720 (gr14)) 196712 (gr13)) 196704 (gr12)) 196696 (327680)) 196688 (gr10)) 196680 (gr9)) 196672 (gr8)) 196664 (327680)) 196656 (grbp)) 196648 (grdi)) 196640 (grsi)) 196632 (grdx)) 196624 (grcx)) 196616 (grbx)) 196608 (grax))⟩ : Machine) := by
  rw [resume_eval]
  have g1 : guestMutate ((⟨(vrax), (vrbx), (vrcx), (vrdx), (vrsi), (vrdi), (vrbp), (vrsp), (vr8), (vr9), (vr10), (vrip), (vr12), (vr13), (vr14), (vr15), (vrip), (vrfl), (262144), (store (store (store (store (store (store (store (store (store (scenarioMem c.mem vrax vrbx vrcx vrdx vrsi vrdi vrbp vrsp vr8 vr9 vr10 vr11 vr12 vr13 vr14 vr15 vrip vrfl 262144 vgs raHost) 131064 (c.r15)) 131056 (c.r14)) 131048 (c.r13)) 131040 (c.r12)) 131032 (c.rbp)) 131024 (c.rbx)) 131016 (196608)) 65600 (131016)) 262192 (65536))⟩ : Machine)) grax grbx grcx grdx grsi grdi grbp gr8 gr9 gr10 gr11 gr12 gr13 gr14 gr15 gfl = (⟨(grax), (grbx), (grcx), (grdx), (grsi), (grdi), (grbp), (327680), (gr8), (gr9), (gr10), (gr11), (gr12), (gr13), (gr14), (gr15), (vrip), (gfl), (262144), (store (store (store (store (store (store (store (store (store (scenarioMem c.mem vrax vrbx vrcx vrdx vrsi vrdi vrbp vrsp vr8 vr9 vr10 vr11 vr12 vr13 vr14 vr15 vrip vrfl 262144 vgs raHost) 131064 (c.r15)) 131056 (c.r14)) 131048 (c.r13)) 131040 (c.r12)) 131032 (c.rbp)) 131024 (c.rbx)) 131016 (196608)) 65600 (131016)) 262192 (65536))⟩ : Machine) := by
    simp only [guestMutate]
    all_goals norm_num [Machine.mk.injEq, wrap, W, store, setSlot, scenarioMem, hostStart, KFS, HOSTRSP, FRAME, UFS, GUESTRSP]
  rw [g1]
  have g2 : callEnter ((⟨(grax), (grbx), (grcx), (grdx), (grsi), (grdi), (grbp), (327680), (gr8), (gr9), (gr10), (gr11), (gr12), (gr13), (gr14), (gr15), (vrip), (gfl), (262144), (store (store (store (store (store (store (store (store (store (scenarioMem c.mem vrax vrbx vrcx vrdx vrsi vrdi vrbp vrsp vr8 vr9 vr10 vr11 vr12 vr13 vr14 vr15 vrip vrfl 262144 vgs raHost) 131064 (c.r15)) 131056 (c.r14)) 131048 (c.r13)) 131040 (c.r12)) 131032 (c.rbp)) 131024 (c.rbx)) 131016 (196608)) 65600 (131016)) 262192 (65536))⟩ : Machine)) ra = (⟨(grax), (grbx), (grcx), (grdx), (grsi), (grdi), (grbp), (327672), (gr8), (gr9), (gr10), (gr11), (gr12), (gr13), (gr14), (gr15), (vrip), (gfl), (262144), (store (store (store (store (store (store (store (store (store (store (scenarioMem c.mem vrax vrbx vrcx vrdx vrsi vrdi vrbp vrsp vr8 vr9 vr10 vr11 vr12 vr13 vr14 vr15 vrip vrfl 262144 vgs raHost) 131064 (c.r15)) 131056 (c.r14)) 131048 (c.r13)) 131040 (c.r12)) 131032 (c.rbp)) 131024 (c.rbx)) 131016 (196608)) 65600 (131016)) 262192 (65536)) 327672 (ra))⟩ : Machine) := by
    simp only [callEnter, pushv]
    all_goals norm_num [Machine.mk.injEq, wrap, W, store, setSlot, scenarioMem, hostStart, KFS, HOSTRSP, FRAME, UFS, GUESTRSP]
  rw [g2]
  unfold syscall_fn_entry
  have e1 : leaR11rsp8 ((⟨(grax), (grbx), (grcx), (grdx), (grsi), (grdi), (grbp), (327672), (gr8), (gr9), (gr10), (gr11), (gr12), (gr13), (gr14), (gr15), (vrip), (gfl), (262144), (store (store (store (store (store (store (store (store (store (store (scenarioMem c.mem vrax vrbx vrcx vrdx vrsi vrdi vrbp vrsp vr8 vr9 vr10 vr11 vr12 vr13 vr14 vr15 vrip vrfl 262144 vgs raHost) 131064 (c.r15)) 131056 (c.r14)) 131048 (c.r13)) 131040 (c.r12)) 131032 (c.rbp)) 131024 (c.rbx)) 131016 (196608)) 65600 (131016)) 262192 (65536)) 327672 (ra))⟩ : Machine)) = (⟨(grax), (grbx), (grcx), (grdx), (grsi), (grdi), (grbp), (327672), (gr8), (gr9), (gr10), (327680), (gr12), (gr13), (gr14), (gr15), (vrip), (gfl), (262144), (store (store (store (store (store (store (store (store (store (store (scenarioMem c.mem vrax vrbx vrcx vrdx vrsi vrdi vrbp vrsp vr8 vr9 vr10 vr11 vr12 vr13 vr14 vr15 vrip vrfl 262144 vgs raHost) 131064 (c.r15)) 131056 (c.r14)) 131048 (c.r13)) 131040 (c.r12)) 131032 (c.rbp)) 131024 (c.rbx)) 131016 (196608)) 65600 (131016)) 262192 (65536)) 327672 (ra))⟩ : Machine) := by
    simp only [leaR11rsp8, pushv]
    all_goals norm_num [Machine.mk.injEq, wrap, W, store, setSlot, scenarioMem, hostStart, KFS, HOSTRSP, FRAME, UFS, GUESTRSP]
  rw [e1]
  have e2 : SWITCH_TO_KERNEL_STACK ((⟨(grax), (grbx), (grcx), (grdx), (grsi), (grdi), (grbp), (327672), (gr8), (gr9), (gr10), (327680), (gr12), (gr13), (gr14), (gr15), (vrip), (gfl), (262144), (store (store (store (store (store (store (store (store (store (store (scenarioMem c.mem vrax vrbx vrcx vrdx vrsi vrdi vrbp vrsp vr8 vr9 vr10 vr11 vr12 vr13 vr14 vr15 vrip vrfl 262144 vgs raHost) 131064 (c.r15)) 131056 (c.r14)) 131048 (c.r13)) 131040 (c.r12)) 131032 (c.rbp)) 131024 (c.rbx)) 131016 (196608)) 65600 (131016)) 262192 (65536)) 327672 (ra))⟩ : Machine)) = (⟨(grax), (grbx), (grcx), (grdx), (grsi), (grdi), (grbp), (131016), (gr8), (gr9), (gr10), (327680), (gr12), (gr13), (gr14), (gr15), (vrip), (gfl), (262144), (store (store (store (store (store (store (store (store (store (store (scenarioMem c.mem vrax vrbx vrcx vrdx vrsi vrdi vrbp vrsp vr8 vr9 vr10 vr11 vr12 vr13 vr14 vr15 vrip vrfl 262144 vgs raHost) 131064 (c.r15)) 131056 (c.r14)) 131048 (c.r13)) 131040 (c.r12)) 131032 (c.rbp)) 131024 (c.rbx)) 131016 (196608)) 65600 (131016)) 262192 (65536)) 327672 (ra))⟩ : Machine) := by
    simp only [SWITCH_TO_KERNEL_STACK, pushv]
    all_goals norm_num [Machine.mk.injEq, wrap, W, store, setSlot, scenarioMem, hostStart, KFS, HOSTRSP, FRAME, UFS, GUESTRSP]
  rw [e2]
  have e3 : popRsp ((⟨(grax), (grbx), (grcx), (grdx), (grsi), (grdi), (grbp), (131016), (gr8), (gr9), (gr10), (327680), (gr12), (gr13), (gr14), (gr15), (vrip), (gfl), (262144), (store (store (store (store (store (store (store (store (store (store (scenarioMem c.mem vrax vrbx vrcx vrdx vrsi vrdi vrbp vrsp vr8 vr9 vr10 vr11 vr12 vr13 vr14 vr15 vrip vrfl 262144 vgs raHost) 131064 (c.r15)) 131056 (c.r14)) 131048 (c.r13)) 131040 (c.r12)) 131032 (c.rbp)) 131024 (c.rbx)) 131016 (196608)) 65600 (131016)) 262192 (65536)) 327672 (ra))⟩ : Machine)) = (⟨(grax), (grbx), (grcx), (grdx), (grsi), (grdi), (grbp), (196608), (gr8), (gr9), (gr10), (327680), (gr12), (gr13), (gr14), (gr15), (vrip), (gfl), (262144), (store (store (store (store (store (store (store (store (store (store (scenarioMem c.mem vrax vrbx vrcx vrdx vrsi vrdi vrbp vrsp vr8 vr9 vr10 vr11 vr12 vr13 vr14 vr15 vrip vrfl 262144 vgs raHost) 131064 (c.r15)) 131056 (c.r14)) 131048 (c.r13)) 131040 (c.r12)) 131032 (c.rbp)) 131024 (c.rbx)) 131016 (196608)) 65600 (131016)) 262192 (65536)) 327672 (ra))⟩ : Machine) := by
    simp only [popRsp, pushv]
    all_goals norm_num [Machine.mk.injEq, wrap, W, store, setSlot, scenarioMem, hostStart, KFS, HOSTRSP, FRAME, UFS, GUESTRSP]
  rw [e3]
  have e4 : leaRsp160 ((⟨(grax), (grbx), (grcx), (grdx), (grsi), (grdi), (grbp), (196608), (gr8), (gr9), (gr10), (327680), (gr12), (gr13), (gr14), (gr15), (vrip), (gfl), (262144), (store (store (store (store (store (store (store (store (store (store (scenarioMem c.mem vrax vrbx vrcx vrdx vrsi vrdi vrbp vrsp vr8 vr9 vr10 vr11 vr12 vr13 vr14 vr15 vrip vrfl 262144 vgs raHost) 131064 (c.r15)) 131056 (c.r14)) 131048 (c.r13)) 131040 (c.r12)) 131032 (c.rbp)) 131024 (c.rbx)) 131016 (196608)) 65600 (131016)) 262192 (65536)) 327672 (ra))⟩ : Machine)) = (⟨(grax), (grbx), (grcx), (grdx), (grsi), (grdi), (grbp), (196768), (gr8), (gr9), (gr10), (327680), (gr12), (gr13), (gr14), (gr15), (vrip), (gfl), (262144), (store (store (store (store (store (store (store (store (store (store (scenarioMem c.mem vrax vrbx vrcx vrdx vrsi vrdi vrbp vrsp vr8 vr9 vr10 vr11 vr12 vr13 vr14 vr15 vrip vrfl 262144 vgs raHost) 131064 (c.r15)) 131056 (c.r14)) 131048 (c.r13)) 131040 (c.r12)) 131032 (c.rbp)) 131024 (c.rbx)) 131016 (196608)) 65600 (131016)) 262192 (65536)) 327672 (ra))⟩ : Machine) := by
    simp only [leaRsp160, pushv]
    all_goals norm_num [Machine.mk.injEq, wrap, W, store, setSlot, scenarioMem, hostStart, KFS, HOSTRSP, FRAME, UFS, GUESTRSP]
  rw [e4]
  have e5 : pushZero ((⟨(grax), (grbx), (grcx), (grdx), (grsi), (grdi), (grbp), (196768), (gr8), (gr9), (gr10), (327680), (gr12), (gr13), (gr14), (gr15), (vrip), (gfl), (262144), (store (store (store (store (store (store (store (store (store (store (scenarioMem c.mem vrax vrbx vrcx vrdx vrsi vrdi vrbp vrsp vr8 vr9 vr10 vr11 vr12 vr13 vr14 vr15 vrip vrfl 262144 vgs raHost) 131064 (c.r15)) 131056 (c.r14)) 131048 (c.r13)) 131040 (c.r12)) 131032 (c.rbp)) 131024 (c.rbx)) 131016 (196608)) 65600 (131016)) 262192 (65536)) 327672 (ra))⟩ : Machine)) = (⟨(grax), (grbx), (grcx), (grdx), (grsi), (grdi), (grbp), (196760), (gr8), (gr9), (gr10), (327680), (gr12), (gr13), (gr14), (gr15), (vrip), (gfl), (262144), (store (store (store (store (store (store (store (store (store (store (store (scenarioMem c.mem vrax vrbx vrcx vrdx vrsi vrdi vrbp vrsp vr8 vr9 vr10 vr11 vr12 vr13 vr14 vr15 vrip vrfl 262144 vgs raHost) 131064 (c.r15)) 131056 (c.r14)) 131048 (c.r13)) 131040 (c.r12)) 131032 (c.rbp)) 131024 (c.rbx)) 131016 (196608)) 65600 (131016)) 262192 (65536)) 327672 (ra)) 196760 (0))⟩ : Machine) := by
    simp only [pushZero, pushv]
    all_goals norm_num [Machine.mk.injEq, wrap, W, store, setSlot, scenarioMem, hostStart, KFS, HOSTRSP, FRAME, UFS, GUESTRSP]
  rw [e5]
  have e6 : PUSH_USER_FSBASE ((⟨(grax), (grbx), (grcx), (grdx), (grsi), (grdi), (grbp), (196760), (gr8), (gr9), (gr10), (327680), (gr12), (gr13), (gr14), (gr15), (vrip), (gfl), (262144), (store (store (store (store (store (store (store (store (store (store (store (scenarioMem c.mem vrax vrbx vrcx vrdx vrsi vrdi vrbp vrsp vr8 vr9 vr10 vr11 vr12 vr13 vr14 vr15 vrip vrfl 262144 vgs raHost) 131064 (c.r15)) 131056 (c.r14)) 131048 (c.r13)) 131040 (c.r12)) 131032 (c.rbp)) 131024 (c.rbx)) 131016 (196608)) 65600 (131016)) 262192 (65536)) 327672 (ra)) 196760 (0))⟩ : Machine)) = (⟨(grax), (grbx), (grcx), (grdx), (grsi), (grdi), (grbp), (196752), (gr8), (gr9), (gr10), (327680), (gr12), (gr13), (gr14), (gr15), (vrip), (gfl), (262144), (store (store (store (store (store (store (store (store (store (store (store (store (scenarioMem c.mem vrax vrbx vrcx vrdx vrsi vrdi vrbp vrsp vr8 vr9 vr10 vr11 vr12 vr13 vr14 vr15 vrip vrfl 262144 vgs raHost) 131064 (c.r15)) 131056 (c.r14)) 131048 (c.r13)) 131040 (c.r12)) 131032 (c.rbp)) 131024 (c.rbx)) 131016 (196608)) 65600 (131016)) 262192 (65536)) 327672 (ra)) 196760 (0)) 196752 (262144))⟩ : Machine) := by
    simp only [PUSH_USER_FSBASE, pushv]
    all_goals norm_num [Machine.mk.injEq, wrap, W, store, setSlot, scenarioMem, hostStart, KFS, HOSTRSP, FRAME, UFS, GUESTRSP]
  rw [e6]
  have e7 : pushFlagsReg ((⟨(grax), (grbx), (grcx), (grdx), (grsi), (grdi), (grbp), (196752), (gr8), (gr9), (gr10), (327680), (gr12), (gr13), (gr14), (gr15), (vrip), (gfl), (262144), (store (store (store (store (store (store (store (store (store (store (store (store (scenarioMem c.mem vrax vrbx vrcx vrdx vrsi vrdi vrbp vrsp vr8 vr9 vr10 vr11 vr12 vr13 vr14 vr15 vrip vrfl 262144 vgs raHost) 131064 (c.r15)) 131056 (c.r14)) 131048 (c.r13)) 131040 (c.r12)) 131032 (c.rbp)) 131024 (c.rbx)) 131016 (196608)) 65600 (131016)) 262192 (65536)) 327672 (ra)) 196760 (0)) 196752 (262144))⟩ : Machine)) = (⟨(grax), (grbx), (grcx), (grdx), (grsi), (grdi), (grbp), (196744), (gr8), (gr9), (gr10), (327680), (gr12), (gr13), (gr14), (gr15), (vrip), (gfl), (262144), (store (store (store (store (store (store (store (store (store (store (store (store (store (scenarioMem c.mem vrax vrbx vrcx vrdx vrsi vrdi vrbp vrsp vr8 vr9 vr10 vr11 vr12 vr13 vr14 vr15 vrip vrfl 262144 vgs raHost) 131064 (c.r15)) 131056 (c.r14)) 131048 (c.r13)) 131040 (c.r12)) 131032 (c.rbp)) 131024 (c.rbx)) 131016 (196608)) 65600 (131016)) 262192 (65536)) 327672 (ra)) 196760 (0)) 196752 (262144)) 196744 (gfl))⟩ : Machine) := by
    simp only [pushFlagsReg, pushv]
    all_goals norm_num [Machine.mk.injEq, wrap, W, store, setSlot, scenarioMem, hostStart, KFS, HOSTRSP, FRAME, UFS, GUESTRSP]
  rw [e7]
  have e8 : pushMemR11minus8 ((⟨(grax), (grbx), (grcx), (grdx), (grsi), (grdi), (grbp), (196744), (gr8), (gr9), (gr10), (327680), (gr12), (gr13), (gr14), (gr15), (vrip), (gfl), (262144), (store (store (store (store (store (store (store (store (store (store (store (store (store (scenarioMem c.mem vrax vrbx vrcx vrdx vrsi vrdi vrbp vrsp vr8 vr9 vr10 vr11 vr12 vr13 vr14 vr15 vrip vrfl 262144 vgs raHost) 131064 (c.r15)) 131056 (c.r14)) 131048 (c.r13)) 131040 (c.r12)) 131032 (c.rbp)) 131024 (c.rbx)) 131016 (196608)) 65600 (131016)) 262192 (65536)) 327672 (ra)) 196760 (0)) 196752 (262144)) 196744 (gfl))⟩ : Machine)) = (⟨(grax), (grbx), (grcx), (grdx), (grsi), (grdi), (grbp), (196736), (gr8), (gr9), (gr10), (327680), (gr12), (gr13), (gr14), (gr15), (vrip), (gfl), (262144), (store (store (store (store (store (store (store (store (store (store (store (store (store (store (scenarioMem c.mem vrax vrbx vrcx vrdx vrsi vrdi vrbp vrsp vr8 vr9 vr10 vr11 vr12 vr13 vr14 vr15 vrip vrfl 262144 vgs raHost) 131064 (c.r15)) 131056 (c.r14)) 131048 (c.r13)) 131040 (c.r12)) 131032 (c.rbp)) 131024 (c.rbx)) 131016 (196608)) 65600 (131016)) 262192 (65536)) 327672 (ra)) 196760 (0)) 196752 (262144)) 196744 (gfl)) 196736 (ra))⟩ : Machine) := by
    simp only [pushMemR11minus8, pushv]
    all_goals norm_num [Machine.mk.injEq, wrap, W, store, setSlot, scenarioMem, hostStart, KFS, HOSTRSP, FRAME, UFS, GUESTRSP]
  rw [e8]
  have e9 : pushR15 ((⟨(grax), (grbx), (grcx), (grdx), (grsi), (grdi), (grbp), (196736), (gr8), (gr9), (gr10), (327680), (gr12), (gr13), (gr14), (gr15), (vrip), (gfl), (262144), (store (store (store (store (store (store (store (store (store (store (store (store (store (store (scenarioMem c.mem vrax vrbx vrcx vrdx vrsi vrdi vrbp vrsp vr8 vr9 vr10 vr11 vr12 vr13 vr14 vr15 vrip vrfl 262144 vgs raHost) 131064 (c.r15)) 131056 (c.r14)) 131048 (c.r13)) 131040 (c.r12)) 131032 (c.rbp)) 131024 (c.rbx)) 131016 (196608)) 65600 (131016)) 262192 (65536)) 327672 (ra)) 196760 (0)) 196752 (262144)) 196744 (gfl)) 196736 (ra))⟩ : Machine)) = (⟨(grax), (grbx), (grcx), (grdx), (grsi), (grdi), (grbp), (196728), (gr8), (gr9), (gr10), (327680), (gr12), (gr13), (gr14), (gr15), (vrip), (gfl), (262144), (store (store (store (store (store (store (store (store (store (store (store (store (store (store (store (scenarioMem c.mem vrax vrbx vrcx vrdx vrsi vrdi vrbp vrsp vr8 vr9 vr10 vr11 vr12 vr13 vr14 vr15 vrip vrfl 262144 vgs raHost) 131064 (c.r15)) 131056 (c.r14)) 131048 (c.r13)) 131040 (c.r12)) 131032 (c.rbp)) 131024 (c.rbx)) 131016 (196608)) 65600 (131016)) 262192 (65536)) 327672 (ra)) 196760 (0)) 196752 (262144)) 196744 (gfl)) 196736 (ra)) 196728 (gr15))⟩ : Machine) := by
    simp only [pushR15, pushv]
    all_goals norm_num [Machine.mk.injEq, wrap, W, store, setSlot, scenarioMem, hostStart, KFS, HOSTRSP, FRAME, UFS, GUESTRSP]
  rw [e9]
  have e10 : pushR14 ((⟨(grax), (grbx), (grcx), (grdx), (grsi), (grdi), (grbp), (196728), (gr8), (gr9), (gr10), (327680), (gr12), (gr13), (gr14), (gr15), (vrip), (gfl), (262144), (store (store (store (store (store (store (store (store (store (store (store (store (store (store (store (scenarioMem c.mem vrax vrbx vrcx vrdx vrsi vrdi vrbp vrsp vr8 vr9 vr10 vr11 vr12 vr13 vr14 vr15 vrip vrfl 262144 vgs raHost) 131064 (c.r15)) 131056 (c.r14)) 131048 (c.r13)) 131040 (c.r12)) 131032 (c.rbp)) 131024 (c.rbx)) 131016 (196608)) 65600 (131016)) 262192 (65536)) 327672 (ra)) 196760 (0)) 196752 (262144)) 196744 (gfl)) 196736 (ra)) 196728 (gr15))⟩ : Machine)) = (⟨(grax), (grbx), (grcx), (grdx), (grsi), (grdi), (grbp), (196720), (gr8), (gr9), (gr10), (327680), (gr12), (gr13), (gr14), (gr15), (vrip), (gfl), (262144), (store (store (store (store (store (store (store (store (store (store (store (store (store (store (store (store (scenarioMem c.mem vrax vrbx vrcx vrdx vrsi vrdi vrbp vrsp vr8 vr9 vr10 vr11 vr12 vr13 vr14 vr15 vrip vrfl 262144 vgs raHost) 131064 (c.r15)) 131056 (c.r14)) 131048 (c.r13)) 131040 (c.r12)) 131032 (c.rbp)) 131024 (c.rbx)) 131016 (196608)) 65600 (131016)) 262192 (65536)) 327672 (ra)) 196760 (0)) 196752 (262144)) 196744 (gfl)) 196736 (ra)) 196728 (gr15)) 196720 (gr14))⟩ : Machine) := by
    simp only [pushR14, pushv]
    all_goals norm_num [Machine.mk.injEq, wrap, W, store, setSlot, scenarioMem, hostStart, KFS, HOSTRSP, FRAME, UFS, GUESTRSP]
  rw [e10]
  have e11 : pushR13 ((⟨(grax), (grbx), (grcx), (grdx), (grsi), (grdi), (grbp), (196720), (gr8), (gr9), (gr10), (327680), (gr12), (gr13), (gr14), (gr15), (vrip), (gfl), (262144), (store (store (store (store (store (store (store (store (store (store (store (store (store (store (store (store (scenarioMem c.mem vrax vrbx vrcx vrdx vrsi vrdi vrbp vrsp vr8 vr9 vr10 vr11 vr12 vr13 vr14 vr15 vrip vrfl 262144 vgs raHost) 131064 (c.r15)) 131056 (c.r14)) 131048 (c.r13)) 131040 (c.r12)) 131032 (c.rbp)) 131024 (c.rbx)) 131016 (196608)) 65600 (131016)) 262192 (65536)) 327672 (ra)) 196760 (0)) 196752 (262144)) 196744 (gfl)) 196736 (ra)) 196728 (gr15)) 196720 (gr14))⟩ : Machine)) = (⟨(grax), (grbx), (grcx), (grdx), (grsi), (grdi), (grbp), (196712), (gr8), (gr9), (gr10), (327680), (gr12), (gr13), (gr14), (gr15), (vrip), (gfl), (262144), (store (store (store (store (store (store (store (store (store (store (store (store (store (store (store (store (store (scenarioMem c.mem vrax vrbx vrcx vrdx vrsi vrdi vrbp vrsp vr8 vr9 vr10 vr11 vr12 vr13 vr14 vr15 vrip vrfl 262144 vgs raHost) 131064 (c.r15)) 131056 (c.r14)) 131048 (c.r13)) 131040 (c.r12)) 131032 (c.rbp)) 131024 (c.rbx)) 131016 (196608)) 65600 (131016)) 262192 (65536)) 327672 (ra)) 196760 (0)) 196752 (262144)) 196744 (gfl)) 196736 (ra)) 196728 (gr15)) 196720 (gr14)) 196712 (gr13))⟩ : Machine) := by
    simp only [pushR13, pushv]
    all_goals norm_num [Machine.mk.injEq, wrap, W, store, setSlot, scenarioMem, hostStart, KFS, HOSTRSP, FRAME, UFS, GUESTRSP]
  rw [e11]
  have e12 : pushR12 ((⟨(grax), (grbx), (grcx), (grdx), (grsi), (grdi), (grbp), (196712), (gr8), (gr9), (gr10), (327680), (gr12), (gr13), (gr14), (gr15), (vrip), (gfl), (262144), (store (store (store (store (store (store (store (store (store (store (store (store (store (store (store (store (store (scenarioMem c.mem vrax vrbx vrcx vrdx vrsi vrdi vrbp vrsp vr8 vr9 vr10 vr11 vr12 vr13 vr14 vr15 vrip vrfl 262144 vgs raHost) 131064 (c.r15)) 131056 (c.r14)) 131048 (c.r13)) 131040 (c.r12)) 131032 (c.rbp)) 131024 (c.rbx)) 131016 (196608)) 65600 (131016)) 262192 (65536)) 327672 (ra)) 196760 (0)) 196752 (262144)) 196744 (gfl)) 196736 (ra)) 196728 (gr15)) 196720 (gr14)) 196712 (gr13))⟩ : Machine)) = (⟨(grax), (grbx), (grcx), (grdx), (grsi), (grdi), (grbp), (196704), (gr8), (gr9), (gr10), (327680), (gr12), (gr13), (gr14), (gr15), (vrip), (gfl), (262144), (store (store (store (store (store (store (store (store (store (store (store (store (store (store (store (store (store (store (scenarioMem c.mem vrax vrbx vrcx vrdx vrsi vrdi vrbp vrsp vr8 vr9 vr10 vr11 vr12 vr13 vr14 vr15 vrip vrfl 262144 vgs raHost) 131064 (c.r15)) 131056 (c.r14)) 131048 (c.r13)) 131040 (c.r12)) 131032 (c.rbp)) 131024 (c.rbx)) 131016 (196608)) 65600 (131016)) 262192 (65536)) 327672 (ra)) 196760 (0)) 196752 (262144)) 196744 (gfl)) 196736 (ra)) 196728 (gr15)) 196720 (gr14)) 196712 (gr13)) 196704 (gr12))⟩ : Machine) := by
    simp only [pushR12, pushv]
    all_goals norm_num [Machine.mk.injEq, wrap, W, store, setSlot, scenarioMem, hostStart, KFS, HOSTRSP, FRAME, UFS, GUESTRSP]
  rw [e12]
  have e13 : pushR11 ((⟨(grax), (grbx), (grcx), (grdx), (grsi), (grdi), (grbp), (196704), (gr8), (gr9), (gr10), (327680), (gr12), (gr13), (gr14), (gr15), (vrip), (gfl), (262144), (store (store (store (store (store (store (store (store (store (store (store (store (store (store (store (store (store (store (scenarioMem c.mem vrax vrbx vrcx vrdx vrsi vrdi vrbp vrsp vr8 vr9 vr10 vr11 vr12 vr13 vr14 vr15 vrip vrfl 262144 vgs raHost) 131064 (c.r15)) 131056 (c.r14)) 131048 (c.r13)) 131040 (c.r12)) 131032 (c.rbp)) 131024 (c.rbx)) 131016 (196608)) 65600 (131016)) 262192 (65536)) 327672 (ra)) 196760 (0)) 196752 (262144)) 196744 (gfl)) 196736 (ra)) 196728 (gr15)) 196720 (gr14)) 196712 (gr13)) 196704 (gr12))⟩ : Machine)) = (⟨(grax), (grbx), (grcx), (grdx), (grsi), (grdi), (grbp), (196696), (gr8), (gr9), (gr10), (327680), (gr12), (gr13), (gr14), (gr15), (vrip), (gfl), (262144), (store (store (store (store (store (store (store (store (store (store (store (store (store (store (store (store (store (store (store (scenarioMem c.mem vrax vrbx vrcx vrdx vrsi vrdi vrbp vrsp vr8 vr9 vr10 vr11 vr12 vr13 vr14 vr15 vrip vrfl 262144 vgs raHost) 131064 (c.r15)) 131056 (c.r14)) 131048 (c.r13)) 131040 (c.r12)) 131032 (c.rbp)) 131024 (c.rbx)) 131016 (196608)) 65600 (131016)) 262192 (65536)) 327672 (ra)) 196760 (0)) 196752 (262144)) 196744 (gfl)) 196736 (ra)) 196728 (gr15)) 196720 (gr14)) 196712 (gr13)) 196704 (gr12)) 196696 (327680))⟩ : Machine) := by
    simp only [pushR11, pushv]
    all_goals norm_num [Machine.mk.injEq, wrap, W, store, setSlot, scenarioMem, hostStart, KFS, HOSTRSP, FRAME, UFS, GUESTRSP]
  rw [e13]
  have e14 : pushR10 ((⟨(grax), (grbx), (grcx), (grdx), (grsi), (grdi), (grbp), (196696), (gr8), (gr9), (gr10), (327680), (gr12), (gr13), (gr14), (gr15), (vrip), (gfl), (262144), (store (store (store (store (store (store (store (store (store (store (store (store (store (store (store (store (store (store (store (scenarioMem c.mem vrax vrbx vrcx vrdx vrsi vrdi vrbp vrsp vr8 vr9 vr10 vr11 vr12 vr13 vr14 vr15 vrip vrfl 262144 vgs raHost) 131064 (c.r15)) 131056 (c.r14)) 131048 (c.r13)) 131040 (c.r12)) 131032 (c.rbp)) 131024 (c.rbx)) 131016 (196608)) 65600 (131016)) 262192 (65536)) 327672 (ra)) 196760 (0)) 196752 (262144)) 196744 (gfl)) 196736 (ra)) 196728 (gr15)) 196720 (gr14)) 196712 (gr13)) 196704 (gr12)) 196696 (327680))⟩ : Machine)) = (⟨(grax), (grbx), (grcx), (grdx), (grsi), (grdi), (grbp), (196688), (gr8), (gr9), (gr10), (327680), (gr12), (gr13), (gr14), (gr15), (vrip), (gfl), (262144), (store (store (store (store (store (store (store (store (store (store (store (store (store (store (store (store (store (store (store (store (scenarioMem c.mem vrax vrbx vrcx vrdx vrsi vrdi vrbp vrsp vr8 vr9 vr10 vr11 vr12 vr13 vr14 vr15 vrip vrfl 262144 vgs raHost) 131064 (c.r15)) 131056 (c.r14)) 131048 (c.r13)) 131040 (c.r12)) 131032 (c.rbp)) 131024 (c.rbx)) 131016 (196608)) 65600 (131016)) 262192 (65536)) 327672 (ra)) 196760 (0)) 196752 (262144)) 196744 (gfl)) 196736 (ra)) 196728 (gr15)) 196720 (gr14)) 196712 (gr13)) 196704 (gr12)) 196696 (327680)) 196688 (gr10))⟩ : Machine) := by
    simp only [pushR10, pushv]
    all_goals norm_num [Machine.mk.injEq, wrap, W, store, setSlot, scenarioMem, hostStart, KFS, HOSTRSP, FRAME, UFS, GUESTRSP]
  rw [e14]
  have e15 : pushR9 ((⟨(grax), (grbx), (grcx), (grdx), (grsi), (grdi), (grbp), (196688), (gr8), (gr9), (gr10), (327680), (gr12), (gr13), (gr14), (gr15), (vrip), (gfl), (262144), (store (store (store (store (store (store (store (store (store (store (store (store (store (store (store (store (store (store (store (store (scenarioMem c.mem vrax vrbx vrcx vrdx vrsi vrdi vrbp vrsp vr8 vr9 vr10 vr11 vr12 vr13 vr14 vr15 vrip vrfl 262144 vgs raHost) 131064 (c.r15)) 131056 (c.r14)) 131048 (c.r13)) 131040 (c.r12)) 131032 (c.rbp)) 131024 (c.rbx)) 131016 (196608)) 65600 (131016)) 262192 (65536)) 327672 (ra)) 196760 (0)) 196752 (262144)) 196744 (gfl)) 196736 (ra)) 196728 (gr15)) 196720 (gr14)) 196712 (gr13)) 196704 (gr12)) 196696 (327680)) 196688 (gr10))⟩ : Machine)) = (⟨(grax), (grbx), (grcx), (grdx), (grsi), (grdi), (grbp), (196680), (gr8), (gr9), (gr10), (327680), (gr12), (gr13), (gr14), (gr15), (vrip), (gfl), (262144), (store (store (store (store (store (store (store (store (store (store (store (store (store (store (store (store (store (store (store (store (store (scenarioMem c.mem vrax vrbx vrcx vrdx vrsi vrdi vrbp vrsp vr8 vr9 vr10 vr11 vr12 vr13 vr14 vr15 vrip vrfl 262144 vgs raHost) 131064 (c.r15)) 131056 (c.r14)) 131048 (c.r13)) 131040 (c.r12)) 131032 (c.rbp)) 131024 (c.rbx)) 131016 (196608)) 65600 (131016)) 262192 (65536)) 327672 (ra)) 196760 (0)) 196752 (262144)) 196744 (gfl)) 196736 (ra)) 196728 (gr15)) 196720 (gr14)) 196712 (gr13)) 196704 (gr12)) 196696 (327680)) 196688 (gr10)) 196680 (gr9))⟩ : Machine) := by
    simp only [pushR9, pushv]
    all_goals norm_num [Machine.mk.injEq, wrap, W, store, setSlot, scenarioMem, hostStart, KFS, HOSTRSP, FRAME, UFS, GUESTRSP]
  rw [e15]
  have e16 : pushR8 ((⟨(grax), (grbx), (grcx), (grdx), (grsi), (grdi), (grbp), (196680), (gr8), (gr9), (gr10), (327680), (gr12), (gr13), (gr14), (gr15), (vrip), (gfl), (262144), (store (store (store (store (store (store (store (store (store (store (store (store (store (store (store (store (store (store (store (store (store (scenarioMem c.mem vrax vrbx vrcx vrdx vrsi vrdi vrbp vrsp vr8 vr9 vr10 vr11 vr12 vr13 vr14 vr15 vrip vrfl 262144 vgs raHost) 131064 (c.r15)) 131056 (c.r14)) 131048 (c.r13)) 131040 (c.r12)) 131032 (c.rbp)) 131024 (c.rbx)) 131016 (196608)) 65600 (131016)) 262192 (65536)) 327672 (ra)) 196760 (0)) 196752 (262144)) 196744 (gfl)) 196736 (ra)) 196728 (gr15)) 196720 (gr14)) 196712 (gr13)) 196704 (gr12)) 196696 (327680)) 196688 (gr10)) 196680 (gr9))⟩ : Machine)) = (⟨(grax), (grbx), (grcx), (grdx), (grsi), (grdi), (grbp), (196672), (gr8), (gr9), (gr10), (327680), (gr12), (gr13), (gr14), (gr15), (vrip), (gfl), (262144), (store (store (store (store (store (store (store (store (store (store (store (store (store (store (store (store (store (store (store (store (store (store (scenarioMem c.mem vrax vrbx vrcx vrdx vrsi vrdi vrbp vrsp vr8 vr9 vr10 vr11 vr12 vr13 vr14 vr15 vrip vrfl 262144 vgs raHost) 131064 (c.r15)) 131056 (c.r14)) 131048 (c.r13)) 131040 (c.r12)) 131032 (c.rbp)) 131024 (c.rbx)) 131016 (196608)) 65600 (131016)) 262192 (65536)) 327672 (ra)) 196760 (0)) 196752 (262144)) 196744 (gfl)) 196736 (ra)) 196728 (gr15)) 196720 (gr14)) 196712 (gr13)) 196704 (gr12)) 196696 (327680)) 196688 (gr10)) 196680 (gr9)) 196672 (gr8))⟩ : Machine) := by
    simp only [pushR8, pushv]
    all_goals norm_num [Machine.mk.injEq, wrap, W, store, setSlot, scenarioMem, hostStart, KFS, HOSTRSP, FRAME, UFS, GUESTRSP]
  rw [e16]
  have e17 : pushR11 ((⟨(grax), (grbx), (grcx), (grdx), (grsi), (grdi), (grbp), (196672), (gr8), (gr9), (gr10), (327680), (gr12), (gr13), (gr14), (gr15), (vrip), (gfl), (262144), (store (store (store (store (store (store (store (store (store (store (store (store (store (store (store (store (store (store (store (store (store (store (scenarioMem c.mem vrax vrbx vrcx vrdx vrsi vrdi vrbp vrsp vr8 vr9 vr10 vr11 vr12 vr13 vr14 vr15 vrip vrfl 262144 vgs raHost) 131064 (c.r15)) 131056 (c.r14)) 131048 (c.r13)) 131040 (c.r12)) 131032 (c.rbp)) 131024 (c.rbx)) 131016 (196608)) 65600 (131016)) 262192 (65536)) 327672 (ra)) 196760 (0)) 196752 (262144)) 196744 (gfl)) 196736 (ra)) 196728 (gr15)) 196720 (gr14)) 196712 (gr13)) 196704 (gr12)) 196696 (327680)) 196688 (gr10)) 196680 (gr9)) 196672 (gr8))⟩ : Machine)) = (⟨(grax), (grbx), (grcx), (grdx), (grsi), (grdi), (grbp), (196664), (gr8), (gr9), (gr10), (327680), (gr12), (gr13), (gr14), (gr15), (vrip), (gfl), (262144), (store (store (store (store (store (store (store (store (store (store (store (store (store (store (store (store (store (store (store (store (store (store (store (scenarioMem c.mem vrax vrbx vrcx vrdx vrsi vrdi vrbp vrsp vr8 vr9 vr10 vr11 vr12 vr13 vr14 vr15 vrip vrfl 262144 vgs raHost) 131064 (c.r15)) 131056 (c.r14)) 131048 (c.r13)) 131040 (c.r12)) 131032 (c.rbp)) 131024 (c.rbx)) 131016 (196608)) 65600 (131016)) 262192 (65536)) 327672 (ra)) 196760 (0)) 196752 (262144)) 196744 (gfl)) 196736 (ra)) 196728 (gr15)) 196720 (gr14)) 196712 (gr13)) 196704 (gr12)) 196696 (327680)) 196688 (gr10)) 196680 (gr9)) 196672 (gr8)) 196664 (327680))⟩ : Machine) := by
    simp only [pushR11, pushv]
    all_goals norm_num [Machine.mk.injEq, wrap, W, store, setSlot, scenarioMem, hostStart, KFS, HOSTRSP, FRAME, UFS, GUESTRSP]
  rw [e17]
  have e18 : pushRbp ((⟨(grax), (grbx), (grcx), (grdx), (grsi), (grdi), (grbp), (196664), (gr8), (gr9), (gr10), (327680), (gr12), (gr13), (gr14), (gr15), (vrip), (gfl), (262144), (store (store (store (store (store (store (store (store (store (store (store (store (store (store (store (store (store (store (store (store (store (store (store (scenarioMem c.mem vrax vrbx vrcx vrdx vrsi vrdi vrbp vrsp vr8 vr9 vr10 vr11 vr12 vr13 vr14 vr15 vrip vrfl 262144 vgs raHost) 131064 (c.r15)) 131056 (c.r14)) 131048 (c.r13)) 131040 (c.r12)) 131032 (c.rbp)) 131024 (c.rbx)) 131016 (196608)) 65600 (131016)) 262192 (65536)) 327672 (ra)) 196760 (0)) 196752 (262144)) 196744 (gfl)) 196736 (ra)) 196728 (gr15)) 196720 (gr14)) 196712 (gr13)) 196704 (gr12)) 196696 (327680)) 196688 (gr10)) 196680 (gr9)) 196672 (gr8)) 196664 (327680))⟩ : Machine)) = (⟨(grax), (grbx), (grcx), (grdx), (grsi), (grdi), (grbp), (196656), (gr8), (gr9), (gr10), (327680), (gr12), (gr13), (gr14), (gr15), (vrip), (gfl), (262144), (store (store (store (store (store (store (store (store (store (store (store (store (store (store (store (store (store (store (store (store (store (store (store (store (scenarioMem c.mem vrax vrbx vrcx vrdx vrsi vrdi vrbp vrsp vr8 vr9 vr10 vr11 vr12 vr13 vr14 vr15 vrip vrfl 262144 vgs raHost) 131064 (c.r15)) 131056 (c.r14)) 131048 (c.r13)) 131040 (c.r12)) 131032 (c.rbp)) 131024 (c.rbx)) 131016 (196608)) 65600 (131016)) 262192 (65536)) 327672 (ra)) 196760 (0)) 196752 (262144)) 196744 (gfl)) 196736 (ra)) 196728 (gr15)) 196720 (gr14)) 196712 (gr13)) 196704 (gr12)) 196696 (327680)) 196688 (gr10)) 196680 (gr9)) 196672 (gr8)) 196664 (327680)) 196656 (grbp))⟩ : Machine) := by
    simp only [pushRbp, pushv]
    all_goals norm_num [Machine.mk.injEq, wrap, W, store, setSlot, scenarioMem, hostStart, KFS, HOSTRSP, FRAME, UFS, GUESTRSP]
  rw [e18]
  have e19 : pushRdi ((⟨(grax), (grbx), (grcx), (grdx), (grsi), (grdi), (grbp), (196656), (gr8), (gr9), (gr10), (327680), (gr12), (gr13), (gr14), (gr15), (vrip), (gfl), (262144), (store (store (store (store (store (store (store (store (store (store (store (store (store (store (store (store (store (store (store (store (store (store (store (store (scenarioMem c.mem vrax vrbx vrcx vrdx vrsi vrdi vrbp vrsp vr8 vr9 vr10 vr11 vr12 vr13 vr14 vr15 vrip vrfl 262144 vgs raHost) 131064 (c.r15)) 131056 (c.r14)) 131048 (c.r13)) 131040 (c.r12)) 131032 (c.rbp)) 131024 (c.rbx)) 131016 (196608)) 65600 (131016)) 262192 (65536)) 327672 (ra)) 196760 (0)) 196752 (262144)) 196744 (gfl)) 196736 (ra)) 196728 (gr15)) 196720 (gr14)) 196712 (gr13)) 196704 (gr12)) 196696 (327680)) 196688 (gr10)) 196680 (gr9)) 196672 (gr8)) 196664 (327680)) 196656 (grbp))⟩ : Machine)) = (⟨(grax), (grbx), (grcx), (grdx), (grsi), (grdi), (grbp), (196648), (gr8), (gr9), (gr10), (327680), (gr12), (gr13), (gr14), (gr15), (vrip), (gfl), (262144), (store (store (store (store (store (store (store (store (store (store (store (store (store (store (store (store (store (store (store (store (store (store (store (store (store (scenarioMem c.mem vrax vrbx vrcx vrdx vrsi vrdi vrbp vrsp vr8 vr9 vr10 vr11 vr12 vr13 vr14 vr15 vrip vrfl 262144 vgs raHost) 131064 (c.r15)) 131056 (c.r14)) 131048 (c.r13)) 131040 (c.r12)) 131032 (c.rbp)) 131024 (c.rbx)) 131016 (196608)) 65600 (131016)) 262192 (65536)) 327672 (ra)) 196760 (0)) 196752 (262144)) 196744 (gfl)) 196736 (ra)) 196728 (gr15)) 196720 (gr14)) 196712 (gr13)) 196704 (gr12)) 196696 (327680)) 196688 (gr10)) 196680 (gr9)) 196672 (gr8)) 196664 (327680)) 196656 (grbp)) 196648 (grdi))⟩ : Machine) := by
    simp only [pushRdi, pushv]
    all_goals norm_num [Machine.mk.injEq, wrap, W, store, setSlot, scenarioMem, hostStart, KFS, HOSTRSP, FRAME, UFS, GUESTRSP]
  rw [e19]
  have e20 : pushRsi ((⟨(grax), (grbx), (grcx), (grdx), (grsi), (grdi), (grbp), (196648), (gr8), (gr9), (gr10), (327680), (gr12), (gr13), (gr14), (gr15), (vrip), (gfl), (262144), (store (store (store (store (store (store (store (store (store (store (store (store (store (store (store (store (store (store (store (store (store (store (store (store (store (scenarioMem c.mem vrax vrbx vrcx vrdx vrsi vrdi vrbp vrsp vr8 vr9 vr10 vr11 vr12 vr13 vr14 vr15 vrip vrfl 262144 vgs raHost) 131064 (c.r15)) 131056 (c.r14)) 131048 (c.r13)) 131040 (c.r12)) 131032 (c.rbp)) 131024 (c.rbx)) 131016 (196608)) 65600 (131016)) 262192 (65536)) 327672 (ra)) 196760 (0)) 196752 (262144)) 196744 (gfl)) 196736 (ra)) 196728 (gr15)) 196720 (gr14)) 196712 (gr13)) 196704 (gr12)) 196696 (327680)) 196688 (gr10)) 196680 (gr9)) 196672 (gr8)) 196664 (327680)) 196656 (grbp)) 196648 (grdi))⟩ : Machine)) = (⟨(grax), (grbx), (grcx), (grdx), (grsi), (grdi), (grbp), (196640), (gr8), (gr9), (gr10), (327680), (gr12), (gr13), (gr14), (gr15), (vrip), (gfl), (262144), (store (store (store (store (store (store (store (store (store (store (store (store (store (store (store (store (store (store (store (store (store (store (store (store (store (store (scenarioMem c.mem vrax vrbx vrcx vrdx vrsi vrdi vrbp vrsp vr8 vr9 vr10 vr11 vr12 vr13 vr14 vr15 vrip vrfl 262144 vgs raHost) 131064 (c.r15)) 131056 (c.r14)) 131048 (c.r13)) 131040 (c.r12)) 131032 (c.rbp)) 131024 (c.rbx)) 131016 (196608)) 65600 (131016)) 262192 (65536)) 327672 (ra)) 196760 (0)) 196752 (262144)) 196744 (gfl)) 196736 (ra)) 196728 (gr15)) 196720 (gr14)) 196712 (gr13)) 196704 (gr12)) 196696 (327680)) 196688 (gr10)) 196680 (gr9)) 196672 (gr8)) 196664 (327680)) 196656 (grbp)) 196648 (grdi)) 196640 (grsi))⟩ : Machine) := by
    simp only [pushRsi, pushv]
    all_goals norm_num [Machine.mk.injEq, wrap, W, store, setSlot, scenarioMem, hostStart, KFS, HOSTRSP, FRAME, UFS, GUESTRSP]
  rw [e20]
  have e21 : pushRdx ((⟨(grax), (grbx), (grcx), (grdx), (grsi), (grdi), (grbp), (196640), (gr8), (gr9), (gr10), (327680), (gr12), (gr13), (gr14), (gr15), (vrip), (gfl), (262144), (store (store (store (store (store (store (store (store (store (store (store (store (store (store (store (store (store (store (store (store (store (store (store (store (store (store (scenarioMem c.mem vrax vrbx vrcx vrdx vrsi vrdi vrbp vrsp vr8 vr9 vr10 vr11 vr12 vr13 vr14 vr15 vrip vrfl 262144 vgs raHost) 131064 (c.r15)) 131056 (c.r14)) 131048 (c.r13)) 131040 (c.r12)) 131032 (c.rbp)) 131024 (c.rbx)) 131016 (196608)) 65600 (131016)) 262192 (65536)) 327672 (ra)) 196760 (0)) 196752 (262144)) 196744 (gfl)) 196736 (ra)) 196728 (gr15)) 196720 (gr14)) 196712 (gr13)) 196704 (gr12)) 196696 (327680)) 196688 (gr10)) 196680 (gr9)) 196672 (gr8)) 196664 (327680)) 196656 (grbp)) 196648 (grdi)) 196640 (grsi))⟩ : Machine)) = (⟨(grax), (grbx), (grcx), (grdx), (grsi), (grdi), (grbp), (196632), (gr8), (gr9), (gr10), (327680), (gr12), (gr13), (gr14), (gr15), (vrip), (gfl), (262144), (store (store (store (store (store (store (store (store (store (store (store (store (store (store (store (store (store (store (store (store (store (store (store (store (store (store (store (scenarioMem c.mem vrax vrbx vrcx vrdx vrsi vrdi vrbp vrsp vr8 vr9 vr10 vr11 vr12 vr13 vr14 vr15 vrip vrfl 262144 vgs raHost) 131064 (c.r15)) 131056 (c.r14)) 131048 (c.r13)) 131040 (c.r12)) 131032 (c.rbp)) 131024 (c.rbx)) 131016 (196608)) 65600 (131016)) 262192 (65536)) 327672 (ra)) 196760 (0)) 196752 (262144)) 196744 (gfl)) 196736 (ra)) 196728 (gr15)) 196720 (gr14)) 196712 (gr13)) 196704 (gr12)) 196696 (327680)) 196688 (gr10)) 196680 (gr9)) 196672 (gr8)) 196664 (327680)) 196656 (grbp)) 196648 (grdi)) 196640 (grsi)) 196632 (grdx))⟩ : Machine) := by
    simp only [pushRdx, pushv]
    all_goals norm_num [Machine.mk.injEq, wrap, W, store, setSlot, scenarioMem, hostStart, KFS, HOSTRSP, FRAME, UFS, GUESTRSP]
  rw [e21]
  have e22 : pushRcx ((⟨(grax), (grbx), (grcx), (grdx), (grsi), (grdi), (grbp), (196632), (gr8), (gr9), (gr10), (327680), (gr12), (gr13), (gr14), (gr15), (vrip), (gfl), (262144), (store (store (store (store (store (store (store (store (store (store (store (store (store (store (store (store (store (store (store (store (store (store (store (store (store (store (store (scenarioMem c.mem vrax vrbx vrcx vrdx vrsi vrdi vrbp vrsp vr8 vr9 vr10 vr11 vr12 vr13 vr14 vr15 vrip vrfl 262144 vgs raHost) 131064 (c.r15)) 131056 (c.r14)) 131048 (c.r13)) 131040 (c.r12)) 131032 (c.rbp)) 131024 (c.rbx)) 131016 (196608)) 65600 (131016)) 262192 (65536)) 327672 (ra)) 196760 (0)) 196752 (262144)) 196744 (gfl)) 196736 (ra)) 196728 (gr15)) 196720 (gr14)) 196712 (gr13)) 196704 (gr12)) 196696 (327680)) 196688 (gr10)) 196680 (gr9)) 196672 (gr8)) 196664 (327680)) 196656 (grbp)) 196648 (grdi)) 196640 (grsi)) 196632 (grdx))⟩ : Machine)) = (⟨(grax), (grbx), (grcx), (grdx), (grsi), (grdi), (grbp), (196624), (gr8), (gr9), (gr10), (327680), (gr12), (gr13), (gr14), (gr15), (vrip), (gfl), (262144), (store (store (store (store (store (store (store (store (store (store (store (store (store (store (store (store (store (store (store (store (store (store (store (store (store (store (store (store (scenarioMem c.mem vrax vrbx vrcx vrdx vrsi vrdi vrbp vrsp vr8 vr9 vr10 vr11 vr12 vr13 vr14 vr15 vrip vrfl 262144 vgs raHost) 131064 (c.r15)) 131056 (c.r14)) 131048 (c.r13)) 131040 (c.r12)) 131032 (c.rbp)) 131024 (c.rbx)) 131016 (196608)) 65600 (131016)) 262192 (65536)) 327672 (ra)) 196760 (0)) 196752 (262144)) 196744 (gfl)) 196736 (ra)) 196728 (gr15)) 196720 (gr14)) 196712 (gr13)) 196704 (gr12)) 196696 (327680)) 196688 (gr10)) 196680 (gr9)) 196672 (gr8)) 196664 (327680)) 196656 (grbp)) 196648 (grdi)) 196640 (grsi)) 196632 (grdx)) 196624 (grcx))⟩ : Machine) := by
    simp only [pushRcx, pushv]
    all_goals norm_num [Machine.mk.injEq, wrap, W, store, setSlot, scenarioMem, hostStart, KFS, HOSTRSP, FRAME, UFS, GUESTRSP]
  rw [e22]
  have e23 : pushRbx ((⟨(grax), (grbx), (grcx), (grdx), (grsi), (grdi), (grbp), (196624), (gr8), (gr9), (gr10), (327680), (gr12), (gr13), (gr14), (gr15), (vrip), (gfl), (262144), (store (store (store (store (store (store (store (store (store (store (store (store (store (store (store (store (store (store (store (store (store (store (store (store (store (store (store (store (scenarioMem c.mem vrax vrbx vrcx vrdx vrsi vrdi vrbp vrsp vr8 vr9 vr10 vr11 vr12 vr13 vr14 vr15 vrip vrfl 262144 vgs raHost) 131064 (c.r15)) 131056 (c.r14)) 131048 (c.r13)) 131040 (c.r12)) 131032 (c.rbp)) 131024 (c.rbx)) 131016 (196608)) 65600 (131016)) 262192 (65536)) 327672 (ra)) 196760 (0)) 196752 (262144)) 196744 (gfl)) 196736 (ra)) 196728 (gr15)) 196720 (gr14)) 196712 (gr13)) 196704 (gr12)) 196696 (327680)) 196688 (gr10)) 196680 (gr9)) 196672 (gr8)) 196664 (327680)) 196656 (grbp)) 196648 (grdi)) 196640 (grsi)) 196632 (grdx)) 196624 (grcx))⟩ : Machine)) = (⟨(grax), (grbx), (grcx), (grdx), (grsi), (grdi), (grbp), (196616), (gr8), (gr9), (gr10), (327680), (gr12), (gr13), (gr14), (gr15), (vrip), (gfl), (262144), (store (store (store (store (store (store (store (store (store (store (store (store (store (store (store (store (store (store (store (store (store (store (store (store (store (store (store (store (store (scenarioMem c.mem vrax vrbx vrcx vrdx vrsi vrdi vrbp vrsp vr8 vr9 vr10 vr11 vr12 vr13 vr14 vr15 vrip vrfl 262144 vgs raHost) 131064 (c.r15)) 131056 (c.r14)) 131048 (c.r13)) 131040 (c.r12)) 131032 (c.rbp)) 131024 (c.rbx)) 131016 (196608)) 65600 (131016)) 262192 (65536)) 327672 (ra)) 196760 (0)) 196752 (262144)) 196744 (gfl)) 196736 (ra)) 196728 (gr15)) 196720 (gr14)) 196712 (gr13)) 196704 (gr12)) 196696 (327680)) 196688 (gr10)) 196680 (gr9)) 196672 (gr8)) 196664 (327680)) 196656 (grbp)) 196648 (grdi)) 196640 (grsi)) 196632 (grdx)) 196624 (grcx)) 196616 (grbx))⟩ : Machine) := by
    simp only [pushRbx, pushv]
    all_goals norm_num [Machine.mk.injEq, wrap, W, store, setSlot, scenarioMem, hostStart, KFS, HOSTRSP, FRAME, UFS, GUESTRSP]
  rw [e23]
  have e24 : pushRax ((⟨(grax), (grbx), (grcx), (grdx), (grsi), (grdi), (grbp), (196616), (gr8), (gr9), (gr10), (327680), (gr12), (gr13), (gr14), (gr15), (vrip), (gfl), (262144), (store (store (store (store (store (store (store (store (store (store (store (store (store (store (store (store (store (store (store (store (store (store (store (store (store (store (store (store (store (scenarioMem c.mem vrax vrbx vrcx vrdx vrsi vrdi vrbp vrsp vr8 vr9 vr10 vr11 vr12 vr13 vr14 vr15 vrip vrfl 262144 vgs raHost) 131064 (c.r15)) 131056 (c.r14)) 131048 (c.r13)) 131040 (c.r12)) 131032 (c.rbp)) 131024 (c.rbx)) 131016 (196608)) 65600 (131016)) 262192 (65536)) 327672 (ra)) 196760 (0)) 196752 (262144)) 196744 (gfl)) 196736 (ra)) 196728 (gr15)) 196720 (gr14)) 196712 (gr13)) 196704 (gr12)) 196696 (327680)) 196688 (gr10)) 196680 (gr9)) 196672 (gr8)) 196664 (327680)) 196656 (grbp)) 196648 (grdi)) 196640 (grsi)) 196632 (grdx)) 196624 (grcx)) 196616 (grbx))⟩ : Machine)) = (⟨(grax), (grbx), (grcx), (grdx), (grsi), (grdi), (grbp), (196608), (gr8), (gr9), (gr10), (327680), (gr12), (gr13), (gr14), (gr15), (vrip), (gfl), (262144), (store (store (store (store (store (store (store (store (store (store (store (store (store (store (store (store (store (store (store (store (store (store (store (store (store (store (store (store (store (store (scenarioMem c.mem vrax vrbx vrcx vrdx vrsi vrdi vrbp vrsp vr8 vr9 vr10 vr11 vr12 vr13 vr14 vr15 vrip vrfl 262144 vgs raHost) 131064 (c.r15)) 131056 (c.r14)) 131048 (c.r13)) 131040 (c.r12)) 131032 (c.rbp)) 131024 (c.rbx)) 131016 (196608)) 65600 (131016)) 262192 (65536)) 327672 (ra)) 196760 (0)) 196752 (262144)) 196744 (gfl)) 196736 (ra)) 196728 (gr15)) 196720 (gr14)) 196712 (gr13)) 196704 (gr12)) 196696 (327680)) 196688 (gr10)) 196680 (gr9)) 196672 (gr8)) 196664 (327680)) 196656 (grbp)) 196648 (grdi)) 196640 (grsi)) 196632 (grdx)) 196624 (grcx)) 196616 (grbx)) 196608 (grax))⟩ : Machine) := by
    simp only [pushRax, pushv]
    all_goals norm_num [Machine.mk.injEq, wrap, W, store, setSlot, scenarioMem, hostStart, KFS, HOSTRSP, FRAME, UFS, GUESTRSP]
  rw [e24]
  have e25 : SWITCH_TO_KERNEL_STACK ((⟨(grax), (grbx), (grcx), (grdx), (grsi), (grdi), (grbp), (196608), (gr8), (gr9), (gr10), (327680), (gr12), (gr13), (gr14), (gr15), (vrip), (gfl), (262144), (store (store (store (store (store (store (store (store (store (store (store (store (store (store (store (store (store (store (store (store (store (store (store (store (store (store (store (store (store (store (scenarioMem c.mem vrax vrbx vrcx vrdx vrsi vrdi vrbp vrsp vr8 vr9 vr10 vr11 vr12 vr13 vr14 vr15 vrip vrfl 262144 vgs raHost) 131064 (c.r15)) 131056 (c.r14)) 131048 (c.r13)) 131040 (c.r12)) 131032 (c.rbp)) 131024 (c.rbx)) 131016 (196608)) 65600 (131016)) 262192 (65536)) 327672 (ra)) 196760 (0)) 196752 (262144)) 196744 (gfl)) 196736 (ra)) 196728 (gr15)) 196720 (gr14)) 196712 (gr13)) 196704 (gr12)) 196696 (327680)) 196688 (gr10)) 196680 (gr9)) 196672 (gr8)) 196664 (327680)) 196656 (grbp)) 196648 (grdi)) 196640 (grsi)) 196632 (grdx)) 196624 (grcx)) 196616 (grbx)) 196608 (grax))⟩ : Machine)) = (⟨(grax), (grbx), (grcx), (grdx), (grsi), (grdi), (grbp), (131016), (gr8), (gr9), (gr10), (327680), (gr12), (gr13), (gr14), (gr15), (vrip), (gfl), (262144), (store (store (store (store (store (store (store (store (store (store (store (store (store (store (store (store (store (store (store (store (store (store (store (store (store (store (store (store (store (store (scenarioMem c.mem vrax vrbx vrcx vrdx vrsi vrdi vrbp vrsp vr8 vr9 vr10 vr11 vr12 vr13 vr14 vr15 vrip vrfl 262144 vgs raHost) 131064 (c.r15)) 131056 (c.r14)) 131048 (c.r13)) 131040 (c.r12)) 131032 (c.rbp)) 131024 (c.rbx)) 131016 (196608)) 65600 (131016)) 262192 (65536)) 327672 (ra)) 196760 (0)) 196752 (262144)) 196744 (gfl)) 196736 (ra)) 196728 (gr15)) 196720 (gr14)) 196712 (gr13)) 196704 (gr12)) 196696 (327680)) 196688 (gr10)) 196680 (gr9)) 196672 (gr8)) 196664 (327680)) 196656 (grbp)) 196648 (grdi)) 196640 (grsi)) 196632 (grdx)) 196624 (grcx)) 196616 (grbx)) 196608 (grax))⟩ : Machine) := by
    simp only [SWITCH_TO_KERNEL_STACK, pushv]
    all_goals norm_num [Machine.mk.injEq, wrap, W, store, setSlot, scenarioMem, hostStart, KFS, HOSTRSP, FRAME, UFS, GUESTRSP]
  rw [e25]
  have e26 : popRbx ((⟨(grax), (grbx), (grcx), (grdx), (grsi), (grdi), (grbp), (131016), (gr8), (gr9), (gr10), (327680), (gr12), (gr13), (gr14), (gr15), (vrip), (gfl), (262144), (store (store (store (store (store (store (store (store (store (store (store (store (store (store (store (store (store (store (store (store (store (store (store (store (store (store (store (store (store (store (scenarioMem c.mem vrax vrbx vrcx vrdx vrsi vrdi vrbp vrsp vr8 vr9 vr10 vr11 vr12 vr13 vr14 vr15 vrip vrfl 262144 vgs raHost) 131064 (c.r15)) 131056 (c.r14)) 131048 (c.r13)) 131040 (c.r12)) 131032 (c.rbp)) 131024 (c.rbx)) 131016 (196608)) 65600 (131016)) 262192 (65536)) 327672 (ra)) 196760 (0)) 196752 (262144)) 196744 (gfl)) 196736 (ra)) 196728 (gr15)) 196720 (gr14)) 196712 (gr13)) 196704 (gr12)) 196696 (327680)) 196688 (gr10)) 196680 (gr9)) 196672 (gr8)) 196664 (327680)) 196656 (grbp)) 196648 (grdi)) 196640 (grsi)) 196632 (grdx)) 196624 (grcx)) 196616 (grbx)) 196608 (grax))⟩ : Machine)) = (⟨(grax), (196608), (grcx), (grdx), (grsi), (grdi), (grbp), (131024), (gr8), (gr9), (gr10), (327680), (gr12), (gr13), (gr14), (gr15), (vrip), (gfl), (262144), (store (store (store (store (store (store (store (store (store (store (store (store (store (store (store (store (store (store (store (store (store (store (store (store (store (store (store (store (store (store (scenarioMem c.mem vrax vrbx vrcx vrdx vrsi vrdi vrbp vrsp vr8 vr9 vr10 vr11 vr12 vr13 vr14 vr15 vrip vrfl 262144 vgs raHost) 131064 (c.r15)) 131056 (c.r14)) 131048 (c.r13)) 131040 (c.r12)) 131032 (c.rbp)) 131024 (c.rbx)) 131016 (196608)) 65600 (131016)) 262192 (65536)) 327672 (ra)) 196760 (0)) 196752 (262144)) 196744 (gfl)) 196736 (ra)) 196728 (gr15)) 196720 (gr14)) 196712 (gr13)) 196704 (gr12)) 196696 (327680)) 196688 (gr10)) 196680 (gr9)) 196672 (gr8)) 196664 (327680)) 196656 (grbp)) 196648 (grdi)) 196640 (grsi)) 196632 (grdx)) 196624 (grcx)) 196616 (grbx)) 196608 (grax))⟩ : Machine) := by
    simp only [popRbx, pushv]
    all_goals norm_num [Machine.mk.injEq, wrap, W, store, setSlot, scenarioMem, hostStart, KFS, HOSTRSP, FRAME, UFS, GUESTRSP]
  rw [e26]
  have e27 : popRbx ((⟨(grax), (196608), (grcx), (grdx), (grsi), (grdi), (grbp), (131024), (gr8), (gr9), (gr10), (327680), (gr12), (gr13), (gr14), (gr15), (vrip), (gfl), (262144), (store (store (store (store (store (store (store (store (store (store (store (store (store (store (store (store (store (store (store (store (store (store (store (store (store (store (store (store (store (store (scenarioMem c.mem vrax vrbx vrcx vrdx vrsi vrdi vrbp vrsp vr8 vr9 vr10 vr11 vr12 vr13 vr14 vr15 vrip vrfl 262144 vgs raHost) 131064 (c.r15)) 131056 (c.r14)) 131048 (c.r13)) 131040 (c.r12)) 131032 (c.rbp)) 131024 (c.rbx)) 131016 (196608)) 65600 (131016)) 262192 (65536)) 327672 (ra)) 196760 (0)) 196752 (262144)) 196744 (gfl)) 196736 (ra)) 196728 (gr15)) 196720 (gr14)) 196712 (gr13)) 196704 (gr12)) 196696 (327680)) 196688 (gr10)) 196680 (gr9)) 196672 (gr8)) 196664 (327680)) 196656 (grbp)) 196648 (grdi)) 196640 (grsi)) 196632 (grdx)) 196624 (grcx)) 196616 (grbx)) 196608 (grax))⟩ : Machine)) = (⟨(grax), (c.rbx), (grcx), (grdx), (grsi), (grdi), (grbp), (131032), (gr8), (gr9), (gr10), (327680), (gr12), (gr13), (gr14), (gr15), (vrip), (gfl), (262144), (store (store (store (store (store (store (store (store (store (store (store (store (store (store (store (store (store (store (store (store (store (store (store (store (store (store (store (store (store (store (scenarioMem c.mem vrax vrbx vrcx vrdx vrsi vrdi vrbp vrsp vr8 vr9 vr10 vr11 vr12 vr13 vr14 vr15 vrip vrfl 262144 vgs raHost) 131064 (c.r15)) 131056 (c.r14)) 131048 (c.r13)) 131040 (c.r12)) 131032 (c.rbp)) 131024 (c.rbx)) 131016 (196608)) 65600 (131016)) 262192 (65536)) 327672 (ra)) 196760 (0)) 196752 (262144)) 196744 (gfl)) 196736 (ra)) 196728 (gr15)) 196720 (gr14)) 196712 (gr13)) 196704 (gr12)) 196696 (327680)) 196688 (gr10)) 196680 (gr9)) 196672 (gr8)) 196664 (327680)) 196656 (grbp)) 196648 (grdi)) 196640 (grsi)) 196632 (grdx)) 196624 (grcx)) 196616 (grbx)) 196608 (grax))⟩ : Machine) := by
    simp only [popRbx, pushv]
    all_goals norm_num [Machine.mk.injEq, wrap, W, store, setSlot, scenarioMem, hostStart, KFS, HOSTRSP, FRAME, UFS, GUESTRSP]
  rw [e27]
  have e28 : popRbp ((⟨(grax), (c.rbx), (grcx), (grdx), (grsi), (grdi), (grbp), (131032), (gr8), (gr9), (gr10), (327680), (gr12), (gr13), (gr14), (gr15), (vrip), (gfl), (262144), (store (store (store (store (store (store (store (store (store (store (store (store (store (store (store (store (store (store (store (store (store (store (store (store (store (store (store (store (store (store (scenarioMem c.mem vrax vrbx vrcx vrdx vrsi vrdi vrbp vrsp vr8 vr9 vr10 vr11 vr12 vr13 vr14 vr15 vrip vrfl 262144 vgs raHost) 131064 (c.r15)) 131056 (c.r14)) 131048 (c.r13)) 131040 (c.r12)) 131032 (c.rbp)) 131024 (c.rbx)) 131016 (196608)) 65600 (131016)) 262192 (65536)) 327672 (ra)) 196760 (0)) 196752 (262144)) 196744 (gfl)) 196736 (ra)) 196728 (gr15)) 196720 (gr14)) 196712 (gr13)) 196704 (gr12)) 196696 (327680)) 196688 (gr10)) 196680 (gr9)) 196672 (gr8)) 196664 (327680)) 196656 (grbp)) 196648 (grdi)) 196640 (grsi)) 196632 (grdx)) 196624 (grcx)) 196616 (grbx)) 196608 (grax))⟩ : Machine)) = (⟨(grax), (c.rbx), (grcx), (grdx), (grsi), (grdi), (c.rbp), (131040), (gr8), (gr9), (gr10), (327680), (gr12), (gr13), (gr14), (gr15), (vrip), (gfl), (262144), (store (store (store (store (store (store (store (store (store (store (store (store (store (store (store (store (store (store (store (store (store (store (store (store (store (store (store (store (store (store (scenarioMem c.mem vrax vrbx vrcx vrdx vrsi vrdi vrbp vrsp vr8 vr9 vr10 vr11 vr12 vr13 vr14 vr15 vrip vrfl 262144 vgs raHost) 131064 (c.r15)) 131056 (c.r14)) 131048 (c.r13)) 131040 (c.r12)) 131032 (c.rbp)) 131024 (c.rbx)) 131016 (196608)) 65600 (131016)) 262192 (65536)) 327672 (ra)) 196760 (0)) 196752 (262144)) 196744 (gfl)) 196736 (ra)) 196728 (gr15)) 196720 (gr14)) 196712 (gr13)) 196704 (gr12)) 196696 (327680)) 196688 (gr10)) 196680 (gr9)) 196672 (gr8)) 196664 (327680)) 196656 (grbp)) 196648 (grdi)) 196640 (grsi)) 196632 (grdx)) 196624 (grcx)) 196616 (grbx)) 196608 (grax))⟩ : Machine) := by
    simp only [popRbp, pushv]
    all_goals norm_num [Machine.mk.injEq, wrap, W, store, setSlot, scenarioMem, hostStart, KFS, HOSTRSP, FRAME, UFS, GUESTRSP]
  rw [e28]
  have e29 : popR12 ((⟨(grax), (c.rbx), (grcx), (grdx), (grsi), (grdi), (c.rbp), (131040), (gr8), (gr9), (gr10), (327680), (gr12), (gr13), (gr14), (gr15), (vrip), (gfl), (262144), (store (store (store (store (store (store (store (store (store (store (store (store (store (store (store (store (store (store (store (store (store (store (store (store (store (store (store (store (store (store (scenarioMem c.mem vrax vrbx vrcx vrdx vrsi vrdi vrbp vrsp vr8 vr9 vr10 vr11 vr12 vr13 vr14 vr15 vrip vrfl 262144 vgs raHost) 131064 (c.r15)) 131056 (c.r14)) 131048 (c.r13)) 131040 (c.r12)) 131032 (c.rbp)) 131024 (c.rbx)) 131016 (196608)) 65600 (131016)) 262192 (65536)) 327672 (ra)) 196760 (0)) 196752 (262144)) 196744 (gfl)) 196736 (ra)) 196728 (gr15)) 196720 (gr14)) 196712 (gr13)) 196704 (gr12)) 196696 (327680)) 196688 (gr10)) 196680 (gr9)) 196672 (gr8)) 196664 (327680)) 196656 (grbp)) 196648 (grdi)) 196640 (grsi)) 196632 (grdx)) 196624 (grcx)) 196616 (grbx)) 196608 (grax))⟩ : Machine)) = (⟨(grax), (c.rbx), (grcx), (grdx), (grsi), (grdi), (c.rbp), (131048), (gr8), (gr9), (gr10), (327680), (c.r12), (gr13), (gr14), (gr15), (vrip), (gfl), (262144), (store (store (store (store (store (store (store (store (store (store (store (store (store (store (store (store (store (store (store (store (store (store (store (store (store (store (store (store (store (store (scenarioMem c.mem vrax vrbx vrcx vrdx vrsi vrdi vrbp vrsp vr8 vr9 vr10 vr11 vr12 vr13 vr14 vr15 vrip vrfl 262144 vgs raHost) 131064 (c.r15)) 131056 (c.r14)) 131048 (c.r13)) 131040 (c.r12)) 131032 (c.rbp)) 131024 (c.rbx)) 131016 (196608)) 65600 (131016)) 262192 (65536)) 327672 (ra)) 196760 (0)) 196752 (262144)) 196744 (gfl)) 196736 (ra)) 196728 (gr15)) 196720 (gr14)) 196712 (gr13)) 196704 (gr12)) 196696 (327680)) 196688 (gr10)) 196680 (gr9)) 196672 (gr8)) 196664 (327680)) 196656 (grbp)) 196648 (grdi)) 196640 (grsi)) 196632 (grdx)) 196624 (grcx)) 196616 (grbx)) 196608 (grax))⟩ : Machine) := by
    simp only [popR12, pushv]
    all_goals norm_num [Machine.mk.injEq, wrap, W, store, setSlot, scenarioMem, hostStart, KFS, HOSTRSP, FRAME, UFS, GUESTRSP]
  rw [e29]
  have e30 : popR13 ((⟨(grax), (c.rbx), (grcx), (grdx), (grsi), (grdi), (c.rbp), (131048), (gr8), (gr9), (gr10), (327680), (c.r12), (gr13), (gr14), (gr15), (vrip), (gfl), (262144), (store (store (store (store (store (store (store (store (store (store (store (store (store (store (store (store (store (store (store (store (store (store (store (store (store (store (store (store (store (store (scenarioMem c.mem vrax vrbx vrcx vrdx vrsi vrdi vrbp vrsp vr8 vr9 vr10 vr11 vr12 vr13 vr14 vr15 vrip vrfl 262144 vgs raHost) 131064 (c.r15)) 131056 (c.r14)) 131048 (c.r13)) 131040 (c.r12)) 131032 (c.rbp)) 131024 (c.rbx)) 131016 (196608)) 65600 (131016)) 262192 (65536)) 327672 (ra)) 196760 (0)) 196752 (262144)) 196744 (gfl)) 196736 (ra)) 196728 (gr15)) 196720 (gr14)) 196712 (gr13)) 196704 (gr12)) 196696 (327680)) 196688 (gr10)) 196680 (gr9)) 196672 (gr8)) 196664 (327680)) 196656 (grbp)) 196648 (grdi)) 196640 (grsi)) 196632 (grdx)) 196624 (grcx)) 196616 (grbx)) 196608 (grax))⟩ : Machine)) = (⟨(grax), (c.rbx), (grcx), (grdx), (grsi), (grdi), (c.rbp), (131056), (gr8), (gr9), (gr10), (327680), (c.r12), (c.r13), (gr14), (gr15), (vrip), (gfl), (262144), (store (store (store (store (store (store (store (store (store (store (store (store (store (store (store (store (store (store (store (store (store (store (store (store (store (store (store (store (store (store (scenarioMem c.mem vrax vrbx vrcx vrdx vrsi vrdi vrbp vrsp vr8 vr9 vr10 vr11 vr12 vr13 vr14 vr15 vrip vrfl 262144 vgs raHost) 131064 (c.r15)) 131056 (c.r14)) 131048 (c.r13)) 131040 (c.r12)) 131032 (c.rbp)) 131024 (c.rbx)) 131016 (196608)) 65600 (131016)) 262192 (65536)) 327672 (ra)) 196760 (0)) 196752 (262144)) 196744 (gfl)) 196736 (ra)) 196728 (gr15)) 196720 (gr14)) 196712 (gr13)) 196704 (gr12)) 196696 (327680)) 196688 (gr10)) 196680 (gr9)) 196672 (gr8)) 196664 (327680)) 196656 (grbp)) 196648 (grdi)) 196640 (grsi)) 196632 (grdx)) 196624 (grcx)) 196616 (grbx)) 196608 (grax))⟩ : Machine) := by
    simp only [popR13, pushv]
    all_goals norm_num [Machine.mk.injEq, wrap, W, store, setSlot, scenarioMem, hostStart, KFS, HOSTRSP, FRAME, UFS, GUESTRSP]
  rw [e30]
  have e31 : popR14 ((⟨(grax), (c.rbx), (grcx), (grdx), (grsi), (grdi), (c.rbp), (131056), (gr8), (gr9), (gr10), (327680), (c.r12), (c.r13), (gr14), (gr15), (vrip), (gfl), (262144), (store (store (store (store (store (store (store (store (store (store (store (store (store (store (store (store (store (store (store (store (store (store (store (store (store (store (store (store (store (store (scenarioMem c.mem vrax vrbx vrcx vrdx vrsi vrdi vrbp vrsp vr8 vr9 vr10 vr11 vr12 vr13 vr14 vr15 vrip vrfl 262144 vgs raHost) 131064 (c.r15)) 131056 (c.r14)) 131048 (c.r13)) 131040 (c.r12)) 131032 (c.rbp)) 131024 (c.rbx)) 131016 (196608)) 65600 (131016)) 262192 (65536)) 327672 (ra)) 196760 (0)) 196752 (262144)) 196744 (gfl)) 196736 (ra)) 196728 (gr15)) 196720 (gr14)) 196712 (gr13)) 196704 (gr12)) 196696 (327680)) 196688 (gr10)) 196680 (gr9)) 196672 (gr8)) 196664 (327680)) 196656 (grbp)) 196648 (grdi)) 196640 (grsi)) 196632 (grdx)) 196624 (grcx)) 196616 (grbx)) 196608 (grax))⟩ : Machine)) = (⟨(grax), (c.rbx), (grcx), (grdx), (grsi), (grdi), (c.rbp), (131064), (gr8), (gr9), (gr10), (327680), (c.r12), (c.r13), (c.r14), (gr15), (vrip), (gfl), (262144), (store (store (store (store (store (store (store (store (store (store (store (store (store (store (store (store (store (store (store (store (store (store (store (store (store (store (store (store (store (store (scenarioMem c.mem vrax vrbx vrcx vrdx vrsi vrdi vrbp vrsp vr8 vr9 vr10 vr11 vr12 vr13 vr14 vr15 vrip vrfl 262144 vgs raHost) 131064 (c.r15)) 131056 (c.r14)) 131048 (c.r13)) 131040 (c.r12)) 131032 (c.rbp)) 131024 (c.rbx)) 131016 (196608)) 65600 (131016)) 262192 (65536)) 327672 (ra)) 196760 (0)) 196752 (262144)) 196744 (gfl)) 196736 (ra)) 196728 (gr15)) 196720 (gr14)) 196712 (gr13)) 196704 (gr12)) 196696 (327680)) 196688 (gr10)) 196680 (gr9)) 196672 (gr8)) 196664 (327680)) 196656 (grbp)) 196648 (grdi)) 196640 (grsi)) 196632 (grdx)) 196624 (grcx)) 196616 (grbx)) 196608 (grax))⟩ : Machine) := by
    simp only [popR14, pushv]
    all_goals norm_num [Machine.mk.injEq, wrap, W, store, setSlot, scenarioMem, hostStart, KFS, HOSTRSP, FRAME, UFS, GUESTRSP]
  rw [e31]
  have e32 : popR15 ((⟨(grax), (c.rbx), (grcx), (grdx), (grsi), (grdi), (c.rbp), (131064), (gr8), (gr9), (gr10), (327680), (c.r12), (c.r13), (c.r14), (gr15), (vrip), (gfl), (262144), (store (store (store (store (store (store (store (store (store (store (store (store (store (store (store (store (store (store (store (store (store (store (store (store (store (store (store (store (store (store (scenarioMem c.mem vrax vrbx vrcx vrdx vrsi vrdi vrbp vrsp vr8 vr9 vr10 vr11 vr12 vr13 vr14 vr15 vrip vrfl 262144 vgs raHost) 131064 (c.r15)) 131056 (c.r14)) 131048 (c.r13)) 131040 (c.r12)) 131032 (c.rbp)) 131024 (c.rbx)) 131016 (196608)) 65600 (131016)) 262192 (65536)) 327672 (ra)) 196760 (0)) 196752 (262144)) 196744 (gfl)) 196736 (ra)) 196728 (gr15)) 196720 (gr14)) 196712 (gr13)) 196704 (gr12)) 196696 (327680)) 196688 (gr10)) 196680 (gr9)) 196672 (gr8)) 196664 (327680)) 196656 (grbp)) 196648 (grdi)) 196640 (grsi)) 196632 (grdx)) 196624 (grcx)) 196616 (grbx)) 196608 (grax))⟩ : Machine)) = (⟨(grax), (c.rbx), (grcx), (grdx), (grsi), (grdi), (c.rbp), (131072), (gr8), (gr9), (gr10), (327680), (c.r12), (c.r13), (c.r14), (c.r15), (vrip), (gfl), (262144), (store (store (store (store (store (store (store (store (store (store (store (store (store (store (store (store (store (store (store (store (store (store (store (store (store (store (store (store (store (store (scenarioMem c.mem vrax vrbx vrcx vrdx vrsi vrdi vrbp vrsp vr8 vr9 vr10 vr11 vr12 vr13 vr14 vr15 vrip vrfl 262144 vgs raHost) 131064 (c.r15)) 131056 (c.r14)) 131048 (c.r13)) 131040 (c.r12)) 131032 (c.rbp)) 131024 (c.rbx)) 131016 (196608)) 65600 (131016)) 262192 (65536)) 327672 (ra)) 196760 (0)) 196752 (262144)) 196744 (gfl)) 196736 (ra)) 196728 (gr15)) 196720 (gr14)) 196712 (gr13)) 196704 (gr12)) 196696 (327680)) 196688 (gr10)) 196680 (gr9)) 196672 (gr8)) 196664 (327680)) 196656 (grbp)) 196648 (grdi)) 196640 (grsi)) 196632 (grdx)) 196624 (grcx)) 196616 (grbx)) 196608 (grax))⟩ : Machine) := by
    simp only [popR15, pushv]
    all_goals norm_num [Machine.mk.injEq, wrap, W, store, setSlot, scenarioMem, hostStart, KFS, HOSTRSP, FRAME, UFS, GUESTRSP]
  rw [e32]
  have e33 : SWITCH_TO_KERNEL_FSBASE ((⟨(grax), (c.rbx), (grcx), (grdx), (grsi), (grdi), (c.rbp), (131072), (gr8), (gr9), (gr10), (327680), (c.r12), (c.r13), (c.r14), (c.r15), (vrip), (gfl), (262144), (store (store (store (store (store (store (store (store (store (store (store (store (store (store (store (store (store (store (store (store (store (store (store (store (store (store (store (store (store (store (scenarioMem c.mem vrax vrbx vrcx vrdx vrsi vrdi vrbp vrsp vr8 vr9 vr10 vr11 vr12 vr13 vr14 vr15 vrip vrfl 262144 vgs raHost) 131064 (c.r15)) 131056 (c.r14)) 131048 (c.r13)) 131040 (c.r12)) 131032 (c.rbp)) 131024 (c.rbx)) 131016 (196608)) 65600 (131016)) 262192 (65536)) 327672 (ra)) 196760 (0)) 196752 (262144)) 196744 (gfl)) 196736 (ra)) 196728 (gr15)) 196720 (gr14)) 196712 (gr13)) 196704 (gr12)) 196696 (327680)) 196688 (gr10)) 196680 (gr9)) 196672 (gr8)) 196664 (327680)) 196656 (grbp)) 196648 (grdi)) 196640 (grsi)) 196632 (grdx)) 196624 (grcx)) 196616 (grbx)) 196608 (grax))⟩ : Machine)) = (⟨(0), (c.rbx), (grcx), (grdx), (65536), (4098), (c.rbp), (131072), (gr8), (gr9), (gr10), (327680), (c.r12), (c.r13), (c.r14), (c.r15), (vrip), (gfl), (65536), (store (store (store (store (store (store (store (store (store (store (store (store (store (store (store (store (store (store (store (store (store (store (store (store (store (store (store (store (store (store (scenarioMem c.mem vrax vrbx vrcx vrdx vrsi vrdi vrbp vrsp vr8 vr9 vr10 vr11 vr12 vr13 vr14 vr15 vrip vrfl 262144 vgs raHost) 131064 (c.r15)) 131056 (c.r14)) 131048 (c.r13)) 131040 (c.r12)) 131032 (c.rbp)) 131024 (c.rbx)) 131016 (196608)) 65600 (131016)) 262192 (65536)) 327672 (ra)) 196760 (0)) 196752 (262144)) 196744 (gfl)) 196736 (ra)) 196728 (gr15)) 196720 (gr14)) 196712 (gr13)) 196704 (gr12)) 196696 (327680)) 196688 (gr10)) 196680 (gr9)) 196672 (gr8)) 196664 (327680)) 196656 (grbp)) 196648 (grdi)) 196640 (grsi)) 196632 (grdx)) 196624 (grcx)) 196616 (grbx)) 196608 (grax))⟩ : Machine) := by
    simp only [SWITCH_TO_KERNEL_FSBASE, pushv]
    all_goals norm_num [Machine.mk.injEq, wrap, W, store, setSlot, scenarioMem, hostStart, KFS, HOSTRSP, FRAME, UFS, GUESTRSP]
  rw [e33]
  have e34 : retInstr ((⟨(0), (c.rbx), (grcx), (grdx), (65536), (4098), (c.rbp), (131072), (gr8), (gr9), (gr10), (327680), (c.r12), (c.r13), (c.r14), (c.r15), (vrip), (gfl), (65536), (store (store (store (store (store (store (store (store (store (store (store (store (store (store (store (store (store (store (store (store (store (store (store (store (store (store (store (store (store (store (scenarioMem c.mem vrax vrbx vrcx vrdx vrsi vrdi vrbp vrsp vr8 vr9 vr10 vr11 vr12 vr13 vr14 vr15 vrip vrfl 262144 vgs raHost) 131064 (c.r15)) 131056 (c.r14)) 131048 (c.r13)) 131040 (c.r12)) 131032 (c.rbp)) 131024 (c.rbx)) 131016 (196608)) 65600 (131016)) 262192 (65536)) 327672 (ra)) 196760 (0)) 196752 (262144)) 196744 (gfl)) 196736 (ra)) 196728 (gr15)) 196720 (gr14)) 196712 (gr13)) 196704 (gr12)) 196696 (327680)) 196688 (gr10)) 196680 (gr9)) 196672 (gr8)) 196664 (327680)) 196656 (grbp)) 196648 (grdi)) 196640 (grsi)) 196632 (grdx)) 196624 (grcx)) 196616 (grbx)) 196608 (grax))⟩ : Machine)) = (⟨(0), (c.rbx), (grcx), (grdx), (65536), (4098), (c.rbp), (131080), (gr8), (gr9), (gr10), (327680), (c.r12), (c.r13), (c.r14), (c.r15), (raHost), (gfl), (65536), (store (store (store (store (store (store (store (store (store (store (store (store (store (store (store (store (store (store (store (store (store (store (store (store (store (store (store (store (store (store (scenarioMem c.mem vrax vrbx vrcx vrdx vrsi vrdi vrbp vrsp vr8 vr9 vr10 vr11 vr12 vr13 vr14 vr15 vrip vrfl 262144 vgs raHost) 131064 (c.r15)) 131056 (c.r14)) 131048 (c.r13)) 131040 (c.r12)) 131032 (c.rbp)) 131024 (c.rbx)) 131016 (196608)) 65600 (131016)) 262192 (65536)) 327672 (ra)) 196760 (0)) 196752 (262144)) 196744 (gfl)) 196736 (ra)) 196728 (gr15)) 196720 (gr14)) 196712 (gr13)) 196704 (gr12)) 196696 (327680)) 196688 (gr10)) 196680 (gr9)) 196672 (gr8)) 196664 (327680)) 196656 (grbp)) 196648 (grdi)) 196640 (grsi)) 196632 (grdx)) 196624 (grcx)) 196616 (grbx)) 196608 (grax))⟩ : Machine) := by
    simp only [retInstr, pushv]
    all_goals norm_num [Machine.mk.injEq, wrap, W, store, setSlot, scenarioMem, hostStart, KFS, HOSTRSP, FRAME, UFS, GUESTRSP]
  rw [e34]


theorem store_same (m : Nat → Nat) (a v : Nat) : store m a v a = v := by
  simp [store]

theorem store_ne (m : Nat → Nat) (a v b : Nat) (h : ¬ b = a) :
    store m a v b = m b := by
  simp [store, h]

theorem wrap_eq_of_lt (n : Nat) (h : n < W) : wrap n = n := Nat.mod_eq_of_lt h

/-- Claim C3: for every user context and every register state captured by
the guest entering through syscall_fn_entry, run_fncall leaves the frame
with trap_num = 0x100 and error_code = 0, regardless of what those two
fields held before the call and of what the guest did while running. -/
theorem c3_run_fncall_sentinel (ctx : UserContext) (captured : GeneralRegs) :
    (ctx.run_fncall captured).trap_num = 256 ∧
    (ctx.run_fncall captured).error_code = 0 :=
  ⟨rfl, rfl⟩

/-- Claim C1, evaluation of the code at the failing inputs: for every frame
content, after syscall_fn_return transfers control to the guest, the
guest-visible r11 equals the frame rip field (the staged instruction
pointer), not the frame r11 field: the final pop r11 of the routine loads
the rip slot over r11 (the source marks it FIXME), so the scratch value
leaks into the guest register file whenever the r11 and rip fields differ. -/
theorem c1_resume_r11_holds_rip (c : Machine)
    (vrax vrbx vrcx vrdx vrsi vrdi vrbp vrsp vr8 vr9 vr10 vr11 vr12 vr13
     vr14 vr15 vrip vrfl vgs raHost : Nat) :
    (syscall_fn_return (hostStart c vrax vrbx vrcx vrdx vrsi vrdi vrbp vrsp
      vr8 vr9 vr10 vr11 vr12 vr13 vr14 vr15 vrip vrfl 262144 vgs raHost)).r11
      = vrip ∧
    (syscall_fn_return (hostStart c vrax vrbx vrcx vrdx vrsi vrdi vrbp vrsp
      vr8 vr9 vr10 vr11 vr12 vr13 vr14 vr15 vrip vrfl 262144 vgs raHost)).rip
      = vrip := by
  rw [resume_eval]
  exact ⟨rfl, rfl⟩

/-- Claim C9: syscall_fn_return never hands control back through the call
mechanism: its final transfer is the jmp to the instruction pointer
restored from the frame, so the final rip equals the frame rip field for
every value raHost of the return address that the call pushed on the host
stack, and coincides for any two such values raHost and raHost2. -/
theorem c9_resume_jumps_to_frame_rip (c : Machine)
    (vrax vrbx vrcx vrdx vrsi vrdi vrbp vrsp vr8 vr9 vr10 vr11 vr12 vr13
     vr14 vr15 vrip vrfl vgs raHost raHost2 : Nat) :
    (syscall_fn_return (hostStart c vrax vrbx vrcx vrdx vrsi vrdi vrbp vrsp
      vr8 vr9 vr10 vr11 vr12 vr13 vr14 vr15 vrip vrfl 262144 vgs raHost)).rip
      = vrip ∧
    (syscall_fn_return (hostStart c vrax vrbx vrcx vrdx vrsi vrdi vrbp vrsp
      vr8 vr9 vr10 vr11 vr12 vr13 vr14 vr15 vrip vrfl 262144 vgs raHost)).rip
      = (syscall_fn_return (hostStart c vrax vrbx vrcx vrdx vrsi vrdi vrbp
      vrsp vr8 vr9 vr10 vr11 vr12 vr13 vr14 vr15 vrip vrfl 262144 vgs
      raHost2)).rip := by
  rw [resume_eval, resume_eval]
  exact ⟨rfl, rfl⟩

/-- Claim C8 counterexample: at a concrete instance whose trap frame sits
at address 196608, the value left in rax when syscall_fn_entry returns to
host code is not that frame address (it is the result 0 of the TLS base
system call), so rax does not hold a pointer or handle to the freshly
built trap frame. -/
theorem c8_counterexample :
    ¬ ((roundTrip zeroMachine 1 2 3 4 5 6 7 8 9 10 11 12 13 14 15 16 17 18
        20 21 31 32 33 34 35 36 37 38 39 40 41 42 43 44 45 46 47).rax
        = 196608) := by
  unfold roundTrip
  rw [entry_eval]
  norm_num

/-- Claim C8 amended: when syscall_fn_entry returns into host code, rax
holds the result of the TLS-base-switching system call (0 on success),
for every machine state; the host reaches the frame through the mutable
reference it already holds, not through a return value. -/
theorem c8_enter_rax_is_syscall_result (s : Machine) :
    (syscall_fn_entry s).rax = 0 := by
  simp [syscall_fn_entry]

/-- Claim C2 counterexample: in a concrete round trip in which the guest
sets r11 to 7 before calling syscall_fn_entry, the captured frame r11
field (offset 88 of the frame at 196608) is not 7: the routine clobbers
r11 with the recorded stack pointer before pushing it. -/
theorem c2_counterexample :
    ¬ ((roundTrip zeroMachine 1 2 3 4 5 6 7 8 9 10 11 12 13 14 15 16 17 18
        20 21 31 32 33 34 35 36 37 38 39 40 7 42 43 44 45 46 47).mem 196696
        = 7) := by
  unfold roundTrip
  rw [entry_eval]
  norm_num [store, setSlot, scenarioMem, wrap, W, KFS, HOSTRSP, FRAME, UFS,
    GUESTRSP]

/-- Claim C2 amended: for any initial frame contents, after Resume and
arbitrary guest register mutation, the frame newly captured by
syscall_fn_entry (invoked by a call with return address ra, executed with
the guest stack pointer at 327680) holds: rip field = ra, the address
immediately following the call; rsp field = 327680, the guest stack
pointer with the return address popped; and every general-purpose register
field except r11 equal to the guest-visible value of that register just
before the call; the r11 field instead holds the recorded stack pointer
327680 (the same value as the rsp field), because syscall_fn_entry
clobbers r11 on entry with lea r11, [rsp + 8]. -/
theorem c2_roundtrip_capture (c : Machine)
    (vrax vrbx vrcx vrdx vrsi vrdi vrbp vrsp vr8 vr9 vr10 vr11 vr12 vr13
     vr14 vr15 vrip vrfl vgs raHost : Nat)
    (grax grbx grcx grdx grsi grdi grbp gr8 gr9 gr10 gr11 gr12 gr13 gr14
     gr15 gfl ra : Nat) :
    (roundTrip c vrax vrbx vrcx vrdx vrsi vrdi vrbp vrsp vr8 vr9 vr10 vr11
      vr12 vr13 vr14 vr15 vrip vrfl vgs raHost grax grbx grcx grdx grsi
      grdi grbp gr8 gr9 gr10 gr11 gr12 gr13 gr14 gr15 gfl ra).mem 196736
      = ra ∧
    (roundTrip c vrax vrbx vrcx vrdx vrsi vrdi vrbp vrsp vr8 vr9 vr10 vr11
      vr12 vr13 vr14 vr15 vrip vrfl vgs raHost grax grbx grcx grdx grsi
      grdi grbp gr8 gr9 gr10 gr11 gr12 gr13 gr14 gr15 gfl ra).mem 196664
      = 327680 ∧
    (roundTrip c vrax vrbx vrcx vrdx vrsi vrdi vrbp vrsp vr8 vr9 vr10 vr11
      vr12 vr13 vr14 vr15 vrip vrfl vgs raHost grax grbx grcx grdx grsi
      grdi grbp gr8 gr9 gr10 gr11 gr12 gr13 gr14 gr15 gfl ra).mem 196608
      = grax ∧
    (roundTrip c vrax vrbx vrcx vrdx vrsi vrdi vrbp vrsp vr8 vr9 vr10 vr11
      vr12 vr13 vr14 vr15 vrip vrfl vgs raHost grax grbx grcx grdx grsi
      grdi grbp gr8 gr9 gr10 gr11 gr12 gr13 gr14 gr15 gfl ra).mem 196616
      = grbx ∧
    (roundTrip c vrax vrbx vrcx vrdx vrsi vrdi vrbp vrsp vr8 vr9 vr10 vr11
      vr12 vr13 vr14 vr15 vrip vrfl vgs raHost grax grbx grcx grdx grsi
      grdi grbp gr8 gr9 gr10 gr11 gr12 gr13 gr14 gr15 gfl ra).mem 196624
      = grcx ∧
    (roundTrip c vrax vrbx vrcx vrdx vrsi vrdi vrbp vrsp vr8 vr9 vr10 vr11
      vr12 vr13 vr14 vr15 vrip vrfl vgs raHost grax grbx grcx grdx grsi
      grdi grbp gr8 gr9 gr10 gr11 gr12 gr13 gr14 gr15 gfl ra).mem 196632
      = grdx ∧
    (roundTrip c vrax vrbx vrcx vrdx vrsi vrdi vrbp vrsp vr8 vr9 vr10 vr11
      vr12 vr13 vr14 vr15 vrip vrfl vgs raHost grax grbx grcx grdx grsi
      grdi grbp gr8 gr9 gr10 gr11 gr12 gr13 gr14 gr15 gfl ra).mem 196640
      = grsi ∧
    (roundTrip c vrax vrbx vrcx vrdx vrsi vrdi vrbp vrsp vr8 vr9 vr10 vr11
      vr12 vr13 vr14 vr15 vrip vrfl vgs raHost grax grbx grcx grdx grsi
      grdi grbp gr8 gr9 gr10 gr11 gr12 gr13 gr14 gr15 gfl ra).mem 196648
      = grdi ∧
    (roundTrip c vrax vrbx vrcx vrdx vrsi vrdi vrbp vrsp vr8 vr9 vr10 vr11
      vr12 vr13 vr14 vr15 vrip vrfl vgs raHost grax grbx grcx grdx grsi
      grdi grbp gr8 gr9 gr10 gr11 gr12 gr13 gr14 gr15 gfl ra).mem 196656
      = grbp ∧
    (roundTrip c vrax vrbx vrcx vrdx vrsi vrdi vrbp vrsp vr8 vr9 vr10 vr11
      vr12 vr13 vr14 vr15 vrip vrfl vgs raHost grax grbx grcx grdx grsi
      grdi grbp gr8 gr9 gr10 gr11 gr12 gr13 gr14 gr15 gfl ra).mem 196672
      = gr8 ∧
    (roundTrip c vrax vrbx vrcx vrdx vrsi vrdi vrbp vrsp vr8 vr9 vr10 vr11
      vr12 vr13 vr14 vr15 vrip vrfl vgs raHost grax grbx grcx grdx grsi
      grdi grbp gr8 gr9 gr10 gr11 gr12 gr13 gr14 gr15 gfl ra).mem 196680
      = gr9 ∧
    (roundTrip c vrax vrbx vrcx vrdx vrsi vrdi vrbp vrsp vr8 vr9 vr10 vr11
      vr12 vr13 vr14 vr15 vrip vrfl vgs raHost grax grbx grcx grdx grsi
      grdi grbp gr8 gr9 gr10 gr11 gr12 gr13 gr14 gr15 gfl ra).mem 196688
      = gr10 ∧
    (roundTrip c vrax vrbx vrcx vrdx vrsi vrdi vrbp vrsp vr8 vr9 vr10 vr11
      vr12 vr13 vr14 vr15 vrip vrfl vgs raHost grax grbx grcx grdx grsi
      grdi grbp gr8 gr9 gr10 gr11 gr12 gr13 gr14 gr15 gfl ra).mem 196696
      = 327680 ∧
    (roundTrip c vrax vrbx vrcx vrdx vrsi vrdi vrbp vrsp vr8 vr9 vr10 vr11
      vr12 vr13 vr14 vr15 vrip vrfl vgs raHost grax grbx grcx grdx grsi
      grdi grbp gr8 gr9 gr10 gr11 gr12 gr13 gr14 gr15 gfl ra).mem 196704
      = gr12 ∧
    (roundTrip c vrax vrbx vrcx vrdx vrsi vrdi vrbp vrsp vr8 vr9 vr10 vr11
      vr12 vr13 vr14 vr15 vrip vrfl vgs raHost grax grbx grcx grdx grsi
      grdi grbp gr8 gr9 gr10 gr11 gr12 gr13 gr14 gr15 gfl ra).mem 196712
      = gr13 ∧
    (roundTrip c vrax vrbx vrcx vrdx vrsi vrdi vrbp vrsp vr8 vr9 vr10 vr11
      vr12 vr13 vr14 vr15 vrip vrfl vgs raHost grax grbx grcx grdx grsi
      grdi grbp gr8 gr9 gr10 gr11 gr12 gr13 gr14 gr15 gfl ra).mem 196720
      = gr14 ∧
    (roundTrip c vrax vrbx vrcx vrdx vrsi vrdi vrbp vrsp vr8 vr9 vr10 vr11
      vr12 vr13 vr14 vr15 vrip vrfl vgs raHost grax grbx grcx grdx grsi
      grdi grbp gr8 gr9 gr10 gr11 gr12 gr13 gr14 gr15 gfl ra).mem 196728
      = gr15 ∧
    (roundTrip c vrax vrbx vrcx vrdx vrsi vrdi vrbp vrsp vr8 vr9 vr10 vr11
      vr12 vr13 vr14 vr15 vrip vrfl vgs raHost grax grbx grcx grdx grsi
      grdi grbp gr8 gr9 gr10 gr11 gr12 gr13 gr14 gr15 gfl ra).mem 196744
      = gfl := by
  unfold roundTrip
  rw [entry_eval]
  refine ⟨?_, ?_, ?_, ?_, ?_, ?_, ?_, ?_, ?_, ?_, ?_, ?_, ?_, ?_, ?_, ?_,
    ?_, ?_⟩ <;>
    norm_num [store, setSlot, scenarioMem, wrap, W, KFS, HOSTRSP, FRAME,
      UFS, GUESTRSP]

/-- Claim C6: across a Resume and the next Enter, the host callee-saved
registers and stack pointer are preserved. Resume pushes r15 r14 r13 r12
rbp rbx (then rdi) onto the host stack at descending addresses; the next
Enter pops those slots back in mirrored order, so when syscall_fn_entry
returns into host code, rbx rbp r12 r13 r14 r15 hold the host values from
before the call to syscall_fn_return, rsp is the post-return host stack
pointer 131080, and rip is the host return address. -/
theorem c6_callee_saved_round_trip (c : Machine)
    (vrax vrbx vrcx vrdx vrsi vrdi vrbp vrsp vr8 vr9 vr10 vr11 vr12 vr13
     vr14 vr15 vrip vrfl vgs raHost : Nat)
    (grax grbx grcx grdx grsi grdi grbp gr8 gr9 gr10 gr11 gr12 gr13 gr14
     gr15 gfl ra : Nat) :
    (syscall_fn_return (hostStart c vrax vrbx vrcx vrdx vrsi vrdi vrbp vrsp
      vr8 vr9 vr10 vr11 vr12 vr13 vr14 vr15 vrip vrfl 262144 vgs
      raHost)).mem 131064 = c.r15 ∧
    (syscall_fn_return (hostStart c vrax vrbx vrcx vrdx vrsi vrdi vrbp vrsp
      vr8 vr9 vr10 vr11 vr12 vr13 vr14 vr15 vrip vrfl 262144 vgs
      raHost)).mem 131056 = c.r14 ∧
    (syscall_fn_return (hostStart c vrax vrbx vrcx vrdx vrsi vrdi vrbp vrsp
      vr8 vr9 vr10 vr11 vr12 vr13 vr14 vr15 vrip vrfl 262144 vgs
      raHost)).mem 131048 = c.r13 ∧
    (syscall_fn_return (hostStart c vrax vrbx vrcx vrdx vrsi vrdi vrbp vrsp
      vr8 vr9 vr10 vr11 vr12 vr13 vr14 vr15 vrip vrfl 262144 vgs
      raHost)).mem 131040 = c.r12 ∧
    (syscall_fn_return (hostStart c vrax vrbx vrcx vrdx vrsi vrdi vrbp vrsp
      vr8 vr9 vr10 vr11 vr12 vr13 vr14 vr15 vrip vrfl 262144 vgs
      raHost)).mem 131032 = c.rbp ∧
    (syscall_fn_return (hostStart c vrax vrbx vrcx vrdx vrsi vrdi vrbp vrsp
      vr8 vr9 vr10 vr11 vr12 vr13 vr14 vr15 vrip vrfl 262144 vgs
      raHost)).mem 131024 = c.rbx ∧
    (roundTrip c vrax vrbx vrcx vrdx vrsi vrdi vrbp vrsp vr8 vr9 vr10 vr11
      vr12 vr13 vr14 vr15 vrip vrfl vgs raHost grax grbx grcx grdx grsi
      grdi grbp gr8 gr9 gr10 gr11 gr12 gr13 gr14 gr15 gfl ra).rbx
      = c.rbx ∧
    (roundTrip c vrax vrbx vrcx vrdx vrsi vrdi vrbp vrsp vr8 vr9 vr10 vr11
      vr12 vr13 vr14 vr15 vrip vrfl vgs raHost grax grbx grcx grdx grsi
      grdi grbp gr8 gr9 gr10 gr11 gr12 gr13 gr14 gr15 gfl ra).rbp
      = c.rbp ∧
    (roundTrip c vrax vrbx vrcx vrdx vrsi vrdi vrbp vrsp vr8 vr9 vr10 vr11
      vr12 vr13 vr14 vr15 vrip vrfl vgs raHost grax grbx grcx grdx grsi
      grdi grbp gr8 gr9 gr10 gr11 gr12 gr13 gr14 gr15 gfl ra).r12
      = c.r12 ∧
    (roundTrip c vrax vrbx vrcx vrdx vrsi vrdi vrbp vrsp vr8 vr9 vr10 vr11
      vr12 vr13 vr14 vr15 vrip vrfl vgs raHost grax grbx grcx grdx grsi
      grdi grbp gr8 gr9 gr10 gr11 gr12 gr13 gr14 gr15 gfl ra).r13
      = c.r13 ∧
    (roundTrip c vrax vrbx vrcx vrdx vrsi vrdi vrbp vrsp vr8 vr9 vr10 vr11
      vr12 vr13 vr14 vr15 vrip vrfl vgs raHost grax grbx grcx grdx grsi
      grdi grbp gr8 gr9 gr10 gr11 gr12 gr13 gr14 gr15 gfl ra).r14
      = c.r14 ∧
    (roundTrip c vrax vrbx vrcx vrdx vrsi vrdi vrbp vrsp vr8 vr9 vr10 vr11
      vr12 vr13 vr14 vr15 vrip vrfl vgs raHost grax grbx grcx grdx grsi
      grdi grbp gr8 gr9 gr10 gr11 gr12 gr13 gr14 gr15 gfl ra).r15
      = c.r15 ∧
    (roundTrip c vrax vrbx vrcx vrdx vrsi vrdi vrbp vrsp vr8 vr9 vr10 vr11
      vr12 vr13 vr14 vr15 vrip vrfl vgs raHost grax grbx grcx grdx grsi
      grdi grbp gr8 gr9 gr10 gr11 gr12 gr13 gr14 gr15 gfl ra).rsp
      = 131080 ∧
    (roundTrip c vrax vrbx vrcx vrdx vrsi vrdi vrbp vrsp vr8 vr9 vr10 vr11
      vr12 vr13 vr14 vr15 vrip vrfl vgs raHost grax grbx grcx grdx grsi
      grdi grbp gr8 gr9 gr10 gr11 gr12 gr13 gr14 gr15 gfl ra).rip
      = raHost := by
  unfold roundTrip
  rw [entry_eval, resume_eval]
  refine ⟨?_, ?_, ?_, ?_, ?_, ?_, rfl, rfl, rfl, rfl, rfl, rfl, rfl, rfl⟩ <;>
    norm_num [store, setSlot, scenarioMem, wrap, W, KFS, HOSTRSP, FRAME,
      UFS, GUESTRSP]
theorem pre_entry_eval (c : Machine)
    (vrax vrbx vrcx vrdx vrsi vrdi vrbp vrsp vr8 vr9 vr10 vr11 vr12 vr13
     vr14 vr15 vrip vrfl vgs raHost : Nat)
    (grax grbx grcx grdx grsi grdi grbp gr8 gr9 gr10 gr11 gr12 gr13 gr14
     gr15 gfl ra : Nat) :
    callEnter (guestMutate (syscall_fn_return (hostStart c vrax vrbx vrcx vrdx vrsi vrdi vrbp vrsp vr8 vr9 vr10 vr11 vr12 vr13 vr14 vr15 vrip vrfl 262144 vgs raHost)) grax grbx grcx grdx grsi grdi grbp gr8 gr9 gr10 gr11 gr12 gr13 gr14 gr15 gfl) ra =
    (⟨(grax), (grbx), (grcx), (grdx), (grsi), (grdi), (grbp), (327672), (gr8), (gr9), (gr10), (gr11), (gr12), (gr13), (gr14), (gr15), (vrip), (gfl), (262144), (store (store (store (store (store (store (store (store (store (store (scenarioMem c.mem vrax vrbx vrcx vrdx vrsi vrdi vrbp vrsp vr8 vr9 vr10 vr11 vr12 vr13 vr14 vr15 vrip vrfl 262144 vgs raHost) 131064 (c.r15)) 131056 (c.r14)) 131048 (c.r13)) 131040 (c.r12)) 131032 (c.rbp)) 131024 (c.rbx)) 131016 (196608)) 65600 (131016)) 262192 (65536)) 327672 (ra))⟩ : Machine) := by
  rw [resume_eval]
  have g1 : guestMutate ((⟨(vrax), (vrbx), (vrcx), (vrdx), (vrsi), (vrdi), (vrbp), (vrsp), (vr8), (vr9), (vr10), (vrip), (vr12), (vr13), (vr14), (vr15), (vrip), (vrfl), (262144), (store (store (store (store (store (store (store (store (store (scenarioMem c.mem vrax vrbx vrcx vrdx vrsi vrdi vrbp vrsp vr8 vr9 vr10 vr11 vr12 vr13 vr14 vr15 vrip vrfl 262144 vgs raHost) 131064 (c.r15)) 131056 (c.r14)) 131048 (c.r13)) 131040 (c.r12)) 131032 (c.rbp)) 131024 (c.rbx)) 131016 (196608)) 65600 (131016)) 262192 (65536))⟩ : Machine)) grax grbx grcx grdx grsi grdi grbp gr8 gr9 gr10 gr11 gr12 gr13 gr14 gr15 gfl = (⟨(grax), (grbx), (grcx), (grdx), (grsi), (grdi), (grbp), (327680), (gr8), (gr9), (gr10), (gr11), (gr12), (gr13), (gr14), (gr15), (vrip), (gfl), (262144), (store (store (store (store (store (store (store (store (store (scenarioMem c.mem vrax vrbx vrcx vrdx vrsi vrdi vrbp vrsp vr8 vr9 vr10 vr11 vr12 vr13 vr14 vr15 vrip vrfl 262144 vgs raHost) 131064 (c.r15)) 131056 (c.r14)) 131048 (c.r13)) 131040 (c.r12)) 131032 (c.rbp)) 131024 (c.rbx)) 131016 (196608)) 65600 (131016)) 262192 (65536))⟩ : Machine) := by
    simp only [guestMutate]
    all_goals norm_num [Machine.mk.injEq, wrap, W, store, setSlot, scenarioMem, hostStart, KFS, HOSTRSP, FRAME, UFS, GUESTRSP]
  rw [g1]
  have g2 : callEnter ((⟨(grax), (grbx), (grcx), (grdx), (grsi), (grdi), (grbp), (327680), (gr8), (gr9), (gr10), (gr11), (gr12), (gr13), (gr14), (gr15), (vrip), (gfl), (262144), (store (store (store (store (store (store (store (store (store (scenarioMem c.mem vrax vrbx vrcx vrdx vrsi vrdi vrbp vrsp vr8 vr9 vr10 vr11 vr12 vr13 vr14 vr15 vrip vrfl 262144 vgs raHost) 131064 (c.r15)) 131056 (c.r14)) 131048 (c.r13)) 131040 (c.r12)) 131032 (c.rbp)) 131024 (c.rbx)) 131016 (196608)) 65600 (131016)) 262192 (65536))⟩ : Machine)) ra = (⟨(grax), (grbx), (grcx), (grdx), (grsi), (grdi), (grbp), (327672), (gr8), (gr9), (gr10), (gr11), (gr12), (gr13), (gr14), (gr15), (vrip), (gfl), (262144), (store (store (store (store (store (store (store (store (store (store (scenarioMem c.mem vrax vrbx vrcx vrdx vrsi vrdi vrbp vrsp vr8 vr9 vr10 vr11 vr12 vr13 vr14 vr15 vrip vrfl 262144 vgs raHost) 131064 (c.r15)) 131056 (c.r14)) 131048 (c.r13)) 131040 (c.r12)) 131032 (c.rbp)) 131024 (c.rbx)) 131016 (196608)) 65600 (131016)) 262192 (65536)) 327672 (ra))⟩ : Machine) := by
    simp only [callEnter, pushv]
    all_goals norm_num [Machine.mk.injEq, wrap, W, store, setSlot, scenarioMem, hostStart, KFS, HOSTRSP, FRAME, UFS, GUESTRSP]
  rw [g2]


theorem machineMk_mem (a1 a2 a3 a4 a5 a6 a7 a8 a9 a10 a11 a12 a13 a14 a15
    a16 a17 a18 a19 : Nat) (mm : Nat → Nat) :
    (Machine.mk a1 a2 a3 a4 a5 a6 a7 a8 a9 a10 a11 a12 a13 a14 a15 a16 a17
      a18 a19 mm).mem = mm := rfl

/-- Claim C7: syscall_fn_entry writes exactly the twenty 8-byte frame
slots, in the fixed push order (gs placeholder first, on top of the frame,
down to rax at the frame base): every address outside the frame range
[196608, 196768) is untouched by Enter, the gs-base placeholder slot holds
0 after every Enter, the fsbase slot holds the guest TLS base read from
offset 0 of the active guest TLS block, and the layout ascends from rax at
the base through the register, rip and rflags slots to the two TLS slots
at the top. -/
theorem c7_enter_frame_layout (c : Machine)
    (vrax vrbx vrcx vrdx vrsi vrdi vrbp vrsp vr8 vr9 vr10 vr11 vr12 vr13
     vr14 vr15 vrip vrfl vgs raHost : Nat)
    (grax grbx grcx grdx grsi grdi grbp gr8 gr9 gr10 gr11 gr12 gr13 gr14
     gr15 gfl ra : Nat) :
    (∀ a : Nat, a < 196608 ∨ 196768 ≤ a →
      (roundTrip c vrax vrbx vrcx vrdx vrsi vrdi vrbp vrsp vr8 vr9 vr10 vr11 vr12 vr13 vr14 vr15 vrip vrfl vgs raHost grax grbx grcx grdx grsi grdi grbp gr8 gr9 gr10 gr11 gr12 gr13 gr14 gr15 gfl ra).mem a
        = (callEnter (guestMutate (syscall_fn_return (hostStart c vrax vrbx vrcx vrdx vrsi vrdi vrbp vrsp vr8 vr9 vr10 vr11 vr12 vr13 vr14 vr15 vrip vrfl 262144 vgs raHost)) grax grbx grcx grdx grsi grdi grbp gr8 gr9 gr10 gr11 gr12 gr13 gr14 gr15 gfl) ra).mem a) ∧
    (roundTrip c vrax vrbx vrcx vrdx vrsi vrdi vrbp vrsp vr8 vr9 vr10 vr11 vr12 vr13 vr14 vr15 vrip vrfl vgs raHost grax grbx grcx grdx grsi grdi grbp gr8 gr9 gr10 gr11 gr12 gr13 gr14 gr15 gfl ra).mem 196608 = grax ∧
    (roundTrip c vrax vrbx vrcx vrdx vrsi vrdi vrbp vrsp vr8 vr9 vr10 vr11 vr12 vr13 vr14 vr15 vrip vrfl vgs raHost grax grbx grcx grdx grsi grdi grbp gr8 gr9 gr10 gr11 gr12 gr13 gr14 gr15 gfl ra).mem 196616 = grbx ∧
    (roundTrip c vrax vrbx vrcx vrdx vrsi vrdi vrbp vrsp vr8 vr9 vr10 vr11 vr12 vr13 vr14 vr15 vrip vrfl vgs raHost grax grbx grcx grdx grsi grdi grbp gr8 gr9 gr10 gr11 gr12 gr13 gr14 gr15 gfl ra).mem 196624 = grcx ∧
    (roundTrip c vrax vrbx vrcx vrdx vrsi vrdi vrbp vrsp vr8 vr9 vr10 vr11 vr12 vr13 vr14 vr15 vrip vrfl vgs raHost grax grbx grcx grdx grsi grdi grbp gr8 gr9 gr10 gr11 gr12 gr13 gr14 gr15 gfl ra).mem 196632 = grdx ∧
    (roundTrip c vrax vrbx vrcx vrdx vrsi vrdi vrbp vrsp vr8 vr9 vr10 vr11 vr12 vr13 vr14 vr15 vrip vrfl vgs raHost grax grbx grcx grdx grsi grdi grbp gr8 gr9 gr10 gr11 gr12 gr13 gr14 gr15 gfl ra).mem 196640 = grsi ∧
    (roundTrip c vrax vrbx vrcx vrdx vrsi vrdi vrbp vrsp vr8 vr9 vr10 vr11 vr12 vr13 vr14 vr15 vrip vrfl vgs raHost grax grbx grcx grdx grsi grdi grbp gr8 gr9 gr10 gr11 gr12 gr13 gr14 gr15 gfl ra).mem 196648 = grdi ∧
    (roundTrip c vrax vrbx vrcx vrdx vrsi vrdi vrbp vrsp vr8 vr9 vr10 vr11 vr12 vr13 vr14 vr15 vrip vrfl vgs raHost grax grbx grcx grdx grsi grdi grbp gr8 gr9 gr10 gr11 gr12 gr13 gr14 gr15 gfl ra).mem 196656 = grbp ∧
    (roundTrip c vrax vrbx vrcx vrdx vrsi vrdi vrbp vrsp vr8 vr9 vr10 vr11 vr12 vr13 vr14 vr15 vrip vrfl vgs raHost grax grbx grcx grdx grsi grdi grbp gr8 gr9 gr10 gr11 gr12 gr13 gr14 gr15 gfl ra).mem 196664 = 327680 ∧
    (roundTrip c vrax vrbx vrcx vrdx vrsi vrdi vrbp vrsp vr8 vr9 vr10 vr11 vr12 vr13 vr14 vr15 vrip vrfl vgs raHost grax grbx grcx grdx grsi grdi grbp gr8 gr9 gr10 gr11 gr12 gr13 gr14 gr15 gfl ra).mem 196672 = gr8 ∧
    (roundTrip c vrax vrbx vrcx vrdx vrsi vrdi vrbp vrsp vr8 vr9 vr10 vr11 vr12 vr13 vr14 vr15 vrip vrfl vgs raHost grax grbx grcx grdx grsi grdi grbp gr8 gr9 gr10 gr11 gr12 gr13 gr14 gr15 gfl ra).mem 196680 = gr9 ∧
    (roundTrip c vrax vrbx vrcx vrdx vrsi vrdi vrbp vrsp vr8 vr9 vr10 vr11 vr12 vr13 vr14 vr15 vrip vrfl vgs raHost grax grbx grcx grdx grsi grdi grbp gr8 gr9 gr10 gr11 gr12 gr13 gr14 gr15 gfl ra).mem 196688 = gr10 ∧
    (roundTrip c vrax vrbx vrcx vrdx vrsi vrdi vrbp vrsp vr8 vr9 vr10 vr11 vr12 vr13 vr14 vr15 vrip vrfl vgs raHost grax grbx grcx grdx grsi grdi grbp gr8 gr9 gr10 gr11 gr12 gr13 gr14 gr15 gfl ra).mem 196696 = 327680 ∧
    (roundTrip c vrax vrbx vrcx vrdx vrsi vrdi vrbp vrsp vr8 vr9 vr10 vr11 vr12 vr13 vr14 vr15 vrip vrfl vgs raHost grax grbx grcx grdx grsi grdi grbp gr8 gr9 gr10 gr11 gr12 gr13 gr14 gr15 gfl ra).mem 196704 = gr12 ∧
    (roundTrip c vrax vrbx vrcx vrdx vrsi vrdi vrbp vrsp vr8 vr9 vr10 vr11 vr12 vr13 vr14 vr15 vrip vrfl vgs raHost grax grbx grcx grdx grsi grdi grbp gr8 gr9 gr10 gr11 gr12 gr13 gr14 gr15 gfl ra).mem 196712 = gr13 ∧
    (roundTrip c vrax vrbx vrcx vrdx vrsi vrdi vrbp vrsp vr8 vr9 vr10 vr11 vr12 vr13 vr14 vr15 vrip vrfl vgs raHost grax grbx grcx grdx grsi grdi grbp gr8 gr9 gr10 gr11 gr12 gr13 gr14 gr15 gfl ra).mem 196720 = gr14 ∧
    (roundTrip c vrax vrbx vrcx vrdx vrsi vrdi vrbp vrsp vr8 vr9 vr10 vr11 vr12 vr13 vr14 vr15 vrip vrfl vgs raHost grax grbx grcx grdx grsi grdi grbp gr8 gr9 gr10 gr11 gr12 gr13 gr14 gr15 gfl ra).mem 196728 = gr15 ∧
    (roundTrip c vrax vrbx vrcx vrdx vrsi vrdi vrbp vrsp vr8 vr9 vr10 vr11 vr12 vr13 vr14 vr15 vrip vrfl vgs raHost grax grbx grcx grdx grsi grdi grbp gr8 gr9 gr10 gr11 gr12 gr13 gr14 gr15 gfl ra).mem 196736 = ra ∧
    (roundTrip c vrax vrbx vrcx vrdx vrsi vrdi vrbp vrsp vr8 vr9 vr10 vr11 vr12 vr13 vr14 vr15 vrip vrfl vgs raHost grax grbx grcx grdx grsi grdi grbp gr8 gr9 gr10 gr11 gr12 gr13 gr14 gr15 gfl ra).mem 196744 = gfl ∧
    (roundTrip c vrax vrbx vrcx vrdx vrsi vrdi vrbp vrsp vr8 vr9 vr10 vr11 vr12 vr13 vr14 vr15 vrip vrfl vgs raHost grax grbx grcx grdx grsi grdi grbp gr8 gr9 gr10 gr11 gr12 gr13 gr14 gr15 gfl ra).mem 196752 = 262144 ∧
    (roundTrip c vrax vrbx vrcx vrdx vrsi vrdi vrbp vrsp vr8 vr9 vr10 vr11 vr12 vr13 vr14 vr15 vrip vrfl vgs raHost grax grbx grcx grdx grsi grdi grbp gr8 gr9 gr10 gr11 gr12 gr13 gr14 gr15 gfl ra).mem 196760 = 0 := by
  unfold roundTrip
  rw [entry_eval, pre_entry_eval]
  refine ⟨?_, ?_, ?_, ?_, ?_, ?_, ?_, ?_, ?_, ?_, ?_, ?_, ?_, ?_, ?_, ?_,
    ?_, ?_, ?_, ?_, ?_⟩
  case _ =>
    intro a ha
    rw [machineMk_mem, machineMk_mem]
    rw [store_ne _ 196608 _ a (by omega)]
    rw [store_ne _ 196616 _ a (by omega)]
    rw [store_ne _ 196624 _ a (by omega)]
    rw [store_ne _ 196632 _ a (by omega)]
    rw [store_ne _ 196640 _ a (by omega)]
    rw [store_ne _ 196648 _ a (by omega)]
    rw [store_ne _ 196656 _ a (by omega)]
    rw [store_ne _ 196664 _ a (by omega)]
    rw [store_ne _ 196672 _ a (by omega)]
    rw [store_ne _ 196680 _ a (by omega)]
    rw [store_ne _ 196688 _ a (by omega)]
    rw [store_ne _ 196696 _ a (by omega)]
    rw [store_ne _ 196704 _ a (by omega)]
    rw [store_ne _ 196712 _ a (by omega)]
    rw [store_ne _ 196720 _ a (by omega)]
    rw [store_ne _ 196728 _ a (by omega)]
    rw [store_ne _ 196736 _ a (by omega)]
    rw [store_ne _ 196744 _ a (by omega)]
    rw [store_ne _ 196752 _ a (by omega)]
    rw [store_ne _ 196760 _ a (by omega)]
  all_goals
    norm_num [store, setSlot, scenarioMem, wrap, W, KFS, HOSTRSP, FRAME,
      UFS, GUESTRSP]

/-- Claim C10: syscall_fn_return never writes to the trap frame: every
frame slot in [196608, 196768) holds, when control reaches the guest, the
value it held when Resume was invoked, both when the frame fsbase field is
an established nonzero base and when it is zero so that the first
transition fallback path runs; in the fallback case the frame fsbase field
itself is still zero when the guest starts (the fallback writes the
derived base into the guest TLS block self-pointer slot, outside the
frame). -/
theorem c10_resume_frame_readonly (c : Machine)
    (vrax vrbx vrcx vrdx vrsi vrdi vrbp vrsp vr8 vr9 vr10 vr11 vr12 vr13
     vr14 vr15 vrip vrfl vgs raHost : Nat) :
    (∀ a : Nat, 196608 ≤ a → a < 196768 →
      (syscall_fn_return (hostStart c vrax vrbx vrcx vrdx vrsi vrdi vrbp vrsp vr8 vr9 vr10 vr11 vr12 vr13 vr14 vr15 vrip vrfl 262144 vgs raHost)).mem a = (hostStart c vrax vrbx vrcx vrdx vrsi vrdi vrbp vrsp vr8 vr9 vr10 vr11 vr12 vr13 vr14 vr15 vrip vrfl 262144 vgs raHost).mem a) ∧
    (∀ a : Nat, 196608 ≤ a → a < 196768 →
      (syscall_fn_return (hostStart c vrax vrbx vrcx vrdx vrsi vrdi vrbp vrsp vr8 vr9 vr10 vr11 vr12 vr13 vr14 vr15 vrip vrfl 0 vgs raHost)).mem a = (hostStart c vrax vrbx vrcx vrdx vrsi vrdi vrbp vrsp vr8 vr9 vr10 vr11 vr12 vr13 vr14 vr15 vrip vrfl 0 vgs raHost).mem a) ∧
    (syscall_fn_return (hostStart c vrax vrbx vrcx vrdx vrsi vrdi vrbp vrsp vr8 vr9 vr10 vr11 vr12 vr13 vr14 vr15 vrip vrfl 0 vgs raHost)).mem 196752 = 0 := by
  rw [resume_eval, resume_eval_fb]
  have hm1 : (hostStart c vrax vrbx vrcx vrdx vrsi vrdi vrbp vrsp vr8 vr9 vr10 vr11 vr12 vr13 vr14 vr15 vrip vrfl 262144 vgs raHost).mem
      = scenarioMem c.mem vrax vrbx vrcx vrdx vrsi vrdi vrbp vrsp vr8 vr9
          vr10 vr11 vr12 vr13 vr14 vr15 vrip vrfl 262144 vgs raHost := rfl
  have hm2 : (hostStart c vrax vrbx vrcx vrdx vrsi vrdi vrbp vrsp vr8 vr9 vr10 vr11 vr12 vr13 vr14 vr15 vrip vrfl 0 vgs raHost).mem
      = scenarioMem c.mem vrax vrbx vrcx vrdx vrsi vrdi vrbp vrsp vr8 vr9
          vr10 vr11 vr12 vr13 vr14 vr15 vrip vrfl 0 vgs raHost := rfl
  refine ⟨?_, ?_, ?_⟩
  case _ =>
    intro a h1 h2
    rw [machineMk_mem, hm1]
    rw [store_ne _ 262192 _ a (by omega)]
    rw [store_ne _ 65600 _ a (by omega)]
    rw [store_ne _ 131016 _ a (by omega)]
    rw [store_ne _ 131024 _ a (by omega)]
    rw [store_ne _ 131032 _ a (by omega)]
    rw [store_ne _ 131040 _ a (by omega)]
    rw [store_ne _ 131048 _ a (by omega)]
    rw [store_ne _ 131056 _ a (by omega)]
    rw [store_ne _ 131064 _ a (by omega)]
  case _ =>
    intro a h1 h2
    rw [machineMk_mem, hm2]
    rw [store_ne _ 65656 _ a (by omega)]
    rw [store_ne _ 65608 _ a (by omega)]
    rw [store_ne _ 65600 _ a (by omega)]
    rw [store_ne _ 131016 _ a (by omega)]
    rw [store_ne _ 131024 _ a (by omega)]
    rw [store_ne _ 131032 _ a (by omega)]
    rw [store_ne _ 131040 _ a (by omega)]
    rw [store_ne _ 131048 _ a (by omega)]
    rw [store_ne _ 131056 _ a (by omega)]
    rw [store_ne _ 131064 _ a (by omega)]
  case _ =>
    norm_num [store, setSlot, scenarioMem, wrap, W, KFS, HOSTRSP, FRAME,
      UFS, GUESTRSP]

/-- Claim C5: if the frame TLS-base field is zero when Resume runs, the
POP_USER_FSBASE macro installs as guest TLS base the fixed address kernel
base + 72 on Linux (kernel gs base + 240 on Darwin) and writes that
address into the self-pointer slot at offset 0 of the new guest TLS block,
making the slot nonzero; after an intervening Enter, a second Resume with
the same still-zero field recomputes the identical base and leaves the
slot with the same value (idempotent). The hypotheses state the documented
host TLS conventions: on Linux offset 0 of the kernel block holds the
kernel fs base, on Darwin offset 0 holds kernel gs base minus 224. -/
theorem c5_first_transition_fallback
    (H : Nat) (m : Nat → Nat) (hm : m H = H) (hW : H + 120 < W)
    (K : Nat) (md : Nat → Nat) (hk : 224 ≤ K) (hmd : md K = K - 224)
    (hWd : K + 288 < W) :
    ((FsLinux.popUserFsbase 0 ⟨H, m⟩).base = H + 72 ∧
     (FsLinux.popUserFsbase 0 ⟨H, m⟩).mem (H + 72) = H + 72 ∧
     H + 72 ≠ 0 ∧
     (FsLinux.popUserFsbase 0 (FsLinux.switchToKernelFsbase
        (FsLinux.popUserFsbase 0 ⟨H, m⟩))).base = H + 72 ∧
     (FsLinux.popUserFsbase 0 (FsLinux.switchToKernelFsbase
        (FsLinux.popUserFsbase 0 ⟨H, m⟩))).mem (H + 72) = H + 72) ∧
    ((FsDarwin.popUserFsbase 0 ⟨K, md⟩).base = K + 240 ∧
     (FsDarwin.popUserFsbase 0 ⟨K, md⟩).mem (K + 240) = K + 240 ∧
     K + 240 ≠ 0 ∧
     (FsDarwin.popUserFsbase 0 (FsDarwin.switchToKernelFsbase
        (FsDarwin.popUserFsbase 0 ⟨K, md⟩))).base = K + 240 ∧
     (FsDarwin.popUserFsbase 0 (FsDarwin.switchToKernelFsbase
        (FsDarwin.popUserFsbase 0 ⟨K, md⟩))).mem (K + 240) = K + 240) := by
  have w1 : wrap (H + 72) = H + 72 := wrap_eq_of_lt _ (by omega)
  have w2 : wrap (H + 72 + 48) = H + 120 := by
    rw [show H + 72 + 48 = H + 120 from by omega]
    exact wrap_eq_of_lt _ (by omega)
  have hksub : K - 224 + 224 = K := by omega
  have wK : wrap K = K := wrap_eq_of_lt _ (by omega)
  have wd1 : wrap (K + 240) = K + 240 := wrap_eq_of_lt _ (by omega)
  have wd2 : wrap (K + 240 + 48) = K + 288 := by
    rw [show K + 240 + 48 = K + 288 from by omega]
    exact wrap_eq_of_lt _ (by omega)
  refine ⟨⟨?_, ?_, by omega, ?_, ?_⟩, ⟨?_, ?_, by omega, ?_, ?_⟩⟩ <;>
    norm_num [FsLinux.popUserFsbase, FsLinux.switchToKernelFsbase,
      FsDarwin.popUserFsbase, FsDarwin.switchToKernelFsbase, store_get,
      hm, hmd, hksub, wK, w1, w2, wd1, wd2]

/-- Claim C4: over any number n of alternating Resume/Enter cycles on one
thread (Linux fs-base model, with the frame fsbase field of each next
cycle being the value Enter captures from offset 0 of the active guest TLS
block), the active TLS base observed by host code after each Enter equals
the original kernel base H, and the active TLS base observed by guest code
after each Resume equals the guest base gb established the first time
(gb = f0 when the initial frame field f0 is nonzero with the musl
self-pointer convention, and gb = H + 72 through the first-transition
fallback when f0 = 0); moreover the stash slot at guest offset 48 holds H
after every Resume, carrying the kernel base across every cycle. -/
theorem c4_tls_base_preservation (H f0 gb : Nat) (m : Nat → Nat)
    (hm : m H = H) (hW : H + 120 < W)
    (hgb : gb = if f0 = 0 then H + 72 else f0)
    (hf : f0 ≠ 0 → m f0 = f0 ∧ f0 ≠ H ∧ f0 + 48 ≠ H ∧ f0 + 48 < W) :
    ∀ n : Nat,
      ((FsLinux.fsCycle)^[n] (⟨H, m⟩, f0)).1.base = H ∧
      (FsLinux.popUserFsbase ((FsLinux.fsCycle)^[n] (⟨H, m⟩, f0)).2
        ((FsLinux.fsCycle)^[n] (⟨H, m⟩, f0)).1).base = gb ∧
      (FsLinux.popUserFsbase ((FsLinux.fsCycle)^[n] (⟨H, m⟩, f0)).2
        ((FsLinux.fsCycle)^[n] (⟨H, m⟩, f0)).1).mem (gb + 48) = H := by
  have hgb0 : gb ≠ 0 := by
    by_cases h : f0 = 0 <;> simp [hgb, h] <;> omega
  have hgbW : gb + 48 < W := by
    by_cases h : f0 = 0
    · simp only [hgb, if_pos h]; omega
    · simp only [hgb, if_neg h]; exact (hf h).2.2.2
  have hgbH : gb + 48 ≠ H := by
    by_cases h : f0 = 0
    · simp only [hgb, if_pos h]; omega
    · simp only [hgb, if_neg h]; exact (hf h).2.2.1
  have hgbne : gb ≠ gb + 48 := by omega
  have wgb : wrap (gb + 48) = gb + 48 := wrap_eq_of_lt _ (by omega)
  have w72 : wrap (H + 72) = H + 72 := wrap_eq_of_lt _ (by omega)
  have step : ∀ (s : TlsState) (f : Nat),
      s.base = H → s.mem H = H →
      (f = gb ∧ s.mem gb = gb ∨ f0 = 0 ∧ f = 0) →
      (FsLinux.popUserFsbase f s).base = gb ∧
      (FsLinux.popUserFsbase f s).mem (gb + 48) = H ∧
      (FsLinux.fsCycle (s, f)).1.base = H ∧
      (FsLinux.fsCycle (s, f)).1.mem H = H ∧
      ((FsLinux.fsCycle (s, f)).2 = gb ∧
        (FsLinux.fsCycle (s, f)).1.mem gb = gb ∨
       f0 = 0 ∧ (FsLinux.fsCycle (s, f)).2 = 0) := by
    intro s f hb hH hcase
    rcases hcase with ⟨hfgb, hmgb⟩ | ⟨hf00, hf0⟩
    · rw [hfgb]
      have hpop : FsLinux.popUserFsbase gb s
          = ⟨gb, store s.mem (gb + 48) H⟩ := by
        rw [FsLinux.popUserFsbase, if_pos hgb0, hb, hH, wgb]
      have hsw : FsLinux.switchToKernelFsbase ⟨gb, store s.mem (gb + 48) H⟩
          = ⟨H, store s.mem (gb + 48) H⟩ := by
        rw [FsLinux.switchToKernelFsbase]
        norm_num [wgb, store_same]
      refine ⟨by rw [hpop], by rw [hpop]; exact store_same _ _ _, ?_, ?_, ?_⟩
      · show (FsLinux.switchToKernelFsbase (FsLinux.popUserFsbase gb s)).base = H
        rw [hpop, hsw]
      · show (FsLinux.switchToKernelFsbase (FsLinux.popUserFsbase gb s)).mem H = H
        rw [hpop, hsw]
        show store s.mem (gb + 48) H H = H
        rw [store_ne _ _ _ _ (fun hc => hgbH hc.symm)]
        exact hH
      · left
        constructor
        · show (FsLinux.popUserFsbase gb s).mem
              (FsLinux.popUserFsbase gb s).base = gb
          rw [hpop]
          show store s.mem (gb + 48) H gb = gb
          rw [store_ne _ _ _ _ hgbne]
          exact hmgb
        · show (FsLinux.switchToKernelFsbase (FsLinux.popUserFsbase gb s)).mem
              gb = gb
          rw [hpop, hsw]
          show store s.mem (gb + 48) H gb = gb
          rw [store_ne _ _ _ _ hgbne]
          exact hmgb
    · rw [hf0]
      have hgb72 : gb = H + 72 := by rw [hgb, if_pos hf00]
      have hpop : FsLinux.popUserFsbase 0 s
          = ⟨gb, store (store s.mem gb gb) (gb + 48) H⟩ := by
        rw [FsLinux.popUserFsbase]
        norm_num [hb, hH, hgb72, w72, wgb.symm]
        rw [← hgb72, wgb]
      have hmem0 : store (store s.mem gb gb) (gb + 48) H gb = gb := by
        rw [store_ne _ _ _ _ hgbne]
        exact store_same _ _ _
      have hsw : FsLinux.switchToKernelFsbase
            ⟨gb, store (store s.mem gb gb) (gb + 48) H⟩
          = ⟨H, store (store s.mem gb gb) (gb + 48) H⟩ := by
        rw [FsLinux.switchToKernelFsbase]
        norm_num [wgb, store_same]
      refine ⟨by rw [hpop], by rw [hpop]; exact store_same _ _ _, ?_, ?_, ?_⟩
      · show (FsLinux.switchToKernelFsbase (FsLinux.popUserFsbase 0 s)).base = H
        rw [hpop, hsw]
      · show (FsLinux.switchToKernelFsbase (FsLinux.popUserFsbase 0 s)).mem H = H
        rw [hpop, hsw]
        show store (store s.mem gb gb) (gb + 48) H H = H
        rw [store_ne _ _ _ _ (fun hc => hgbH hc.symm)]
        rw [store_ne _ _ _ _ (by omega : ¬ H = gb)]
        exact hH
      · left
        constructor
        · show (FsLinux.popUserFsbase 0 s).mem
              (FsLinux.popUserFsbase 0 s).base = gb
          rw [hpop]
          exact hmem0
        · show (FsLinux.switchToKernelFsbase (FsLinux.popUserFsbase 0 s)).mem
              gb = gb
          rw [hpop, hsw]
          exact hmem0
  have key : ∀ n : Nat,
      ((FsLinux.fsCycle)^[n] (⟨H, m⟩, f0)).1.base = H ∧
      ((FsLinux.fsCycle)^[n] (⟨H, m⟩, f0)).1.mem H = H ∧
      (((FsLinux.fsCycle)^[n] (⟨H, m⟩, f0)).2 = gb ∧
         ((FsLinux.fsCycle)^[n] (⟨H, m⟩, f0)).1.mem gb = gb ∨
       f0 = 0 ∧ ((FsLinux.fsCycle)^[n] (⟨H, m⟩, f0)).2 = 0) := by
    intro n
    induction n with
    | zero =>
      refine ⟨rfl, hm, ?_⟩
      by_cases h : f0 = 0
      · right; exact ⟨h, h⟩
      · left
        refine ⟨by rw [hgb, if_neg h]; rfl, ?_⟩
        show m gb = gb
        rw [hgb, if_neg h]
        exact (hf h).1
    | succ k ih =>
      rw [Function.iterate_succ_apply']
      obtain ⟨ih1, ih2, ih3⟩ := ih
      have hs := step (FsLinux.fsCycle^[k] (⟨H, m⟩, f0)).1
        (FsLinux.fsCycle^[k] (⟨H, m⟩, f0)).2 ih1 ih2 ih3
      exact ⟨hs.2.2.1, hs.2.2.2.1, hs.2.2.2.2⟩
  intro n
  obtain ⟨k1, k2, k3⟩ := key n
  have hs := step (FsLinux.fsCycle^[n] (⟨H, m⟩, f0)).1
    (FsLinux.fsCycle^[n] (⟨H, m⟩, f0)).2 k1 k2 k3
  exact ⟨k1, hs.1, hs.2.1⟩

theorem c7_enter_frame_layout_witness :
    (roundTrip zeroMachine 1 2 3 4 5 6 7 8 9 10 11 12 13 14 15 16 17 18 20
      21 31 32 33 34 35 36 37 38 39 40 41 42 43 44 45 46 47).mem 0
    = (callEnter (guestMutate (syscall_fn_return (hostStart zeroMachine 1 2
        3 4 5 6 7 8 9 10 11 12 13 14 15 16 17 18 262144 20 21)) 31 32 33 34
        35 36 37 38 39 40 41 42 43 44 45 46) 47).mem 0 :=
  (c7_enter_frame_layout zeroMachine 1 2 3 4 5 6 7 8 9 10 11 12 13 14 15 16
    17 18 20 21 31 32 33 34 35 36 37 38 39 40 41 42 43 44 45 46 47).1 0
    (Or.inl (by decide))

theorem c10_resume_frame_readonly_witness :
    (syscall_fn_return (hostStart zeroMachine 1 2 3 4 5 6 7 8 9 10 11 12 13
      14 15 16 17 18 262144 20 21)).mem 196608
    = (hostStart zeroMachine 1 2 3 4 5 6 7 8 9 10 11 12 13 14 15 16 17 18
      262144 20 21).mem 196608 ∧
    (syscall_fn_return (hostStart zeroMachine 1 2 3 4 5 6 7 8 9 10 11 12 13
      14 15 16 17 18 0 20 21)).mem 196767
    = (hostStart zeroMachine 1 2 3 4 5 6 7 8 9 10 11 12 13 14 15 16 17 18
      0 20 21).mem 196767 :=
  ⟨(c10_resume_frame_readonly zeroMachine 1 2 3 4 5 6 7 8 9 10 11 12 13 14
      15 16 17 18 20 21).1 196608 (by decide) (by decide),
   (c10_resume_frame_readonly zeroMachine 1 2 3 4 5 6 7 8 9 10 11 12 13 14
      15 16 17 18 20 21).2.1 196767 (by decide) (by decide)⟩

theorem c5_first_transition_fallback_witness :
    (FsLinux.popUserFsbase 0 ⟨8, fun a => if a = 8 then 8 else 0⟩).base
      = 8 + 72 ∧
    (FsDarwin.popUserFsbase 0
      ⟨1000, fun a => if a = 1000 then 776 else 0⟩).base = 1000 + 240 :=
  ⟨(c5_first_transition_fallback 8 (fun a => if a = 8 then 8 else 0)
      (by decide) (by decide) 1000 (fun a => if a = 1000 then 776 else 0)
      (by decide) (by decide) (by decide)).1.1,
   (c5_first_transition_fallback 8 (fun a => if a = 8 then 8 else 0)
      (by decide) (by decide) 1000 (fun a => if a = 1000 then 776 else 0)
      (by decide) (by decide) (by decide)).2.1⟩

theorem c4_tls_base_preservation_witness :
    ((FsLinux.fsCycle)^[2] (⟨8, fun a => if a = 8 then 8 else 0⟩, 0)).1.base
      = 8 ∧
    (FsLinux.popUserFsbase
      ((FsLinux.fsCycle)^[2] (⟨8, fun a => if a = 8 then 8 else 0⟩, 0)).2
      ((FsLinux.fsCycle)^[2]
        (⟨8, fun a => if a = 8 then 8 else 0⟩, 0)).1).base = 80 :=
  ⟨(c4_tls_base_preservation 8 0 80 (fun a => if a = 8 then 8 else 0)
      (by decide) (by decide) (by decide) (fun h => absurd rfl h) 2).1,
   (c4_tls_base_preservation 8 0 80 (fun a => if a = 8 then 8 else 0)
      (by decide) (by decide) (by decide) (fun h => absurd rfl h) 2).2.1⟩
